import Mathlib

/-!
# eco-scale-ESP32: session state machine, weight smoothing and commit path

A shallow embedding of the two firmware files of the repository

* `src/src/main.cpp`     (the Firestore variant, namespace `Firestore`),
* `src/uploadmysql.cpp`  (the HTTP+MQTT variant, namespace `HttpMqtt`),

followed by theorems about them.

Conventions of the embedding.

* The C++ globals (and the `static` locals of `loop` and `updateStatusIndicators`)
  are the fields of one record `State`, passed explicitly.  Both files declare the
  same globals except for `offlineMode` and the static `lastMqttRetry`, which only
  `uploadmysql.cpp` has; the Firestore functions never read or write those fields.
* Functions whose text is the same in both files (`safeStringCopy`,
  `restoreDefaultDisplay`, `tampilkanSubJenisAnorganik`, `updateWeightDisplay`,
  `readSmoothedWeight`, `prosesTombol`) are embedded once.
* Everything read from the outside world (button flags, `millis()`, `WiFi.status()`,
  load-cell data, results of network calls) is an explicit input, one field per
  read, so the environment is over-approximated: no relation between two reads
  is assumed.
* Everything done to the outside world (LCD, buzzer, network calls) is appended
  to `State.trace`.  The entry and the boolean result of the functions the
  claims speak about are recorded as `Event.call` / `Event.ret`.
* `unsigned long` is 32 bits wide on the ESP32: timer differences are taken
  modulo `2^32` (`u32sub`).
* `float` values are embedded as rationals (exact arithmetic); the rendering of
  a weight with two decimals is left to the sink, the event carries the value.
* `char[N]` buffers holding NUL-terminated text are embedded as `String`
  (the firmware only stores ASCII text in them); `strcmp(a, b) == 0` is `a = b`.
* The C library call `strftime` is embedded for the conversion specifications
  that the firmware uses (`strftime`, following ISO C); what `getLocalTime` fills
  in is an input (`Tm`).
* `Serial` debug output, the watchdog reset and the set-up and tear-down calls of
  the HTTP client (`setInsecure`, `setTimeout`, `addHeader`, `end`, `stop`) are not
  part of the trace.
-/

namespace EcoScale

/-! ## Data model -/

/-- The `enum class AppState` of both files. -/
inductive AppState where
  | IDLE
  | SELECTING_SUBTYPE
  | SENDING_DATA
  | SHOWING_STATUS
deriving DecidableEq, Repr

/-- The `struct SampahType { char jenis[16]; char subJenis[16]; }` of both files. -/
structure SampahType where
  jenis : String
  subJenis : String
deriving DecidableEq, Repr

/-- Functions of the firmware whose invocation and result are recorded in the trace. -/
inductive Fn where
  | sendDataToFirebase
  | sendToLaravel
  | sendToMQTT
  | connectMQTT
  | checkNetworkHealth
  | syncTime
deriving DecidableEq, Repr

/-- Effects on the outside world, in the order in which the firmware performs them. -/
inductive Event where
  /-- Entry of a firmware function. -/
  | call (f : Fn)
  /-- Boolean result of a firmware function. -/
  | ret (f : Fn) (ok : Bool)
  /-- Arduino `tone(pin, frequency, duration)`. -/
  | tone (pin freq duration : Nat)
  | lcdClear
  | lcdSetCursor (col row : Nat)
  /-- The call `lcd.print(text)` on a C string. -/
  | lcdPrint (text : String)
  /-- The calls `lcd.write(code)` and `lcd.print(c)` on a single `char`. -/
  | lcdWrite (code : Nat)
  /-- The pair `bigNumbers.setBigNumberCursor(1, 1); bigNumbers.print(..)` of
  `updateWeightDisplay`; the value is rendered with `"%6.2f"`. -/
  | bigNumberPrint (weight : ℚ)
  | wifiReconnect
  /-- The call `Ping.ping("8.8.8.8", 1)`. -/
  | ping
  /-- The call `configTime(gmtOffset, 0, "pool.ntp.org", "time.nist.gov")`. -/
  | configTime (gmtOffset : Nat)
  /-- The call `mqttClient.connect(clientId)`, client id `"ESP32Scale-" + hex(rnd)`. -/
  | mqttConnect (rnd : Nat)
  | mqttLoop
  /-- The call `mqttClient.publish(topic, json)` with the JSON fields
  `weight` (two decimals), `fakultas`, `jenis`. -/
  | mqttPublish (topic : String) (weight : ℚ) (fakultas jenis : String)
  /-- The call `http.POST(postData)` on `url` with the form fields
  `api_key`, `berat` (two decimals), `fakultas`, `jenis`. -/
  | httpPost (url apiKey : String) (berat : ℚ) (fakultas jenis : String)
  /-- The call `Firebase.Firestore.createDocument(&fbdo, projectId, "", collection, content)`
  with the document fields `berat` (two decimals), `jenis`, `fakultas`, `timestamp`. -/
  | createDocument (projectId collection : String) (berat : ℚ)
      (jenis fakultas timestamp : String)
  /-- Arduino `pinMode(pin, OUTPUT)`. -/
  | pinModeOutput (pin : Nat)
  | lcdInit
  | lcdBacklight
  /-- The call `lcd.createChar(index, bitmap)`; the bitmap is not recorded. -/
  | lcdCreateChar (index : Nat)
  /-- The call `bigNumbers.begin()`. -/
  | bigNumbersBegin
  /-- The call `LoadCell.begin()`. -/
  | loadCellBegin
  /-- The call `EEPROM.begin(size)`. -/
  | eepromBegin (size : Nat)
  /-- The call `LoadCell.start(stabilizingTime, doTare)`. -/
  | loadCellStart (stabilizingTime : Nat) (doTare : Bool)
  /-- The call `LoadCell.setCalFactor(cal)`; the parameter is a `float`. -/
  | setCalFactor (cal : ℚ)
  /-- The call `LoadCell.setSamplesInUse(samples)`. -/
  | setSamplesInUse (samples : Nat)
deriving DecidableEq

/-- The sink sends: a Firestore `createDocument`, an HTTP `POST`, an MQTT `publish`. -/
def Event.isSend : Event → Bool
  | .createDocument _ _ _ _ _ _ => true
  | .httpPost _ _ _ _ _ => true
  | .mqttPublish _ _ _ _ => true
  | _ => false

/-- Constants of `credentials.h`, which is not among the source files: they are
parameters of the embedding. -/
structure Credentials where
  API_KEY : String
  FIREBASE_PROJECT_ID : String

/-- The globals of the firmware (see the header for the conventions). -/
structure State where
  currentState : AppState
  sampah : SampahType
  fakultas : String
  isOnline : Bool
  /-- Only in `uploadmysql.cpp`. -/
  offlineMode : Bool
  currentWeight : ℚ
  lastDisplayedWeight : ℚ
  /-- The array `float weightBuffer[2]`. -/
  weightBuffer : ℚ × ℚ
  bufferIndex : Int
  newDataReady : Bool
  lastWeightReadTime : Nat
  lastLCDUpdateTime : Nat
  lastWifiCheckTime : Nat
  statusMsgTimestamp : Nat
  /-- Static local of `updateStatusIndicators`. -/
  lastDisplayUpdateTime : Nat
  /-- Static local of `updateStatusIndicators`. -/
  blinkerState : Bool
  /-- Static local of `updateStatusIndicators`
  (`lastInternetCheckTime` in `main.cpp`, `lastPingTime` in `uploadmysql.cpp`). -/
  lastInternetCheckTime : Nat
  /-- Static local of `loop` in `uploadmysql.cpp`. -/
  lastMqttRetry : Nat
  /-- Set when `weightBuffer[bufferIndex]` is written with an index outside `0..1`
  (undefined behaviour in C++; the buffer is then left as it was). -/
  outOfBounds : Bool
  trace : List Event

/-- The four `tombol[i].isPressed()` flags of one loop iteration
(after `tombol[i].loop()`). -/
structure Tombol where
  tombol0 : Bool
  tombol1 : Bool
  tombol2 : Bool
  tombol3 : Bool
deriving DecidableEq, Repr

/-! ## Configuration constants (`namespace Config`) -/

namespace Config

def WEIGHT_READ_INTERVAL : Nat := 50
def LCD_UPDATE_INTERVAL : Nat := 100
def WIFI_CHECK_INTERVAL : Nat := 15000
def STATUS_MSG_DURATION : Nat := 2000
def PIN_BUZZER : Nat := 5

end Config

def ICON_IDX_SIGNAL_1 : Nat := 0
def ICON_IDX_SIGNAL_2 : Nat := 1
def ICON_IDX_SIGNAL_3 : Nat := 2
def ICON_IDX_SIGNAL_4 : Nat := 3
def ICON_IDX_NO_INTERNET : Nat := 4

/-! ## Shared helpers -/

/-- Difference `a - b` of two `unsigned long` values (32 bits, wrapping). -/
def u32sub (a b : Nat) : Nat :=
  (a % 4294967296 + (4294967296 - b % 4294967296)) % 4294967296

/-- Conversion of a non-negative floating constant to `unsigned long` (32 bits):
the fractional part is discarded. -/
def toUnsignedLong (x : ℚ) : Nat :=
  (Rat.floor x).toNat % 4294967296

/-- Append one effect to the trace. -/
def emit (e : Event) (s : State) : State :=
  { s with trace := s.trace ++ [e] }

/-- Append a sequence of effects to the trace. -/
def emits (es : List Event) (s : State) : State :=
  { s with trace := s.trace ++ es }

/-- The effects performed between state `s` and a later state `t`. -/
def newEvents (s t : State) : List Event :=
  t.trace.drop s.trace.length

/-- The texts given to `lcd.print`, in order. -/
def lcdTexts : List Event → List String
  | [] => []
  | .lcdPrint text :: es => text :: lcdTexts es
  | _ :: es => lcdTexts es

/-- The text of the last `lcd.print` among the given effects: what the status
line shows once they are done. -/
def lastPrint (es : List Event) : Option String :=
  (lcdTexts es).getLast?

/-- The function `safeStringCopy(dest, src, destSize)`:
`strncpy(dest, src, destSize - 1); dest[destSize - 1] = 0`.  The result is the new
content of `dest`. -/
def safeStringCopy (src : String) (destSize : Nat) : String :=
  src.take (destSize - 1)

/-- The call `snprintf(buf, size, "Jenis: %s", arg)`: the new content of `buf`. -/
def snprintfJenis (size : Nat) (arg : String) : String :=
  ("Jenis: " ++ arg).take (size - 1)

/-- The call `snprintf(signalText, size, "%3ld", rssi)`: the new content of `signalText`. -/
def snprintf3ld (size : Nat) (rssi : Int) : String :=
  let digits := toString rssi
  (String.mk (List.replicate (3 - digits.length) ' ') ++ digits).take (size - 1)

/-- The members of `struct tm` that the `strftime` conversions of the firmware read. -/
structure Tm where
  tm_sec : Int
  tm_min : Int
  tm_hour : Int
  tm_mday : Int
  tm_mon : Int
  tm_year : Int

/-- A number printed in decimal with at least two characters, padded with `'0'`
(as `"%02d"`): what the conversions `%m`, `%d`, `%H`, `%M`, `%S` of `strftime` print. -/
def pad2 (n : Int) : String :=
  let digits := toString n
  String.mk (List.replicate (2 - digits.length) '0') ++ digits

/-- The text by which `strftime` replaces the conversion specification `%c`
(ISO C 7.23.3.5): `%Y` the year `tm_year + 1900` in decimal, `%m` the month
`tm_mon + 1`, `%d` the day of the month, `%H`, `%M`, `%S` the hour, the minute and the
second, each with two digits.  The other conversions are not used by the firmware and
print nothing here. -/
def strftimeConv (c : Char) (tm : Tm) : String :=
  if c = 'Y' then toString (tm.tm_year + 1900)
  else if c = 'm' then pad2 (tm.tm_mon + 1)
  else if c = 'd' then pad2 tm.tm_mday
  else if c = 'H' then pad2 tm.tm_hour
  else if c = 'M' then pad2 tm.tm_min
  else if c = 'S' then pad2 tm.tm_sec
  else ""

/-- The text that `strftime` produces for a format, given as its list of characters:
ordinary characters are copied, `%` and the character after it are replaced by
`strftimeConv`.  The flag tells whether the previous character was the `%` of a
conversion specification. -/
def strftimeText (tm : Tm) : Bool → List Char → String
  | _, [] => ""
  | true, c :: rest => strftimeConv c tm ++ strftimeText tm false rest
  | false, c :: rest =>
    if c = '%' then strftimeText tm true rest
    else String.singleton c ++ strftimeText tm false rest

/-- The call `strftime(s, maxsize, format, &tm)`: the content of `s` afterwards, read
as a C string.  When the text and its terminating NUL do not fit in `maxsize`
characters `strftime` returns 0 and the content of `s` is indeterminate: it is then
the input `indeterminate`. -/
def strftime (maxsize : Nat) (format : String) (tm : Tm) (indeterminate : String) : String :=
  let text := strftimeText tm false format.toList
  if text.length < maxsize then text else indeterminate

/-- The statement `safeStringCopy(sampah.jenis, src, sizeof(sampah.jenis))`. -/
def setJenis (src : String) (s : State) : State :=
  { s with sampah := { s.sampah with jenis := safeStringCopy src 16 } }

/-- The statement `safeStringCopy(sampah.subJenis, src, sizeof(sampah.subJenis))`. -/
def setSubJenis (src : String) (s : State) : State :=
  { s with sampah := { s.sampah with subJenis := safeStringCopy src 16 } }

/-! ## Functions shared by both files -/

/-- The function `restoreDefaultDisplay` (`main.cpp` 484-503, `uploadmysql.cpp` 495-505). -/
def restoreDefaultDisplay (s : State) : State :=
  let displayText :=
    if s.sampah.jenis = "Anorganik" ∧ s.sampah.subJenis ≠ "--" then
      if s.sampah.subJenis = "Umum" then ("Jenis: Anorganik" : String).take 20
      else snprintfJenis 21 s.sampah.subJenis
    else snprintfJenis 21 s.sampah.jenis
  let s := emits [.lcdClear, .lcdSetCursor 0 0, .lcdPrint displayText,
    .lcdSetCursor 17 1, .lcdPrint "kg"] s
  { s with lastDisplayedWeight := -1 }

/-- The function `tampilkanSubJenisAnorganik`. -/
def tampilkanSubJenisAnorganik (s : State) : State :=
  emits [.lcdClear, .lcdSetCursor 2 0, .lcdPrint "Pilih Sub-jenis:",
    .lcdSetCursor 0 1, .lcdPrint " 1.Umum     2.Botol",
    .lcdSetCursor 0 2, .lcdPrint " 3.Kertas"] s

/-- The function `updateWeightDisplay`. -/
def updateWeightDisplay (weight : ℚ) (s : State) : State :=
  emit (.bigNumberPrint weight) s

/-- The function `readSmoothedWeight` (`main.cpp` 338-348, `uploadmysql.cpp` 448-455);
`rawWeight` is the value of `LoadCell.getData()`.  Returns the smoothed weight
and the new state. -/
def readSmoothedWeight (rawWeight : ℚ) (s : State) : ℚ × State :=
  let weightInKg := rawWeight / 1000
  let weightInKg := if weightInKg < 5 / 100 then 0 else weightInKg
  let s :=
    if s.bufferIndex = 0 then { s with weightBuffer := (weightInKg, s.weightBuffer.2) }
    else if s.bufferIndex = 1 then { s with weightBuffer := (s.weightBuffer.1, weightInKg) }
    else { s with outOfBounds := true }
  let s := { s with bufferIndex := Int.tmod (s.bufferIndex + 1) 2 }
  ((s.weightBuffer.1 + s.weightBuffer.2) / 2, s)

/-- The function `prosesTombol` (`main.cpp` 350-389, `uploadmysql.cpp` 457-487). -/
def prosesTombol (t : Tombol) (s : State) : State :=
  if t.tombol0 then
    if s.currentState = .IDLE then
      s |> setJenis "Organik" |> setSubJenis "--"
        |> emit (.tone Config.PIN_BUZZER 2500 100) |> restoreDefaultDisplay
    else if s.currentState = .SELECTING_SUBTYPE then
      let s := s |> setJenis "Anorganik" |> setSubJenis "Umum"
        |> emit (.tone Config.PIN_BUZZER 2500 100) |> restoreDefaultDisplay
      { s with currentState := .IDLE }
    else s
  else if t.tombol1 then
    if s.currentState = .IDLE then
      tampilkanSubJenisAnorganik { s with currentState := .SELECTING_SUBTYPE }
    else if s.currentState = .SELECTING_SUBTYPE then
      let s := s |> setJenis "Anorganik" |> setSubJenis "Botol"
        |> emit (.tone Config.PIN_BUZZER 2500 100) |> restoreDefaultDisplay
      { s with currentState := .IDLE }
    else s
  else if t.tombol2 then
    if s.currentState = .IDLE then
      s |> setJenis "Residu" |> setSubJenis "--"
        |> emit (.tone Config.PIN_BUZZER 2500 100) |> restoreDefaultDisplay
    else if s.currentState = .SELECTING_SUBTYPE then
      let s := s |> setJenis "Anorganik" |> setSubJenis "Kertas"
        |> emit (.tone Config.PIN_BUZZER 2500 100) |> restoreDefaultDisplay
      { s with currentState := .IDLE }
    else s
  else s

/-- Lines 189-202 of `loop` in `main.cpp` (195-210 in `uploadmysql.cpp`): weight
acquisition and weight display of the `IDLE` case.  `threshold` is
`Config::MIN_WEIGHT_THRESHOLD`, which differs between the files. -/
def idleWeight (threshold : ℚ) (currentMillis : Nat) (loadCellUpdate : Bool)
    (loadCellData : ℚ) (s : State) : State :=
  let s := if loadCellUpdate then { s with newDataReady := true } else s
  let s :=
    if s.newDataReady = true ∧
        u32sub currentMillis s.lastWeightReadTime ≥ Config.WEIGHT_READ_INTERVAL then
      let r := readSmoothedWeight loadCellData s
      { r.2 with currentWeight := r.1, lastWeightReadTime := currentMillis,
                 newDataReady := false }
    else s
  if u32sub currentMillis s.lastLCDUpdateTime ≥ Config.LCD_UPDATE_INTERVAL then
    let s :=
      if |s.currentWeight - s.lastDisplayedWeight| > threshold ∨
          s.lastDisplayedWeight = -1 then
        { updateWeightDisplay s.currentWeight s with lastDisplayedWeight := s.currentWeight }
      else s
    { s with lastLCDUpdateTime := currentMillis }
  else s

/-! ## The Firestore variant (`src/src/main.cpp`) -/

namespace Firestore

def MIN_WEIGHT_THRESHOLD : ℚ := 1 / 10

/-- What `manageWifiConnection` reads. -/
structure WifiIn where
  /-- The `millis()` of the interval test. -/
  millisCheck : Nat
  /-- Whether `WiFi.status() == WL_CONNECTED`. -/
  wifiConnected : Bool
  /-- Whether `WiFi.getMode() == WIFI_STA`. -/
  wifiModeSta : Bool
  /-- The `millis()` stored in `lastWifiCheckTime`. -/
  millisStamp : Nat

/-- What `sendDataToFirebase` reads. -/
structure SendIn where
  /-- Whether `WiFi.status() == WL_CONNECTED`. -/
  wifiConnected : Bool
  /-- The result of `getLocalTime(&timeinfo)` in `getTimestampUTC`: `none` when it
  fails, else the `timeinfo` it filled in. -/
  localTime : Option Tm
  /-- The content of `timestampBuffer` in case `strftime` returns 0 (the buffer is
  not initialised and `strftime` leaves it indeterminate). -/
  strftimeOverflow : String
  /-- The result of `Firebase.Firestore.createDocument`. -/
  createDocumentOk : Bool

/-- What `updateStatusIndicators` reads. -/
structure StatusIn where
  millisDisplay : Nat
  /-- The `WiFi.status() == WL_CONNECTED` of the signal text. -/
  wifiSignal : Bool
  rssi : Int
  /-- The `WiFi.status() == WL_CONNECTED` of the status symbol. -/
  wifiSymbol : Bool
  millisDisplayStamp : Nat
  millisCheck : Nat
  /-- The `WiFi.status() == WL_CONNECTED` of the internet check. -/
  wifiCheck : Bool
  /-- The result of `Ping.ping("8.8.8.8", 1)`. -/
  pingOk : Bool
  millisCheckStamp : Nat

/-- Everything one iteration of `loop` may read. -/
structure Inputs where
  tombol : Tombol
  wifi : WifiIn
  /-- The `currentMillis` of the `IDLE` case. -/
  millisIdle : Nat
  /-- Whether `LoadCell.update()` reported fresh data. -/
  loadCellUpdate : Bool
  /-- The value of `LoadCell.getData()`. -/
  loadCellData : ℚ
  send : SendIn
  /-- The `millis()` stored in `statusMsgTimestamp` by `handleKirimData`. -/
  millisKirim : Nat
  status : StatusIn
  /-- The `millis()` of the `SHOWING_STATUS` case. -/
  millisShowing : Nat

/-- The function `manageWifiConnection` (`main.cpp` 327-335). -/
def manageWifiConnection (i : WifiIn) (s : State) : State :=
  if u32sub i.millisCheck s.lastWifiCheckTime ≥ Config.WIFI_CHECK_INTERVAL then
    let s := if i.wifiConnected = false ∧ i.wifiModeSta = true then emit .wifiReconnect s else s
    { s with lastWifiCheckTime := i.millisStamp }
  else s

/-- The function `getTimestampUTC(buffer, bufferSize)` (`main.cpp` 570-577): the
content of `buffer` afterwards. -/
def getTimestampUTC (localTime : Option Tm) (strftimeOverflow : String) (bufferSize : Nat) :
    String :=
  match localTime with
  | none => ""
  | some timeinfo => strftime bufferSize "%Y-%m-%dT%H:%M:%SZ" timeinfo strftimeOverflow

/-- The function `sendDataToFirebase` (`main.cpp` 432-471). -/
def sendDataToFirebase (cred : Credentials) (i : SendIn) (s : State) : Bool × State :=
  let s := emit (.call .sendDataToFirebase) s
  if i.wifiConnected = false then (false, emit (.ret .sendDataToFirebase false) s)
  else
    let timestampBuffer := getTimestampUTC i.localTime i.strftimeOverflow 24
    if timestampBuffer.length = 0 then (false, emit (.ret .sendDataToFirebase false) s)
    else
      let jenisLengkap :=
        if s.sampah.jenis = "Anorganik" ∧ s.sampah.subJenis ≠ "--" then
          if s.sampah.subJenis = "Umum" then safeStringCopy "Anorganik" 16
          else safeStringCopy s.sampah.subJenis 16
        else safeStringCopy s.sampah.jenis 16
      let s := emit (.createDocument cred.FIREBASE_PROJECT_ID "sampah" s.currentWeight
        jenisLengkap s.fakultas timestampBuffer) s
      if i.createDocumentOk then (true, emit (.ret .sendDataToFirebase true) s)
      else (false, emit (.ret .sendDataToFirebase false) s)

/-- The function `handleKirimData` (`main.cpp` 391-430); `millisKirim` is the
`millis()` read at the end. -/
def handleKirimData (cred : Credentials) (t : Tombol) (i : SendIn) (millisKirim : Nat)
    (s : State) : State :=
  if s.currentState ≠ .IDLE then s
  else if t.tombol3 then
    let s := emit (.tone Config.PIN_BUZZER 2000 300) s
    let s := { s with currentState := .SENDING_DATA }
    let s := emit (.lcdSetCursor 0 0) s
    let s :=
      if s.sampah.jenis = "--" then emit (.lcdPrint "Error: Pilih Jenis!   ") s
      else
        let s := emit (.lcdPrint "Status: Mengirim... ") s
        let r := sendDataToFirebase cred i s
        let success := r.1
        let s := emits [.lcdSetCursor 0 0,
          .lcdPrint (if success then "Status: Sukses!      " else "Status: Gagal!        ")] r.2
        if success then s |> setJenis "--" |> setSubJenis "--" else s
    { s with statusMsgTimestamp := millisKirim, currentState := .SHOWING_STATUS }
  else s

/-- The function `updateStatusIndicators` (`main.cpp` 513-562). -/
def updateStatusIndicators (i : StatusIn) (s : State) : State :=
  let s :=
    if u32sub i.millisDisplay s.lastDisplayUpdateTime ≥ 2000 then
      let signalText :=
        if i.wifiSignal then snprintf3ld 5 i.rssi else safeStringCopy "!!!" 5
      let s := emits [.lcdSetCursor 17 3, .lcdPrint signalText] s
      let blinkerState := if i.wifiSymbol then !s.blinkerState else s.blinkerState
      let statusSymbol : Char :=
        if i.wifiSymbol then
          if s.isOnline then (if blinkerState then Char.ofNat 0 else ' ')
          else (if blinkerState then 'X' else ' ')
        else ' '
      let s := { s with blinkerState := blinkerState }
      let s := emits [.lcdSetCursor 0 3, .lcdWrite statusSymbol.toNat] s
      { s with lastDisplayUpdateTime := i.millisDisplayStamp }
    else s
  if u32sub i.millisCheck s.lastInternetCheckTime ≥ 10000 then
    let s :=
      if i.wifiCheck then { emit .ping s with isOnline := i.pingOk }
      else { s with isOnline := false }
    { s with lastInternetCheckTime := i.millisCheckStamp }
  else s

/-- The function `loop` (`main.cpp` 176-234): one iteration. -/
def loop (cred : Credentials) (i : Inputs) (s : State) : State :=
  let s := manageWifiConnection i.wifi s
  match s.currentState with
  | .IDLE =>
    let s := idleWeight MIN_WEIGHT_THRESHOLD i.millisIdle i.loadCellUpdate i.loadCellData s
    let s := prosesTombol i.tombol s
    let s := handleKirimData cred i.tombol i.send i.millisKirim s
    updateStatusIndicators i.status s
  | .SELECTING_SUBTYPE => prosesTombol i.tombol s
  | .SENDING_DATA => s
  | .SHOWING_STATUS =>
    if u32sub i.millisShowing s.statusMsgTimestamp > Config.STATUS_MSG_DURATION then
      { restoreDefaultDisplay s with currentState := .IDLE }
    else s

/-- Successive iterations of `loop`, one per element of `inputs`. -/
def run (cred : Credentials) (inputs : List Inputs) (s : State) : State :=
  inputs.foldl (fun st i => loop cred i st) s

/-- The constant `constexpr unsigned long CALIBRATION_VALUE = 12.01;` of `main.cpp`. -/
def CALIBRATION_VALUE : Nat := toUnsignedLong (1201 / 100)

/-- The function `initializeSystem` (`main.cpp` 239-266); `tareTimeout` is the value
of `LoadCell.getTareTimeoutFlag()`.  The result is `.error` with the state reached
when the function hangs in `while (1);`, else `.ok` with the state on return. -/
def initializeSystem (tareTimeout : Bool) (s : State) : Except State State :=
  let s := s |> setJenis "--" |> setSubJenis "--"
  let s := emits [.pinModeOutput Config.PIN_BUZZER, .lcdInit, .lcdBacklight, .lcdClear,
    .lcdCreateChar ICON_IDX_SIGNAL_1, .lcdCreateChar ICON_IDX_SIGNAL_2,
    .lcdCreateChar ICON_IDX_SIGNAL_3, .lcdCreateChar ICON_IDX_SIGNAL_4,
    .lcdCreateChar ICON_IDX_NO_INTERNET, .bigNumbersBegin, .loadCellBegin] s
  let calibrationValue : ℚ := (CALIBRATION_VALUE : ℚ)
  let s := emits [.eepromBegin 512, .loadCellStart 2000 true] s
  if tareTimeout then
    .error (emits [.lcdClear, .lcdPrint "HX711 Error!"] s)
  else
    .ok (emits [.setCalFactor calibrationValue, .setSamplesInUse 1] s)

end Firestore

/-! ## The HTTP+MQTT variant (`src/uploadmysql.cpp`) -/

namespace HttpMqtt

def MIN_WEIGHT_THRESHOLD : ℚ := 1 / 100

def serverName : String := "https://ecoscale.undip.us/api/receive-sampah"

def mqtt_topic : String := "undip/scale/new"

/-- What `manageWifiConnection` reads. -/
structure WifiIn where
  /-- The `millis()` of the interval test. -/
  millisCheck : Nat
  /-- Whether `WiFi.status() == WL_CONNECTED`. -/
  wifiConnected : Bool
  /-- The result of `Ping.ping("8.8.8.8", 1)` in `checkNetworkHealth`. -/
  pingOk : Bool
  /-- The result of `getLocalTime(&timeinfo, 3000)` in `syncTime`. -/
  getLocalTimeOk : Bool
  /-- The `millis()` stored in `lastWifiCheckTime`. -/
  millisStamp : Nat

/-- What one call of `connectMQTT` reads. -/
structure ConnectIn where
  /-- The `mqttClient.connected()` at the entry. -/
  connected : Bool
  /-- The value of `random(0xffff)`. -/
  rnd : Nat

/-- What the MQTT maintenance at the head of `loop` reads. -/
structure MaintainIn where
  /-- The `mqttClient.connected()` of `loop`. -/
  connected : Bool
  millisRetry : Nat
  connect : ConnectIn
  millisRetryStamp : Nat

/-- What `sendToLaravel` reads. -/
structure LaravelIn where
  /-- Whether `WiFi.status() == WL_CONNECTED`. -/
  wifiConnected : Bool
  /-- The result of `http.begin(clientSecure, serverName)`. -/
  httpBeginOk : Bool
  /-- The result of `http.POST(postData)`. -/
  httpResponseCode : Int
  /-- The value of `response.indexOf("berhasil")` on the response body. -/
  indexOfBerhasil : Int

/-- What `sendToMQTT` reads. -/
structure PublishIn where
  /-- The first `mqttClient.connected()`. -/
  connected : Bool
  connect : ConnectIn
  /-- The `mqttClient.connected()` after `connectMQTT()`. -/
  connectedAfter : Bool
  /-- The result of `mqttClient.publish`. -/
  publishOk : Bool

/-- What `updateStatusIndicators` reads. -/
structure StatusIn where
  millisDisplay : Nat
  /-- The `WiFi.status() == WL_CONNECTED` of the signal text. -/
  wifiSignal : Bool
  rssi : Int
  mqttConnected : Bool
  millisDisplayStamp : Nat
  millisPing : Nat
  /-- The `WiFi.status() == WL_CONNECTED` of the ping block. -/
  wifiPing : Bool
  /-- The result of `Ping.ping("8.8.8.8", 1)` in `checkNetworkHealth`. -/
  pingOk : Bool
  millisPingStamp : Nat

/-- Everything one iteration of `loop` may read. -/
structure Inputs where
  tombol : Tombol
  wifi : WifiIn
  maintain : MaintainIn
  /-- The `currentMillis` of the `IDLE` case. -/
  millisIdle : Nat
  /-- Whether `LoadCell.update()` reported fresh data. -/
  loadCellUpdate : Bool
  /-- The value of `LoadCell.getData()`. -/
  loadCellData : ℚ
  laravel : LaravelIn
  publish : PublishIn
  /-- The `millis()` stored in `statusMsgTimestamp` by `handleKirimData`. -/
  millisKirim : Nat
  status : StatusIn
  /-- The `millis()` of the `SHOWING_STATUS` case. -/
  millisShowing : Nat

/-- The function `checkNetworkHealth` (`uploadmysql.cpp` 425-428). -/
def checkNetworkHealth (pingOk : Bool) (s : State) : Bool × State :=
  (pingOk, emits [.call .checkNetworkHealth, .ping, .ret .checkNetworkHealth pingOk] s)

/-- The function `syncTime` (`uploadmysql.cpp` 418-423). -/
def syncTime (getLocalTimeOk : Bool) (s : State) : Bool × State :=
  (getLocalTimeOk, emits [.call .syncTime, .configTime (7 * 3600), .ret .syncTime getLocalTimeOk] s)

/-- The function `manageWifiConnection` (`uploadmysql.cpp` 430-446). -/
def manageWifiConnection (i : WifiIn) (s : State) : State :=
  if u32sub i.millisCheck s.lastWifiCheckTime ≥ Config.WIFI_CHECK_INTERVAL then
    let s :=
      if i.wifiConnected = false then
        { emit .wifiReconnect s with offlineMode := true, isOnline := false }
      else if s.offlineMode = true then
        let r := checkNetworkHealth i.pingOk s
        if r.1 then (syncTime i.getLocalTimeOk { r.2 with offlineMode := false }).2
        else r.2
      else s
    { s with lastWifiCheckTime := i.millisStamp }
  else s

/-- The function `connectMQTT` (`uploadmysql.cpp` 250-261); the result of
`mqttClient.connect` is only printed on `Serial`. -/
def connectMQTT (i : ConnectIn) (s : State) : State :=
  let s := emit (.call .connectMQTT) s
  if i.connected then s
  else emit (.mqttConnect i.rnd) s

/-- The function `sendToLaravel` (`uploadmysql.cpp` 264-338). -/
def sendToLaravel (cred : Credentials) (i : LaravelIn) (s : State) : Bool × State :=
  let s := emit (.call .sendToLaravel) s
  if i.wifiConnected = false then (false, emit (.ret .sendToLaravel false) s)
  else if i.httpBeginOk = false then (false, emit (.ret .sendToLaravel false) s)
  else
    let jenisFinal :=
      if s.sampah.jenis = "Anorganik" ∧ s.sampah.subJenis ≠ "--" then
        if s.sampah.subJenis = "Umum" then "Anorganik" else s.sampah.subJenis
      else s.sampah.jenis
    let s := emit (.httpPost serverName cred.API_KEY s.currentWeight s.fakultas jenisFinal) s
    let success :=
      if i.httpResponseCode > 0 then
        if i.httpResponseCode = 200 ∨ i.httpResponseCode = 201 ∨ i.indexOfBerhasil ≥ 0 then true
        else true
      else false
    (success, emit (.ret .sendToLaravel success) s)

/-- The function `sendToMQTT` (`uploadmysql.cpp` 341-372). -/
def sendToMQTT (i : PublishIn) (s : State) : Bool × State :=
  let s := emit (.call .sendToMQTT) s
  let s := if i.connected = false then connectMQTT i.connect s else s
  if i.connected = false ∧ i.connectedAfter = false then
    (false, emit (.ret .sendToMQTT false) s)
  else
    let jenisLengkap :=
      if s.sampah.jenis = "Anorganik" ∧ s.sampah.subJenis ≠ "--" then
        if s.sampah.subJenis = "Umum" then safeStringCopy "Anorganik" 20
        else safeStringCopy s.sampah.subJenis 20
      else safeStringCopy s.sampah.jenis 20
    let s := emit (.mqttPublish mqtt_topic s.currentWeight s.fakultas jenisLengkap) s
    if i.publishOk then (true, emit (.ret .sendToMQTT true) s)
    else (false, emit (.ret .sendToMQTT false) s)

/-- The function `handleKirimData` (`uploadmysql.cpp` 376-414); `millisKirim` is
the `millis()` stored in `statusMsgTimestamp`. -/
def handleKirimData (cred : Credentials) (t : Tombol) (l : LaravelIn) (p : PublishIn)
    (millisKirim : Nat) (s : State) : State :=
  if s.currentState ≠ .IDLE then s
  else if t.tombol3 then
    let s := emit (.tone Config.PIN_BUZZER 2000 100) s
    if s.offlineMode then
      let s := emits [.lcdSetCursor 0 0, .lcdPrint "Gagal: Offline!   "] s
      { s with statusMsgTimestamp := millisKirim, currentState := .SHOWING_STATUS }
    else
      let s := { s with currentState := .SENDING_DATA }
      let s := emit (.lcdSetCursor 0 0) s
      let s :=
        if s.sampah.jenis = "--" then emit (.lcdPrint "Error: Pilih Jenis!   ") s
        else
          let s := emit (.lcdPrint "Status: Mengirim... ") s
          let r := sendToLaravel cred l s
          let laravelSuccess := r.1
          let s := (sendToMQTT p r.2).2
          let s := emits [.lcdSetCursor 0 0,
            .lcdPrint (if laravelSuccess then "Status: Sukses!      "
              else "Status: Gagal!        ")] s
          if laravelSuccess then s |> setJenis "--" |> setSubJenis "--" else s
      { s with statusMsgTimestamp := millisKirim, currentState := .SHOWING_STATUS }
  else s

/-- The function `updateStatusIndicators` (`uploadmysql.cpp` 512-544). -/
def updateStatusIndicators (i : StatusIn) (s : State) : State :=
  let s :=
    if u32sub i.millisDisplay s.lastDisplayUpdateTime ≥ 1000 then
      let signalText :=
        if i.wifiSignal = true ∧ s.offlineMode = false then snprintf3ld 5 i.rssi
        else safeStringCopy "OFF" 5
      let s := emits [.lcdSetCursor 17 3, .lcdPrint signalText] s
      let s := { s with blinkerState := !s.blinkerState }
      let s :=
        if s.offlineMode then emits [.lcdSetCursor 0 3, .lcdWrite ICON_IDX_NO_INTERNET] s
        else if i.mqttConnected then emits [.lcdSetCursor 0 3, .lcdPrint " "] s
        else emits [.lcdSetCursor 0 3, .lcdPrint (if s.blinkerState then "-" else " ")] s
      { s with lastDisplayUpdateTime := i.millisDisplayStamp }
    else s
  if s.offlineMode = false ∧ u32sub i.millisPing s.lastInternetCheckTime ≥ 10000 then
    let s :=
      if i.wifiPing then
        let r := checkNetworkHealth i.pingOk s
        { r.2 with isOnline := r.1 }
      else { s with isOnline := false }
    { s with lastInternetCheckTime := i.millisPingStamp }
  else s

/-- The MQTT maintenance at the head of `loop` (`uploadmysql.cpp` 181-191). -/
def maintainMqtt (i : MaintainIn) (s : State) : State :=
  if s.offlineMode = false then
    let s :=
      if i.connected = false then
        if u32sub i.millisRetry s.lastMqttRetry > 5000 then
          { connectMQTT i.connect s with lastMqttRetry := i.millisRetryStamp }
        else s
      else s
    emit .mqttLoop s
  else s

/-- The function `loop` (`uploadmysql.cpp` 173-226): one iteration. -/
def loop (cred : Credentials) (i : Inputs) (s : State) : State :=
  let s := manageWifiConnection i.wifi s
  let s := maintainMqtt i.maintain s
  match s.currentState with
  | .IDLE =>
    let s := idleWeight MIN_WEIGHT_THRESHOLD i.millisIdle i.loadCellUpdate i.loadCellData s
    let s := prosesTombol i.tombol s
    let s := handleKirimData cred i.tombol i.laravel i.publish i.millisKirim s
    updateStatusIndicators i.status s
  | .SELECTING_SUBTYPE => prosesTombol i.tombol s
  | .SENDING_DATA => s
  | .SHOWING_STATUS =>
    if u32sub i.millisShowing s.statusMsgTimestamp > Config.STATUS_MSG_DURATION then
      { restoreDefaultDisplay s with currentState := .IDLE }
    else s

/-- Successive iterations of `loop`, one per element of `inputs`. -/
def run (cred : Credentials) (inputs : List Inputs) (s : State) : State :=
  inputs.foldl (fun st i => loop cred i st) s

/-- The constant `constexpr unsigned long CALIBRATION_VALUE = 12.333372;` of
`uploadmysql.cpp`. -/
def CALIBRATION_VALUE : Nat := toUnsignedLong (12333372 / 1000000)

/-- The function `initializeSystem` (`uploadmysql.cpp` 546-564); `tareTimeout` is the
value of `LoadCell.getTareTimeoutFlag()`.  The result is `.error` with the state
reached when the function hangs in its `while (1)` loop, else `.ok` with the state
on return. -/
def initializeSystem (tareTimeout : Bool) (s : State) : Except State State :=
  let s := s |> setJenis "--" |> setSubJenis "--"
  let s := emits [.pinModeOutput Config.PIN_BUZZER, .lcdInit, .lcdBacklight, .lcdClear,
    .lcdCreateChar ICON_IDX_SIGNAL_1, .lcdCreateChar ICON_IDX_SIGNAL_2,
    .lcdCreateChar ICON_IDX_SIGNAL_3, .lcdCreateChar ICON_IDX_SIGNAL_4,
    .lcdCreateChar ICON_IDX_NO_INTERNET, .bigNumbersBegin, .loadCellBegin,
    .eepromBegin 512, .loadCellStart 2000 true] s
  if tareTimeout then
    .error (emits [.lcdClear, .lcdPrint "HX711 Error!"] s)
  else
    .ok (emits [.setCalFactor (CALIBRATION_VALUE : ℚ), .setSamplesInUse 1] s)

end HttpMqtt

/-! ## Definitions used to state the properties -/

/-- No element of the list is a sink send. -/
def noSend : List Event → Bool
  | [] => true
  | e :: es => !e.isSend && noSend es

/-- How many times function `f` is entered in the list of effects. -/
def calls (f : Fn) : List Event → Nat
  | [] => 0
  | e :: es => (if e = .call f then 1 else 0) + calls f es

/-- State `t` is `s` after further effects none of which is a sink send. -/
def Quiet (s t : State) : Prop :=
  ∃ es, t.trace = s.trace ++ es ∧ noSend es = true

/-- Going from `s` to `t` leaves the session state, the deposit and the status
timer as they are and performs no sink send. -/
def Frame (s t : State) : Prop :=
  t.currentState = s.currentState ∧ t.sampah = s.sampah ∧
    t.statusMsgTimestamp = s.statusMsgTimestamp ∧ Quiet s t

/-- The deposit invariant: a subcategory other than `"--"` only with category
`"Anorganik"`. -/
def DepositInv (s : State) : Prop :=
  s.sampah.subJenis ≠ "--" → s.sampah.jenis = "Anorganik"

instance (s : State) : Decidable (DepositInv s) := by
  unfold DepositInv
  infer_instance

/-- The initial condition of the session: state `IDLE` (initialiser of
`currentState`) and deposit `"--"`/`"--"` (set by `initializeSystem`). -/
def Initial (s : State) : Prop :=
  s.currentState = .IDLE ∧ s.sampah = ⟨"--", "--"⟩

instance (s : State) : Decidable (Initial s) := by
  unfold Initial
  infer_instance

/-- A concrete initial state: the global initialisers of `main.cpp`, with the
deposit as `initializeSystem` leaves it. -/
def bootState : State :=
  { currentState := .IDLE, sampah := ⟨"--", "--"⟩, fakultas := "FIB", isOnline := false,
    offlineMode := false, currentWeight := 0, lastDisplayedWeight := -1,
    weightBuffer := (0, 0), bufferIndex := 0, newDataReady := false,
    lastWeightReadTime := 0, lastLCDUpdateTime := 0, lastWifiCheckTime := 0,
    statusMsgTimestamp := 0, lastDisplayUpdateTime := 0, blinkerState := false,
    lastInternetCheckTime := 0, lastMqttRetry := 0, outOfBounds := false, trace := [] }

/-- A state showing a status message since `millis() = 1000`. -/
def showingState : State :=
  { bootState with currentState := .SHOWING_STATUS, statusMsgTimestamp := 1000 }

/-- A state in `SELECTING_SUBTYPE` that already holds the deposit ("Residu","--"). -/
def selectingState : State :=
  { bootState with currentState := .SELECTING_SUBTYPE, sampah := ⟨"Residu", "--"⟩ }

/-- The boot state with the deposit ("Organik","--") selected. -/
def organikState : State :=
  { bootState with sampah := ⟨"Organik", "--"⟩ }

/-- A concrete initial state of `uploadmysql.cpp`: as `bootState`, with the
`fakultas` that file initialises. -/
def hybridBootState : State :=
  { bootState with fakultas := "FSM" }

/-- The initial state of `uploadmysql.cpp` with the deposit ("Organik","--") selected. -/
def hybridOrganikState : State :=
  { hybridBootState with sampah := ⟨"Organik", "--"⟩ }

/-- A state of `uploadmysql.cpp` in `IDLE` that already holds the deposit
("Anorganik","Botol"). -/
def hybridBotolState : State :=
  { hybridBootState with sampah := ⟨"Anorganik", "Botol"⟩ }

/-- The broken-down time of 2024-01-01 00:00:00. -/
def sampleTm : Tm :=
  { tm_sec := 0, tm_min := 0, tm_hour := 0, tm_mday := 1, tm_mon := 0, tm_year := 124 }

/-- The numbers of a broken-down time that `strftime` prints for
`"%Y-%m-%dT%H:%M:%SZ"` have the usual number of digits: the year `tm_year + 1900` is
between 1000 and 9999 and the month `tm_mon + 1`, the day, the hour, the minute and
the second are between 0 and 99.  Every `struct tm` that `localtime` fills in for a
year from 1000 to 9999 is of this kind. -/
def Tm.InRange (tm : Tm) : Prop :=
  1000 ≤ tm.tm_year + 1900 ∧ tm.tm_year + 1900 ≤ 9999 ∧
    0 ≤ tm.tm_mon + 1 ∧ tm.tm_mon + 1 ≤ 99 ∧ 0 ≤ tm.tm_mday ∧ tm.tm_mday ≤ 99 ∧
    0 ≤ tm.tm_hour ∧ tm.tm_hour ≤ 99 ∧ 0 ≤ tm.tm_min ∧ tm.tm_min ≤ 99 ∧
    0 ≤ tm.tm_sec ∧ tm.tm_sec ≤ 99

instance (tm : Tm) : Decidable tm.InRange := by
  unfold Tm.InRange
  infer_instance

/-- Sample credentials for concrete runs. -/
def sampleCred : Credentials :=
  { API_KEY := "key", FIREBASE_PROJECT_ID := "project" }

/-- Sample inputs of one `main.cpp` iteration at time `now` with the given button
flags: link up, clock synchronised, every network call succeeding, no fresh
load-cell data. -/
def Firestore.sampleInputs (t : Tombol) (now : Nat) : Firestore.Inputs :=
  { tombol := t,
    wifi := { millisCheck := now, wifiConnected := true, wifiModeSta := true,
              millisStamp := now },
    millisIdle := now, loadCellUpdate := false, loadCellData := 0,
    send := { wifiConnected := true, localTime := some sampleTm, strftimeOverflow := "",
              createDocumentOk := true },
    millisKirim := now,
    status := { millisDisplay := now, wifiSignal := true, rssi := -60, wifiSymbol := true,
                millisDisplayStamp := now, millisCheck := now, wifiCheck := true,
                pingOk := true, millisCheckStamp := now },
    millisShowing := now }

/-- Sample inputs of one `uploadmysql.cpp` iteration at time `now` with the given
button flags: link up, broker connected, every network call succeeding, no fresh
load-cell data. -/
def HttpMqtt.sampleInputs (t : Tombol) (now : Nat) : HttpMqtt.Inputs :=
  { tombol := t,
    wifi := { millisCheck := now, wifiConnected := true, pingOk := true,
              getLocalTimeOk := true, millisStamp := now },
    maintain := { connected := true, millisRetry := now,
                  connect := { connected := true, rnd := 0 }, millisRetryStamp := now },
    millisIdle := now, loadCellUpdate := false, loadCellData := 0,
    laravel := { wifiConnected := true, httpBeginOk := true, httpResponseCode := 200,
                 indexOfBerhasil := 0 },
    publish := { connected := true, connect := { connected := true, rnd := 0 },
                 connectedAfter := true, publishOk := true },
    millisKirim := now,
    status := { millisDisplay := now, wifiSignal := true, rssi := -60, mqttConnected := true,
                millisDisplayStamp := now, millisPing := now, wifiPing := true,
                pingOk := true, millisPingStamp := now },
    millisShowing := now }

/-- Sample inputs of one `main.cpp` iteration with the WiFi link down. -/
def Firestore.linkDownInputs (t : Tombol) (now : Nat) : Firestore.Inputs :=
  { Firestore.sampleInputs t now with
    wifi := { millisCheck := now, wifiConnected := false, wifiModeSta := true,
              millisStamp := now },
    send := { wifiConnected := false, localTime := some sampleTm, strftimeOverflow := "",
              createDocumentOk := false } }

/-- Sample inputs of one `uploadmysql.cpp` iteration with the WiFi link down. -/
def HttpMqtt.linkDownInputs (t : Tombol) (now : Nat) : HttpMqtt.Inputs :=
  { HttpMqtt.sampleInputs t now with
    wifi := { millisCheck := now, wifiConnected := false, pingOk := false,
              getLocalTimeOk := false, millisStamp := now },
    laravel := { wifiConnected := false, httpBeginOk := false, httpResponseCode := -1,
                 indexOfBerhasil := -1 } }

/-- What `sendToMQTT` reads when the broker cannot be reached. -/
def brokerDown : HttpMqtt.PublishIn :=
  { connected := false, connect := { connected := false, rnd := 4660 },
    connectedAfter := false, publishOk := false }

/-- Successive calls of `readSmoothedWeight`, one per raw reading (the values of
`LoadCell.getData()`): the values returned, in order, and the final state. -/
def readAll : List ℚ → State → List ℚ × State
  | [], s => ([], s)
  | raw :: rest, s =>
    ((readSmoothedWeight raw s).1 :: (readAll rest (readSmoothedWeight raw s).2).1,
      (readAll rest (readSmoothedWeight raw s).2).2)

/-- A raw reading in kilograms, replaced by 0 when below 0.05 (the `c` of the
specification, for one reading). -/
def clampKg (raw : ℚ) : ℚ :=
  if raw / 1000 < 5 / 100 then 0 else raw / 1000

/-- The sequence `c_i` of the specification: `c_0 = 0` and `c_i` is the `i`-th
reading in kilograms, clamped. -/
def clampedSample (raws : List ℚ) : Nat → ℚ
  | 0 => 0
  | i + 1 => clampKg (raws.getD i 0)

/-- The outputs the specification prescribes when the most recent sample is `prev`:
each is the mean of the clamped reading and the one before it. -/
def meanOfLastTwo (prev : ℚ) : List ℚ → List ℚ
  | [] => []
  | raw :: rest => (clampKg raw + prev) / 2 :: meanOfLastTwo (clampKg raw) rest

/-- The slot of `weightBuffer` that the next call of `readSmoothedWeight` leaves
alone: the most recent sample. -/
def lastSample (s : State) : ℚ :=
  if s.bufferIndex = 0 then s.weightBuffer.2 else s.weightBuffer.1

/-- Every element of the list satisfies `p`. -/
def allEvents (p : Event → Bool) : List Event → Bool
  | [] => true
  | e :: es => p e && allEvents p es

/-- State `t` is `s` after further effects each of which satisfies `p`. -/
def Grows (p : Event → Bool) (s t : State) : Prop :=
  ∃ es, t.trace = s.trace ++ es ∧ allEvents p es = true

/-- The label (`jenis` field) of the record that a sink send carries. -/
def Event.label : Event → Option String
  | .createDocument _ _ _ jenis _ _ => some jenis
  | .httpPost _ _ _ _ jenis => some jenis
  | .mqttPublish _ _ _ jenis => some jenis
  | _ => none

/-- The event is no sink send, or the send of a record with label `lab`. -/
def Event.hasLabel (lab : String) : Event → Bool
  | .createDocument _ _ _ jenis _ _ => decide (jenis = lab)
  | .httpPost _ _ _ _ jenis => decide (jenis = lab)
  | .mqttPublish _ _ _ jenis => decide (jenis = lab)
  | _ => true

/-- The text has the form `YYYY-MM-DDTHH:MM:SSZ`: twenty characters, digits where the
letters `Y`, `M`, `D`, `H`, `S` stand and the punctuation as written. -/
def isIsoUtc (text : String) : Bool :=
  match text.toList with
  | [y1, y2, y3, y4, d1, m1, m2, d2, t1, t2, sepT, h1, h2, c1, n1, n2, c2, s1, s2, z] =>
    [y1, y2, y3, y4, m1, m2, t1, t2, h1, h2, n1, n2, s1, s2].all Char.isDigit &&
      d1 == '-' && d2 == '-' && sepT == 'T' && c1 == ':' && c2 == ':' && z == 'Z'
  | _ => false

/-- The text `ts` is what `getTimestampUTC` hands to `sendDataToFirebase` on the clock
input of `i`, and it is not empty: `getLocalTime` succeeds with some `timeinfo` and
`ts` is the content of the 24-byte buffer after
`strftime(buffer, 24, "%Y-%m-%dT%H:%M:%SZ", &timeinfo)`. -/
def Firestore.SendIn.stamps (i : Firestore.SendIn) (ts : String) : Bool :=
  match i.localTime with
  | none => false
  | some timeinfo =>
    decide (ts = strftime 24 "%Y-%m-%dT%H:%M:%SZ" timeinfo i.strftimeOverflow ∧ ts.length ≠ 0)

/-- The event is no `createDocument`, or one whose timestamp is the non-empty text
written for the clock input of one of `sends`. -/
def Event.stampedBy (sends : List Firestore.SendIn) : Event → Bool
  | .createDocument _ _ _ _ _ timestamp => sends.any (fun i => i.stamps timestamp)
  | _ => true

/-- The label of a deposit in the words of the specification: `"Anorganik"` when
`jenis = "Anorganik"` and `subJenis = "Umum"`, `subJenis` when `jenis = "Anorganik"`
and `subJenis` is neither `"--"` nor `"Umum"`, and `jenis` otherwise. -/
def specLabel (d : SampahType) : String :=
  if d.jenis = "Anorganik" ∧ d.subJenis = "Umum" then "Anorganik"
  else if d.jenis = "Anorganik" ∧ d.subJenis ≠ "--" ∧ d.subJenis ≠ "Umum" then d.subJenis
  else d.jenis


/-- The state of `uploadmysql.cpp` in offline mode with the deposit ("Organik","--"). -/
def offlineOrganikState : State :=
  { hybridOrganikState with offlineMode := true }

/-- Sample inputs of one `uploadmysql.cpp` iteration at time `now` in which everything
succeeds except the clock: `getLocalTime` fails in `syncTime`. -/
def HttpMqtt.clockDownInputs (t : Tombol) (now : Nat) : HttpMqtt.Inputs :=
  { HttpMqtt.sampleInputs t now with
    wifi := { millisCheck := now, wifiConnected := true, pingOk := true,
              getLocalTimeOk := false, millisStamp := now } }

/-- The initial state of `uploadmysql.cpp` in offline mode: no category selected. -/
def offlineBootState : State :=
  { hybridBootState with offlineMode := true }

/-- A state of `uploadmysql.cpp` whose deposit has a subcategory of 15 characters. -/
def longLabelState : State :=
  { hybridBootState with sampah := ⟨"Anorganik", "Botol Plastik 1"⟩ }

/-- The inputs of one `main.cpp` iteration with the commit button not pressed. -/
def Firestore.releaseCommit (i : Firestore.Inputs) : Firestore.Inputs :=
  { i with tombol := { i.tombol with tombol3 := false } }

/-- The inputs of one `uploadmysql.cpp` iteration with the commit button not pressed. -/
def HttpMqtt.releaseCommit (i : HttpMqtt.Inputs) : HttpMqtt.Inputs :=
  { i with tombol := { i.tombol with tombol3 := false } }

/-- A state in `IDLE` that already holds the deposit ("Anorganik","Botol"). -/
def botolState : State :=
  { bootState with sampah := ⟨"Anorganik", "Botol"⟩ }

/-! ## Projections of a conditional state -/

@[simp] theorem ite_currentState (c : Prop) [Decidable c] (a b : State) :
    (if c then a else b).currentState = if c then a.currentState else b.currentState := by
  split <;> rfl

@[simp] theorem ite_sampah (c : Prop) [Decidable c] (a b : State) :
    (if c then a else b).sampah = if c then a.sampah else b.sampah := by
  split <;> rfl

@[simp] theorem ite_fakultas (c : Prop) [Decidable c] (a b : State) :
    (if c then a else b).fakultas = if c then a.fakultas else b.fakultas := by
  split <;> rfl

@[simp] theorem ite_isOnline (c : Prop) [Decidable c] (a b : State) :
    (if c then a else b).isOnline = if c then a.isOnline else b.isOnline := by
  split <;> rfl

@[simp] theorem ite_offlineMode (c : Prop) [Decidable c] (a b : State) :
    (if c then a else b).offlineMode = if c then a.offlineMode else b.offlineMode := by
  split <;> rfl

@[simp] theorem ite_currentWeight (c : Prop) [Decidable c] (a b : State) :
    (if c then a else b).currentWeight = if c then a.currentWeight else b.currentWeight := by
  split <;> rfl

@[simp] theorem ite_lastDisplayedWeight (c : Prop) [Decidable c] (a b : State) :
    (if c then a else b).lastDisplayedWeight = if c then a.lastDisplayedWeight else b.lastDisplayedWeight := by
  split <;> rfl

@[simp] theorem ite_weightBuffer (c : Prop) [Decidable c] (a b : State) :
    (if c then a else b).weightBuffer = if c then a.weightBuffer else b.weightBuffer := by
  split <;> rfl

@[simp] theorem ite_bufferIndex (c : Prop) [Decidable c] (a b : State) :
    (if c then a else b).bufferIndex = if c then a.bufferIndex else b.bufferIndex := by
  split <;> rfl

@[simp] theorem ite_newDataReady (c : Prop) [Decidable c] (a b : State) :
    (if c then a else b).newDataReady = if c then a.newDataReady else b.newDataReady := by
  split <;> rfl

@[simp] theorem ite_lastWeightReadTime (c : Prop) [Decidable c] (a b : State) :
    (if c then a else b).lastWeightReadTime = if c then a.lastWeightReadTime else b.lastWeightReadTime := by
  split <;> rfl

@[simp] theorem ite_lastLCDUpdateTime (c : Prop) [Decidable c] (a b : State) :
    (if c then a else b).lastLCDUpdateTime = if c then a.lastLCDUpdateTime else b.lastLCDUpdateTime := by
  split <;> rfl

@[simp] theorem ite_lastWifiCheckTime (c : Prop) [Decidable c] (a b : State) :
    (if c then a else b).lastWifiCheckTime = if c then a.lastWifiCheckTime else b.lastWifiCheckTime := by
  split <;> rfl

@[simp] theorem ite_statusMsgTimestamp (c : Prop) [Decidable c] (a b : State) :
    (if c then a else b).statusMsgTimestamp = if c then a.statusMsgTimestamp else b.statusMsgTimestamp := by
  split <;> rfl

@[simp] theorem ite_lastDisplayUpdateTime (c : Prop) [Decidable c] (a b : State) :
    (if c then a else b).lastDisplayUpdateTime = if c then a.lastDisplayUpdateTime else b.lastDisplayUpdateTime := by
  split <;> rfl

@[simp] theorem ite_blinkerState (c : Prop) [Decidable c] (a b : State) :
    (if c then a else b).blinkerState = if c then a.blinkerState else b.blinkerState := by
  split <;> rfl

@[simp] theorem ite_lastInternetCheckTime (c : Prop) [Decidable c] (a b : State) :
    (if c then a else b).lastInternetCheckTime = if c then a.lastInternetCheckTime else b.lastInternetCheckTime := by
  split <;> rfl

@[simp] theorem ite_lastMqttRetry (c : Prop) [Decidable c] (a b : State) :
    (if c then a else b).lastMqttRetry = if c then a.lastMqttRetry else b.lastMqttRetry := by
  split <;> rfl

@[simp] theorem ite_outOfBounds (c : Prop) [Decidable c] (a b : State) :
    (if c then a else b).outOfBounds = if c then a.outOfBounds else b.outOfBounds := by
  split <;> rfl

@[simp] theorem ite_trace (c : Prop) [Decidable c] (a b : State) :
    (if c then a else b).trace = if c then a.trace else b.trace := by
  split <;> rfl

theorem fst_ite {α β : Type} (c : Prop) [Decidable c] (a b : α × β) :
    (if c then a else b).1 = if c then a.1 else b.1 := by
  split <;> rfl

theorem snd_ite {α β : Type} (c : Prop) [Decidable c] (a b : α × β) :
    (if c then a else b).2 = if c then a.2 else b.2 := by
  split <;> rfl

/-! ## Traces -/

@[simp] theorem ite_append_left (c : Prop) [Decidable c] (tr a b : List Event) :
    (if c then tr ++ a else tr ++ b) = tr ++ (if c then a else b) := by
  split <;> rfl

@[simp] theorem ite_append_left_nil (c : Prop) [Decidable c] (tr a : List Event) :
    (if c then tr ++ a else tr) = tr ++ (if c then a else []) := by
  split <;> simp

@[simp] theorem ite_nil_append_left (c : Prop) [Decidable c] (tr b : List Event) :
    (if c then tr else tr ++ b) = tr ++ (if c then [] else b) := by
  split <;> simp

@[simp] theorem noSend_nil : noSend [] = true := rfl

@[simp] theorem noSend_cons (e : Event) (es : List Event) :
    noSend (e :: es) = (!e.isSend && noSend es) := rfl

@[simp] theorem noSend_append (a b : List Event) :
    noSend (a ++ b) = (noSend a && noSend b) := by
  induction a with
  | nil => simp
  | cons e es ih => simp [ih, Bool.and_assoc]

@[simp] theorem noSend_ite (c : Prop) [Decidable c] (a b : List Event) :
    noSend (if c then a else b) = if c then noSend a else noSend b := by
  split <;> rfl

theorem noSend_iff (es : List Event) : noSend es = true ↔ ∀ e ∈ es, e.isSend = false := by
  induction es with
  | nil => simp
  | cons e es ih => simp [ih]

@[simp] theorem isSend_call (f : Fn) : (Event.call f).isSend = false := rfl
@[simp] theorem isSend_ret (f : Fn) (b : Bool) : (Event.ret f b).isSend = false := rfl
@[simp] theorem isSend_tone (a b c : Nat) : (Event.tone a b c).isSend = false := rfl
@[simp] theorem isSend_lcdClear : Event.lcdClear.isSend = false := rfl
@[simp] theorem isSend_lcdSetCursor (a b : Nat) : (Event.lcdSetCursor a b).isSend = false := rfl
@[simp] theorem isSend_lcdPrint (t : String) : (Event.lcdPrint t).isSend = false := rfl
@[simp] theorem isSend_lcdWrite (a : Nat) : (Event.lcdWrite a).isSend = false := rfl
@[simp] theorem isSend_bigNumberPrint (w : ℚ) : (Event.bigNumberPrint w).isSend = false := rfl
@[simp] theorem isSend_wifiReconnect : Event.wifiReconnect.isSend = false := rfl
@[simp] theorem isSend_ping : Event.ping.isSend = false := rfl
@[simp] theorem isSend_configTime (a : Nat) : (Event.configTime a).isSend = false := rfl
@[simp] theorem isSend_mqttConnect (a : Nat) : (Event.mqttConnect a).isSend = false := rfl
@[simp] theorem isSend_mqttLoop : Event.mqttLoop.isSend = false := rfl
@[simp] theorem isSend_mqttPublish (t : String) (w : ℚ) (f j : String) :
    (Event.mqttPublish t w f j).isSend = true := rfl
@[simp] theorem isSend_httpPost (u k : String) (w : ℚ) (f j : String) :
    (Event.httpPost u k w f j).isSend = true := rfl
@[simp] theorem isSend_createDocument (p c : String) (w : ℚ) (j f t : String) :
    (Event.createDocument p c w j f t).isSend = true := rfl

@[simp] theorem newEvents_self (s : State) : newEvents s s = [] := by
  simp [newEvents]

theorem newEvents_of_trace {s t : State} {es : List Event} (h : t.trace = s.trace ++ es) :
    newEvents s t = es := by
  simp [newEvents, h]

theorem Quiet.same (s : State) : Quiet s s := ⟨[], by simp, rfl⟩

theorem Quiet.followedBy {s t u : State} (h1 : Quiet s t) (h2 : Quiet t u) : Quiet s u := by
  obtain ⟨e1, h1, p1⟩ := h1
  obtain ⟨e2, h2, p2⟩ := h2
  exact ⟨e1 ++ e2, by rw [h2, h1, List.append_assoc], by simp [p1, p2]⟩

theorem Quiet.noSend_newEvents {s t : State} (h : Quiet s t) :
    ∀ e ∈ newEvents s t, e.isSend = false := by
  obtain ⟨es, h1, h2⟩ := h
  rw [newEvents_of_trace h1]
  exact (noSend_iff es).mp h2

theorem Frame.self (s : State) : Frame s s := ⟨rfl, rfl, rfl, Quiet.same s⟩

theorem Frame.andThen {s t u : State} (h1 : Frame s t) (h2 : Frame t u) : Frame s u :=
  ⟨h2.1.trans h1.1, h2.2.1.trans h1.2.1, h2.2.2.1.trans h1.2.2.1, h1.2.2.2.followedBy h2.2.2.2⟩

/-! ## String copies of the literals -/

@[simp] theorem safeStringCopy_Organik : safeStringCopy "Organik" 16 = "Organik" := by decide
@[simp] theorem safeStringCopy_Anorganik : safeStringCopy "Anorganik" 16 = "Anorganik" := by
  decide
@[simp] theorem safeStringCopy_Residu : safeStringCopy "Residu" 16 = "Residu" := by decide
@[simp] theorem safeStringCopy_Umum : safeStringCopy "Umum" 16 = "Umum" := by decide
@[simp] theorem safeStringCopy_Botol : safeStringCopy "Botol" 16 = "Botol" := by decide
@[simp] theorem safeStringCopy_Kertas : safeStringCopy "Kertas" 16 = "Kertas" := by decide
@[simp] theorem safeStringCopy_none : safeStringCopy "--" 16 = "--" := by decide
@[simp] theorem safeStringCopy_Organik20 : safeStringCopy "Organik" 20 = "Organik" := by
  decide
@[simp] theorem safeStringCopy_Anorganik20 : safeStringCopy "Anorganik" 20 = "Anorganik" := by
  decide

/-! ## Functions that leave the session untouched -/

theorem idleWeight_frame (th : ℚ) (m : Nat) (u : Bool) (d : ℚ) (s : State) :
    Frame s (idleWeight th m u d s) := by
  simp [Frame, Quiet, idleWeight, readSmoothedWeight, updateWeightDisplay, emit, emits]

theorem idleWeight_offlineMode (th : ℚ) (m : Nat) (u : Bool) (d : ℚ) (s : State) :
    (idleWeight th m u d s).offlineMode = s.offlineMode := by
  simp [idleWeight, readSmoothedWeight, updateWeightDisplay, emit, emits]

theorem restoreDefaultDisplay_frame (s : State) : Frame s (restoreDefaultDisplay s) := by
  simp [Frame, Quiet, restoreDefaultDisplay, emit, emits]

theorem tampilkanSubJenisAnorganik_frame (s : State) :
    Frame s (tampilkanSubJenisAnorganik s) := by
  simp [Frame, Quiet, tampilkanSubJenisAnorganik, emit, emits]

theorem firestore_manageWifiConnection_frame (i : Firestore.WifiIn) (s : State) :
    Frame s (Firestore.manageWifiConnection i s) := by
  simp [Frame, Quiet, Firestore.manageWifiConnection, emit, emits]

theorem firestore_updateStatusIndicators_frame (i : Firestore.StatusIn) (s : State) :
    Frame s (Firestore.updateStatusIndicators i s) := by
  simp [Frame, Quiet, Firestore.updateStatusIndicators, emit, emits]

theorem httpMqtt_manageWifiConnection_frame (i : HttpMqtt.WifiIn) (s : State) :
    Frame s (HttpMqtt.manageWifiConnection i s) := by
  simp [Frame, Quiet, HttpMqtt.manageWifiConnection, HttpMqtt.checkNetworkHealth,
    HttpMqtt.syncTime, emit, emits]

theorem httpMqtt_maintainMqtt_frame (i : HttpMqtt.MaintainIn) (s : State) :
    Frame s (HttpMqtt.maintainMqtt i s) := by
  simp [Frame, Quiet, HttpMqtt.maintainMqtt, HttpMqtt.connectMQTT, emit, emits]

theorem httpMqtt_maintainMqtt_offlineMode (i : HttpMqtt.MaintainIn) (s : State) :
    (HttpMqtt.maintainMqtt i s).offlineMode = s.offlineMode := by
  simp [HttpMqtt.maintainMqtt, HttpMqtt.connectMQTT, emit, emits]

theorem httpMqtt_updateStatusIndicators_frame (i : HttpMqtt.StatusIn) (s : State) :
    Frame s (HttpMqtt.updateStatusIndicators i s) := by
  simp [Frame, Quiet, HttpMqtt.updateStatusIndicators, HttpMqtt.checkNetworkHealth, emit, emits]

/-! ## `prosesTombol` -/

theorem prosesTombol_quiet (t : Tombol) (s : State) : Quiet s (prosesTombol t s) := by
  simp [Quiet, prosesTombol, setJenis, setSubJenis, restoreDefaultDisplay,
    tampilkanSubJenisAnorganik, emit, emits]

theorem prosesTombol_statusMsgTimestamp (t : Tombol) (s : State) :
    (prosesTombol t s).statusMsgTimestamp = s.statusMsgTimestamp := by
  simp [prosesTombol, setJenis, setSubJenis, restoreDefaultDisplay,
    tampilkanSubJenisAnorganik, emit, emits]

theorem prosesTombol_offlineMode (t : Tombol) (s : State) :
    (prosesTombol t s).offlineMode = s.offlineMode := by
  simp [prosesTombol, setJenis, setSubJenis, restoreDefaultDisplay,
    tampilkanSubJenisAnorganik, emit, emits]

theorem prosesTombol_depositInv (t : Tombol) (s : State) (h : DepositInv s) :
    DepositInv (prosesTombol t s) := by
  unfold DepositInv at *
  simp only [prosesTombol, setJenis, setSubJenis, restoreDefaultDisplay,
    tampilkanSubJenisAnorganik, emit, emits, Function.comp, ite_sampah]
  split_ifs <;> simp_all

theorem prosesTombol_selecting (t : Tombol) (s : State)
    (h : (prosesTombol t s).currentState = .SELECTING_SUBTYPE) :
    s.currentState = .SELECTING_SUBTYPE ∨
      (s.currentState = .IDLE ∧ t.tombol1 = true ∧ t.tombol0 = false) := by
  simp only [prosesTombol, setJenis, setSubJenis, restoreDefaultDisplay,
    tampilkanSubJenisAnorganik, emit, emits, ite_currentState] at h
  split_ifs at h <;> simp_all

/-! ## Observers of a list of effects -/

@[simp] theorem calls_nil (f : Fn) : calls f [] = 0 := rfl

@[simp] theorem calls_cons (f : Fn) (e : Event) (es : List Event) :
    calls f (e :: es) = (if e = .call f then 1 else 0) + calls f es := rfl

@[simp] theorem calls_append (f : Fn) (a b : List Event) :
    calls f (a ++ b) = calls f a + calls f b := by
  induction a with
  | nil => simp
  | cons e es ih => simp [ih, Nat.add_assoc]

@[simp] theorem calls_ite (f : Fn) (c : Prop) [Decidable c] (a b : List Event) :
    calls f (if c then a else b) = if c then calls f a else calls f b := by
  split <;> rfl

@[simp] theorem lcdTexts_nil : lcdTexts [] = [] := rfl

@[simp] theorem lcdTexts_lcdPrint (text : String) (es : List Event) :
    lcdTexts (.lcdPrint text :: es) = text :: lcdTexts es := rfl

theorem lcdTexts_cons_other (e : Event) (es : List Event)
    (h : ∀ text, e ≠ .lcdPrint text) : lcdTexts (e :: es) = lcdTexts es := by
  cases e <;> first | rfl | exact absurd rfl (h _)

@[simp] theorem lcdTexts_call (f : Fn) (es : List Event) :
    lcdTexts (.call f :: es) = lcdTexts es := rfl
@[simp] theorem lcdTexts_ret (f : Fn) (b : Bool) (es : List Event) :
    lcdTexts (.ret f b :: es) = lcdTexts es := rfl
@[simp] theorem lcdTexts_tone (a b c : Nat) (es : List Event) :
    lcdTexts (.tone a b c :: es) = lcdTexts es := rfl
@[simp] theorem lcdTexts_lcdClear (es : List Event) :
    lcdTexts (.lcdClear :: es) = lcdTexts es := rfl
@[simp] theorem lcdTexts_lcdSetCursor (a b : Nat) (es : List Event) :
    lcdTexts (.lcdSetCursor a b :: es) = lcdTexts es := rfl
@[simp] theorem lcdTexts_mqttConnect (a : Nat) (es : List Event) :
    lcdTexts (.mqttConnect a :: es) = lcdTexts es := rfl
@[simp] theorem lcdTexts_mqttPublish (t : String) (w : ℚ) (f j : String) (es : List Event) :
    lcdTexts (.mqttPublish t w f j :: es) = lcdTexts es := rfl
@[simp] theorem lcdTexts_httpPost (u k : String) (w : ℚ) (f j : String) (es : List Event) :
    lcdTexts (.httpPost u k w f j :: es) = lcdTexts es := rfl
@[simp] theorem lcdTexts_createDocument (p c : String) (w : ℚ) (j f t : String)
    (es : List Event) : lcdTexts (.createDocument p c w j f t :: es) = lcdTexts es := rfl

@[simp] theorem lcdTexts_append (a b : List Event) :
    lcdTexts (a ++ b) = lcdTexts a ++ lcdTexts b := by
  induction a with
  | nil => simp
  | cons e es ih =>
    cases e <;> simp [lcdTexts, ih]

@[simp] theorem lcdTexts_ite (c : Prop) [Decidable c] (a b : List Event) :
    lcdTexts (if c then a else b) = if c then lcdTexts a else lcdTexts b := by
  split <;> rfl

theorem mem_ite_list (e : Event) (c : Prop) [Decidable c] (a b : List Event) :
    e ∈ (if c then a else b) ↔ if c then e ∈ a else e ∈ b := by
  split <;> rfl

/-! ## Effects that all satisfy a predicate -/

@[simp] theorem allEvents_nil (p : Event → Bool) : allEvents p [] = true := rfl

@[simp] theorem allEvents_cons (p : Event → Bool) (e : Event) (es : List Event) :
    allEvents p (e :: es) = (p e && allEvents p es) := rfl

@[simp] theorem allEvents_append (p : Event → Bool) (a b : List Event) :
    allEvents p (a ++ b) = (allEvents p a && allEvents p b) := by
  induction a with
  | nil => simp
  | cons e es ih => simp [ih, Bool.and_assoc]

@[simp] theorem allEvents_ite (p : Event → Bool) (c : Prop) [Decidable c]
    (a b : List Event) :
    allEvents p (if c then a else b) = if c then allEvents p a else allEvents p b := by
  split <;> rfl

theorem allEvents_iff (p : Event → Bool) (es : List Event) :
    allEvents p es = true ↔ ∀ e ∈ es, p e = true := by
  induction es with
  | nil => simp
  | cons e es ih => simp [ih]

theorem allEvents_of_noSend (p : Event → Bool) (hp : ∀ e, e.isSend = false → p e = true)
    (es : List Event) (h : noSend es = true) : allEvents p es = true := by
  rw [allEvents_iff]
  intro e he
  exact hp e ((noSend_iff es).mp h e he)

theorem Grows.still (p : Event → Bool) (s : State) : Grows p s s := ⟨[], by simp, rfl⟩

theorem Grows.andAlso {p : Event → Bool} {s t u : State} (h1 : Grows p s t)
    (h2 : Grows p t u) : Grows p s u := by
  obtain ⟨e1, h1, p1⟩ := h1
  obtain ⟨e2, h2, p2⟩ := h2
  exact ⟨e1 ++ e2, by rw [h2, h1, List.append_assoc], by simp [p1, p2]⟩

theorem Grows.all_newEvents {p : Event → Bool} {s t : State} (h : Grows p s t) :
    ∀ e ∈ newEvents s t, p e = true := by
  obtain ⟨es, h1, h2⟩ := h
  rw [newEvents_of_trace h1]
  exact (allEvents_iff p es).mp h2

theorem Quiet.grows {s t : State} (h : Quiet s t) (p : Event → Bool)
    (hp : ∀ e, e.isSend = false → p e = true) : Grows p s t := by
  obtain ⟨es, h1, h2⟩ := h
  exact ⟨es, h1, allEvents_of_noSend p hp es h2⟩

theorem stampedBy_of_not_send (sends : List Firestore.SendIn) (e : Event)
    (h : e.isSend = false) : e.stampedBy sends = true := by
  cases e <;> first | rfl | cases h

theorem Grows.wider {p q : Event → Bool} {s t : State} (h : Grows p s t)
    (hpq : ∀ e, p e = true → q e = true) : Grows q s t := by
  obtain ⟨es, h1, h2⟩ := h
  refine ⟨es, h1, ?_⟩
  rw [allEvents_iff] at h2 ⊢
  exact fun e he => hpq e (h2 e he)

theorem stamps_iff (i : Firestore.SendIn) (ts : String) :
    i.stamps ts = true ↔
      ∃ tm, i.localTime = some tm ∧
        ts = strftime 24 "%Y-%m-%dT%H:%M:%SZ" tm i.strftimeOverflow ∧ ts.length ≠ 0 := by
  unfold Firestore.SendIn.stamps
  cases h : i.localTime with
  | none => simp
  | some tm => simp

theorem stampedBy_cons_left (a : Firestore.SendIn) (rest : List Firestore.SendIn) (e : Event)
    (h : e.stampedBy [a] = true) : e.stampedBy (a :: rest) = true := by
  cases e <;> first | rfl | skip
  simp only [Event.stampedBy, List.any_cons, List.any_nil, Bool.or_false] at h ⊢
  rw [h]
  rfl

theorem stampedBy_cons_right (a : Firestore.SendIn) (rest : List Firestore.SendIn) (e : Event)
    (h : e.stampedBy rest = true) : e.stampedBy (a :: rest) = true := by
  cases e <;> first | rfl | skip
  simp only [Event.stampedBy, List.any_cons] at h ⊢
  rw [h]
  simp

theorem hasLabel_of_not_send (lab : String) (e : Event) (h : e.isSend = false) :
    e.hasLabel lab = true := by
  cases e <;> first | rfl | cases h

theorem hasLabel_iff (lab : String) (e : Event) :
    e.hasLabel lab = true ↔ (e.isSend = true → e.label = some lab) := by
  cases e <;> simp [Event.hasLabel, Event.isSend, Event.label]

/-! ## `handleKirimData` -/

theorem firestore_handleKirimData_currentState (cred : Credentials) (t : Tombol)
    (i : Firestore.SendIn) (now : Nat) (s : State) :
    (Firestore.handleKirimData cred t i now s).currentState =
      if s.currentState = .IDLE ∧ t.tombol3 = true then .SHOWING_STATUS else s.currentState := by
  by_cases h1 : s.currentState = .IDLE <;> by_cases h2 : t.tombol3 = true <;>
    simp [Firestore.handleKirimData, h1, h2]

theorem httpMqtt_handleKirimData_currentState (cred : Credentials) (t : Tombol)
    (l : HttpMqtt.LaravelIn) (p : HttpMqtt.PublishIn) (now : Nat) (s : State) :
    (HttpMqtt.handleKirimData cred t l p now s).currentState =
      if s.currentState = .IDLE ∧ t.tombol3 = true then .SHOWING_STATUS else s.currentState := by
  by_cases h1 : s.currentState = .IDLE <;> by_cases h2 : t.tombol3 = true <;>
    simp [HttpMqtt.handleKirimData, h1, h2, emit]

theorem firestore_sendDataToFirebase_sampah (cred : Credentials) (i : Firestore.SendIn)
    (s : State) : (Firestore.sendDataToFirebase cred i s).2.sampah = s.sampah := by
  simp [Firestore.sendDataToFirebase, emit, snd_ite]

theorem httpMqtt_sendToLaravel_sampah (cred : Credentials) (i : HttpMqtt.LaravelIn)
    (s : State) : (HttpMqtt.sendToLaravel cred i s).2.sampah = s.sampah := by
  simp [HttpMqtt.sendToLaravel, emit, snd_ite]

theorem httpMqtt_sendToMQTT_sampah (i : HttpMqtt.PublishIn) (s : State) :
    (HttpMqtt.sendToMQTT i s).2.sampah = s.sampah := by
  simp [HttpMqtt.sendToMQTT, HttpMqtt.connectMQTT, emit, snd_ite]

/-- After `handleKirimData` of `main.cpp` the deposit is `"--"`/`"--"` or what it was. -/
theorem firestore_handleKirimData_sampah (cred : Credentials) (t : Tombol)
    (i : Firestore.SendIn) (now : Nat) (s : State) :
    (Firestore.handleKirimData cred t i now s).sampah = ⟨"--", "--"⟩ ∨
      (Firestore.handleKirimData cred t i now s).sampah = s.sampah := by
  simp only [Firestore.handleKirimData, setJenis, setSubJenis, emit, emits, ite_sampah,
    firestore_sendDataToFirebase_sampah, safeStringCopy_none]
  split_ifs <;> simp

/-- After `handleKirimData` of `uploadmysql.cpp` the deposit is `"--"`/`"--"` or what
it was. -/
theorem httpMqtt_handleKirimData_sampah (cred : Credentials) (t : Tombol)
    (l : HttpMqtt.LaravelIn) (p : HttpMqtt.PublishIn) (now : Nat) (s : State) :
    (HttpMqtt.handleKirimData cred t l p now s).sampah = ⟨"--", "--"⟩ ∨
      (HttpMqtt.handleKirimData cred t l p now s).sampah = s.sampah := by
  simp only [HttpMqtt.handleKirimData, setJenis, setSubJenis, emit, emits, ite_sampah,
    httpMqtt_sendToLaravel_sampah, httpMqtt_sendToMQTT_sampah, safeStringCopy_none]
  split_ifs <;> simp

theorem depositInv_of_sampah {s t : State}
    (h : t.sampah = ⟨"--", "--"⟩ ∨ t.sampah = s.sampah) (hs : DepositInv s) :
    DepositInv t := by
  unfold DepositInv at *
  rcases h with h | h <;> simp_all

/-! ## Commit with no category, commit while offline -/

theorem firestore_handleKirimData_noCategory (cred : Credentials) (t : Tombol)
    (i : Firestore.SendIn) (now : Nat) (s : State)
    (hs : s.currentState = .IDLE) (hb : t.tombol3 = true) (hj : s.sampah.jenis = "--") :
    Firestore.handleKirimData cred t i now s =
      { emits [.tone Config.PIN_BUZZER 2000 300, .lcdSetCursor 0 0,
          .lcdPrint "Error: Pilih Jenis!   "] s with
        statusMsgTimestamp := now, currentState := .SHOWING_STATUS } := by
  simp [Firestore.handleKirimData, hs, hb, hj, emit, emits]

theorem httpMqtt_handleKirimData_offline (cred : Credentials) (t : Tombol)
    (l : HttpMqtt.LaravelIn) (p : HttpMqtt.PublishIn) (now : Nat) (s : State)
    (hs : s.currentState = .IDLE) (hb : t.tombol3 = true) (ho : s.offlineMode = true) :
    HttpMqtt.handleKirimData cred t l p now s =
      { emits [.tone Config.PIN_BUZZER 2000 100, .lcdSetCursor 0 0,
          .lcdPrint "Gagal: Offline!   "] s with
        statusMsgTimestamp := now, currentState := .SHOWING_STATUS } := by
  simp [HttpMqtt.handleKirimData, hs, hb, ho, emit, emits]

theorem httpMqtt_handleKirimData_noCategory (cred : Credentials) (t : Tombol)
    (l : HttpMqtt.LaravelIn) (p : HttpMqtt.PublishIn) (now : Nat) (s : State)
    (hs : s.currentState = .IDLE) (hb : t.tombol3 = true) (ho : s.offlineMode = false)
    (hj : s.sampah.jenis = "--") :
    HttpMqtt.handleKirimData cred t l p now s =
      { emits [.tone Config.PIN_BUZZER 2000 100, .lcdSetCursor 0 0,
          .lcdPrint "Error: Pilih Jenis!   "] s with
        statusMsgTimestamp := now, currentState := .SHOWING_STATUS } := by
  simp [HttpMqtt.handleKirimData, hs, hb, ho, hj, emit, emits]

theorem newEvents_emits_with (es : List Event) (s : State) (now : Nat) (st : AppState) :
    newEvents s { emits es s with statusMsgTimestamp := now, currentState := st } = es := by
  simp [newEvents, emits]

theorem quiet_emits_with (es : List Event) (s : State) (now : Nat) (st : AppState)
    (h : noSend es = true) :
    Quiet s { emits es s with statusMsgTimestamp := now, currentState := st } :=
  ⟨es, rfl, h⟩

/-! ## A commit that reaches delivery -/

/-- What `handleKirimData` of `main.cpp` does once a category is selected, in terms of
the result of `sendDataToFirebase`. -/
theorem firestore_handleKirimData_delivery (cred : Credentials) (t : Tombol)
    (i : Firestore.SendIn) (now : Nat) (s : State)
    (hs : s.currentState = .IDLE) (hb : t.tombol3 = true) (hj : ¬ s.sampah.jenis = "--") :
    (Firestore.handleKirimData cred t i now s).currentState = .SHOWING_STATUS ∧
      (Firestore.handleKirimData cred t i now s).statusMsgTimestamp = now ∧
      (Firestore.handleKirimData cred t i now s).sampah =
        (if (Firestore.sendDataToFirebase cred i s).1 = true then ⟨"--", "--"⟩
          else s.sampah) ∧
      lcdTexts (newEvents s (Firestore.handleKirimData cred t i now s)) =
        ["Status: Mengirim... ",
          if (Firestore.sendDataToFirebase cred i s).1 = true then "Status: Sukses!      "
          else "Status: Gagal!        "] ∧
      calls .sendDataToFirebase (newEvents s (Firestore.handleKirimData cred t i now s)) = 1 ∧
      (Event.ret .sendDataToFirebase true ∈
          newEvents s (Firestore.handleKirimData cred t i now s) ↔
        (Firestore.sendDataToFirebase cred i s).1 = true) ∧
      (Event.ret .sendDataToFirebase false ∈
          newEvents s (Firestore.handleKirimData cred t i now s) ↔
        (Firestore.sendDataToFirebase cred i s).1 = false) := by
  rcases i with ⟨w, lt, ov, ok⟩
  cases w <;> cases ok <;> by_cases hl : (Firestore.getTimestampUTC lt ov 24).length = 0 <;>
    simp [newEvents, Firestore.handleKirimData, Firestore.sendDataToFirebase, hs, hb, hj, hl,
      emit, emits, fst_ite, snd_ite, setJenis, setSubJenis]

/-- What `handleKirimData` of `uploadmysql.cpp` does once online with a category
selected, in terms of the result of `sendToLaravel`. -/
theorem httpMqtt_handleKirimData_delivery (cred : Credentials) (t : Tombol)
    (l : HttpMqtt.LaravelIn) (p : HttpMqtt.PublishIn) (now : Nat) (s : State)
    (hs : s.currentState = .IDLE) (hb : t.tombol3 = true) (ho : s.offlineMode = false)
    (hj : ¬ s.sampah.jenis = "--") :
    (HttpMqtt.handleKirimData cred t l p now s).currentState = .SHOWING_STATUS ∧
      (HttpMqtt.handleKirimData cred t l p now s).statusMsgTimestamp = now ∧
      (HttpMqtt.handleKirimData cred t l p now s).sampah =
        (if (HttpMqtt.sendToLaravel cred l s).1 = true then ⟨"--", "--"⟩ else s.sampah) ∧
      lcdTexts (newEvents s (HttpMqtt.handleKirimData cred t l p now s)) =
        ["Status: Mengirim... ",
          if (HttpMqtt.sendToLaravel cred l s).1 = true then "Status: Sukses!      "
          else "Status: Gagal!        "] ∧
      calls .sendToLaravel (newEvents s (HttpMqtt.handleKirimData cred t l p now s)) = 1 ∧
      calls .sendToMQTT (newEvents s (HttpMqtt.handleKirimData cred t l p now s)) = 1 ∧
      (Event.ret .sendToLaravel true ∈
          newEvents s (HttpMqtt.handleKirimData cred t l p now s) ↔
        (HttpMqtt.sendToLaravel cred l s).1 = true) ∧
      (Event.ret .sendToLaravel false ∈
          newEvents s (HttpMqtt.handleKirimData cred t l p now s) ↔
        (HttpMqtt.sendToLaravel cred l s).1 = false) := by
  rcases l with ⟨w, b, code, idx⟩
  cases w <;> cases b <;> by_cases hc : code > 0 <;>
    simp [newEvents, HttpMqtt.handleKirimData, HttpMqtt.sendToLaravel, HttpMqtt.sendToMQTT,
      HttpMqtt.connectMQTT, hs, hb, ho, hj, hc, emit, emits, fst_ite, snd_ite, setJenis,
      setSubJenis, mem_ite_list]

/-! ## The record of a commit: timestamp and label -/

theorem grows_of_newEvents {p : Event → Bool} {s t : State}
    (h : t.trace = s.trace ++ newEvents s t) (hp : allEvents p (newEvents s t) = true) :
    Grows p s t := ⟨newEvents s t, h, hp⟩

theorem firestore_sendDataToFirebase_noClock (cred : Credentials) (i : Firestore.SendIn)
    (s : State) (h : i.localTime = none) :
    (Firestore.sendDataToFirebase cred i s).1 = false := by
  rcases i with ⟨w, lt, ov, ok⟩
  cases h
  cases w <;> simp [Firestore.sendDataToFirebase, Firestore.getTimestampUTC]

theorem firestore_handleKirimData_trace (cred : Credentials) (t : Tombol)
    (i : Firestore.SendIn) (now : Nat) (s : State) :
    (Firestore.handleKirimData cred t i now s).trace =
      s.trace ++ newEvents s (Firestore.handleKirimData cred t i now s) := by
  rcases i with ⟨w, lt, ov, ok⟩
  by_cases hs : s.currentState = .IDLE
  · cases hb : t.tombol3
    · simp [newEvents, Firestore.handleKirimData, hs, hb]
    · by_cases hj : s.sampah.jenis = "--"
      · simp [newEvents, Firestore.handleKirimData, hs, hb, hj, emit, emits]
      · cases w <;> cases ok <;> by_cases hl : (Firestore.getTimestampUTC lt ov 24).length = 0 <;>
          simp [newEvents, Firestore.handleKirimData, Firestore.sendDataToFirebase, hs, hb,
            hj, hl, emit, emits, fst_ite, snd_ite, setJenis, setSubJenis]
  · simp [newEvents, Firestore.handleKirimData, hs]

/-- Every `createDocument` of a commit in `main.cpp` carries the content of
`timestampBuffer` after `getTimestampUTC`, which is not empty. -/
theorem firestore_handleKirimData_buffer (cred : Credentials) (t : Tombol)
    (i : Firestore.SendIn) (now : Nat) (s : State) (p c : String) (w : ℚ)
    (j f ts : String)
    (h : Event.createDocument p c w j f ts ∈
      newEvents s (Firestore.handleKirimData cred t i now s)) :
    ts = Firestore.getTimestampUTC i.localTime i.strftimeOverflow 24 ∧ ts.length ≠ 0 ∧
      i.wifiConnected = true ∧ s.currentState = .IDLE ∧ t.tombol3 = true ∧
      s.sampah.jenis ≠ "--" := by
  rcases i with ⟨wifi, lt, ov, ok⟩
  by_cases hs : s.currentState = .IDLE
  · cases hb : t.tombol3
    · simp [newEvents, Firestore.handleKirimData, hs, hb] at h
    · by_cases hj : s.sampah.jenis = "--"
      · simp [newEvents, Firestore.handleKirimData, hs, hb, hj, emit, emits] at h
      · cases wifi <;> cases ok <;>
          by_cases hl : (Firestore.getTimestampUTC lt ov 24).length = 0 <;>
          simp [newEvents, Firestore.handleKirimData, Firestore.sendDataToFirebase,
            hs, hb, hj, hl, emit, emits, fst_ite, snd_ite, setJenis, setSubJenis] at h ⊢
        all_goals
          obtain ⟨-, -, -, -, -, rfl⟩ := h
          exact ⟨rfl, hl⟩
  · simp [newEvents, Firestore.handleKirimData, hs] at h

/-- Every `createDocument` of a commit in `main.cpp` carries the text that `strftime`
wrote for the time that `getLocalTime` supplied, which is not empty. -/
theorem firestore_handleKirimData_record (cred : Credentials) (t : Tombol)
    (i : Firestore.SendIn) (now : Nat) (s : State) (p c : String) (w : ℚ)
    (j f ts : String)
    (h : Event.createDocument p c w j f ts ∈
      newEvents s (Firestore.handleKirimData cred t i now s)) :
    ∃ tm, i.localTime = some tm ∧
      ts = strftime 24 "%Y-%m-%dT%H:%M:%SZ" tm i.strftimeOverflow ∧ ts.length ≠ 0 := by
  have hb := firestore_handleKirimData_buffer cred t i now s p c w j f ts h
  cases hl : i.localTime with
  | none =>
    rw [hl] at hb
    exact absurd (by rw [hb.1]; rfl) hb.2.1
  | some tm =>
    rw [hl] at hb
    exact ⟨tm, rfl, hb.1, hb.2.1⟩

theorem firestore_handleKirimData_noClock (cred : Credentials) (t : Tombol)
    (i : Firestore.SendIn) (now : Nat) (s : State) (hs : s.currentState = .IDLE)
    (hb : t.tombol3 = true) (hl : i.localTime = none) :
    (Firestore.handleKirimData cred t i now s).currentState = .SHOWING_STATUS ∧
      (Firestore.handleKirimData cred t i now s).sampah = s.sampah ∧
      Quiet s (Firestore.handleKirimData cred t i now s) ∧
      lcdTexts (newEvents s (Firestore.handleKirimData cred t i now s)) =
        (if s.sampah.jenis = "--" then ["Error: Pilih Jenis!   "]
          else ["Status: Mengirim... ", "Status: Gagal!        "]) := by
  rcases i with ⟨w, lt, ov, ok⟩
  cases hl
  by_cases hj : s.sampah.jenis = "--"
  · rw [firestore_handleKirimData_noCategory cred t _ now s hs hb hj, newEvents_emits_with]
    exact ⟨rfl, rfl, quiet_emits_with _ _ _ _ rfl, by simp [hj]⟩
  · cases w <;>
      simp [Quiet, newEvents, Firestore.handleKirimData, Firestore.sendDataToFirebase,
        Firestore.getTimestampUTC, hs, hb, hj, emit, emits]

/-! ## The result of `sendToLaravel` -/

theorem httpMqtt_sendToLaravel_result (cred : Credentials) (l : HttpMqtt.LaravelIn)
    (s : State) :
    (HttpMqtt.sendToLaravel cred l s).1 =
      decide (l.wifiConnected = true ∧ l.httpBeginOk = true ∧ l.httpResponseCode > 0) := by
  rcases l with ⟨w, b, code, idx⟩
  cases w <;> cases b <;> by_cases hc : code > 0 <;>
    simp [HttpMqtt.sendToLaravel, hc, fst_ite]

/-! ## The label of a record -/

theorem take_of_length_le (s : String) (n : Nat) (h : s.length ≤ n) : s.take n = s := by
  rw [String.take_eq]
  cases s with
  | mk l =>
    simp only [String.length] at h
    simp [List.take_of_length_le h]

theorem take_jenis (lab : String) :
    ("Jenis: " ++ lab).take 20 = "Jenis: " ++ lab.take 13 := by
  rw [String.take_eq, String.take_eq]
  cases lab with
  | mk l =>
    apply String.ext
    simp [String.data_append, List.take_append_eq_append_take]

theorem snprintfJenis_21 (arg : String) :
    snprintfJenis 21 arg = "Jenis: " ++ arg.take 13 :=
  take_jenis arg

theorem safeStringCopy_short (src : String) (n : Nat) (h : src.length ≤ n - 1) :
    safeStringCopy src n = src :=
  take_of_length_le src (n - 1) h

theorem specLabel_eq (d : SampahType) :
    (if d.jenis = "Anorganik" ∧ d.subJenis ≠ "--" then
        (if d.subJenis = "Umum" then "Anorganik" else d.subJenis)
      else d.jenis) = specLabel d := by
  unfold specLabel
  split_ifs <;> simp_all

theorem firestore_label (d : SampahType) (hj : d.jenis.length ≤ 15)
    (hs : d.subJenis.length ≤ 15) :
    (if d.jenis = "Anorganik" ∧ d.subJenis ≠ "--" then
        (if d.subJenis = "Umum" then safeStringCopy "Anorganik" 16
          else safeStringCopy d.subJenis 16)
      else safeStringCopy d.jenis 16) = specLabel d := by
  rw [safeStringCopy_short d.jenis 16 hj, safeStringCopy_short d.subJenis 16 hs,
    safeStringCopy_Anorganik]
  exact specLabel_eq d

theorem mqtt_label (d : SampahType) (hj : d.jenis.length ≤ 15)
    (hs : d.subJenis.length ≤ 15) :
    (if d.jenis = "Anorganik" ∧ d.subJenis ≠ "--" then
        (if d.subJenis = "Umum" then safeStringCopy "Anorganik" 20
          else safeStringCopy d.subJenis 20)
      else safeStringCopy d.jenis 20) = specLabel d := by
  rw [safeStringCopy_short d.jenis 20 (by omega), safeStringCopy_short d.subJenis 20 (by omega),
    safeStringCopy_Anorganik20]
  exact specLabel_eq d

theorem display_label (d : SampahType) :
    (if d.jenis = "Anorganik" ∧ d.subJenis ≠ "--" then
        (if d.subJenis = "Umum" then ("Jenis: Anorganik" : String).take 20
          else snprintfJenis 21 d.subJenis)
      else snprintfJenis 21 d.jenis) = "Jenis: " ++ (specLabel d).take 13 := by
  have hA : ("Jenis: Anorganik" : String) = "Jenis: " ++ "Anorganik" := by decide
  rw [← specLabel_eq d, hA, snprintfJenis_21, snprintfJenis_21, take_jenis]
  split_ifs <;> rfl

theorem firestore_sendDataToFirebase_events (cred : Credentials) (i : Firestore.SendIn)
    (s : State) (hj : s.sampah.jenis.length ≤ 15) (hs : s.sampah.subJenis.length ≤ 15) :
    newEvents s (Firestore.sendDataToFirebase cred i s).2 =
      if i.wifiConnected = true ∧ (Firestore.getTimestampUTC i.localTime i.strftimeOverflow 24).length ≠ 0 then
        [.call .sendDataToFirebase,
          .createDocument cred.FIREBASE_PROJECT_ID "sampah" s.currentWeight
            (specLabel s.sampah) s.fakultas (Firestore.getTimestampUTC i.localTime i.strftimeOverflow 24),
          .ret .sendDataToFirebase i.createDocumentOk]
      else [.call .sendDataToFirebase, .ret .sendDataToFirebase false] := by
  rw [← firestore_label s.sampah hj hs]
  rcases i with ⟨w, lt, ov, ok⟩
  cases w <;> cases ok <;> by_cases hl : (Firestore.getTimestampUTC lt ov 24).length = 0 <;>
    simp [newEvents, Firestore.sendDataToFirebase, hl, emit, emits, snd_ite]

theorem httpMqtt_sendToLaravel_events (cred : Credentials) (l : HttpMqtt.LaravelIn)
    (s : State) :
    newEvents s (HttpMqtt.sendToLaravel cred l s).2 =
      if l.wifiConnected = true ∧ l.httpBeginOk = true then
        [.call .sendToLaravel,
          .httpPost HttpMqtt.serverName cred.API_KEY s.currentWeight s.fakultas
            (specLabel s.sampah),
          .ret .sendToLaravel (decide (l.httpResponseCode > 0))]
      else [.call .sendToLaravel, .ret .sendToLaravel false] := by
  rw [← specLabel_eq s.sampah]
  rcases l with ⟨w, b, code, idx⟩
  cases w <;> cases b <;> by_cases hc : code > 0 <;>
    simp [newEvents, HttpMqtt.sendToLaravel, hc, emit, emits, snd_ite]

theorem httpMqtt_sendToMQTT_events (p : HttpMqtt.PublishIn) (s : State)
    (hj : s.sampah.jenis.length ≤ 15) (hs : s.sampah.subJenis.length ≤ 15) :
    newEvents s (HttpMqtt.sendToMQTT p s).2 =
      [.call .sendToMQTT] ++
        (if p.connected = false then
          [.call .connectMQTT] ++
            (if p.connect.connected = true then [] else [.mqttConnect p.connect.rnd])
        else []) ++
        (if p.connected = false ∧ p.connectedAfter = false then [.ret .sendToMQTT false]
        else
          [.mqttPublish HttpMqtt.mqtt_topic s.currentWeight s.fakultas (specLabel s.sampah),
            .ret .sendToMQTT p.publishOk]) := by
  rw [← mqtt_label s.sampah hj hs]
  rcases p with ⟨c, ⟨cc, rnd⟩, ca, ok⟩
  cases c <;> cases cc <;> cases ca <;> cases ok <;>
    simp [newEvents, HttpMqtt.sendToMQTT, HttpMqtt.connectMQTT, emit, emits, snd_ite]

theorem restoreDefaultDisplay_events (s : State) :
    newEvents s (restoreDefaultDisplay s) =
      [.lcdClear, .lcdSetCursor 0 0, .lcdPrint ("Jenis: " ++ (specLabel s.sampah).take 13),
        .lcdSetCursor 17 1, .lcdPrint "kg"] := by
  rw [← display_label s.sampah]
  simp [newEvents, restoreDefaultDisplay, emits]

/-! ## The commit after `prosesTombol` -/

theorem prosesTombol_idle_button1 (t : Tombol) (s : State) (hs : s.currentState = .IDLE)
    (h0 : t.tombol0 = true) :
    (prosesTombol t s).currentState = .IDLE ∧
      (prosesTombol t s).sampah = ⟨"Organik", "--"⟩ ∧
      (prosesTombol t s).offlineMode = s.offlineMode := by
  simp [prosesTombol, hs, h0, setJenis, setSubJenis, restoreDefaultDisplay, emit, emits]

theorem prosesTombol_tombol3 (t : Tombol) (b : Bool) (s : State) :
    prosesTombol { t with tombol3 := b } s = prosesTombol t s := rfl

theorem httpMqtt_handleKirimData_trace (cred : Credentials) (t : Tombol)
    (l : HttpMqtt.LaravelIn) (p : HttpMqtt.PublishIn) (now : Nat) (s : State) :
    (HttpMqtt.handleKirimData cred t l p now s).trace =
      s.trace ++ newEvents s (HttpMqtt.handleKirimData cred t l p now s) := by
  rcases l with ⟨w, b, code, idx⟩
  by_cases hs : s.currentState = .IDLE
  · cases hb : t.tombol3
    · simp [newEvents, HttpMqtt.handleKirimData, hs, hb]
    · cases ho : s.offlineMode
      · by_cases hj : s.sampah.jenis = "--"
        · simp [newEvents, HttpMqtt.handleKirimData, hs, hb, ho, hj, emit, emits]
        · cases w <;> cases b <;> by_cases hc : code > 0 <;>
            simp [newEvents, HttpMqtt.handleKirimData, HttpMqtt.sendToLaravel,
              HttpMqtt.sendToMQTT, HttpMqtt.connectMQTT, hs, hb, ho, hj, hc, emit, emits,
              fst_ite, snd_ite, setJenis, setSubJenis]
      · simp [newEvents, HttpMqtt.handleKirimData, hs, hb, ho, emit, emits]
  · simp [newEvents, HttpMqtt.handleKirimData, hs]

/-- A commit of the deposit ("Organik","--") in `main.cpp` sends nothing but records
with the label `"Organik"`. -/
theorem firestore_handleKirimData_organik (cred : Credentials) (t : Tombol)
    (i : Firestore.SendIn) (now : Nat) (s : State) (hd : s.sampah = ⟨"Organik", "--"⟩) :
    Grows (Event.hasLabel "Organik") s (Firestore.handleKirimData cred t i now s) := by
  refine grows_of_newEvents (firestore_handleKirimData_trace cred t i now s) ?_
  rcases i with ⟨w, lt, ov, ok⟩
  by_cases hs : s.currentState = .IDLE
  · cases hb : t.tombol3
    · simp [newEvents, Firestore.handleKirimData, hs, hb]
    · cases w <;> cases ok <;> by_cases hl : (Firestore.getTimestampUTC lt ov 24).length = 0 <;>
        simp [newEvents, Firestore.handleKirimData, Firestore.sendDataToFirebase, hs, hb,
          hd, hl, emit, emits, fst_ite, snd_ite, setJenis, setSubJenis, Event.hasLabel]
  · simp [newEvents, Firestore.handleKirimData, hs]

/-- A commit of the deposit ("Organik","--") in `uploadmysql.cpp` sends nothing but
records with the label `"Organik"`. -/
theorem httpMqtt_handleKirimData_organik (cred : Credentials) (t : Tombol)
    (l : HttpMqtt.LaravelIn) (p : HttpMqtt.PublishIn) (now : Nat) (s : State)
    (hd : s.sampah = ⟨"Organik", "--"⟩) :
    Grows (Event.hasLabel "Organik") s (HttpMqtt.handleKirimData cred t l p now s) := by
  refine grows_of_newEvents (httpMqtt_handleKirimData_trace cred t l p now s) ?_
  rcases l with ⟨w, b, code, idx⟩
  by_cases hs : s.currentState = .IDLE
  · cases hb : t.tombol3
    · simp [newEvents, HttpMqtt.handleKirimData, hs, hb]
    · cases ho : s.offlineMode
      · cases w <;> cases b <;> by_cases hc : code > 0 <;>
          simp [newEvents, HttpMqtt.handleKirimData, HttpMqtt.sendToLaravel,
            HttpMqtt.sendToMQTT, HttpMqtt.connectMQTT, hs, hb, ho, hd, hc, emit, emits,
            fst_ite, snd_ite, setJenis, setSubJenis, Event.hasLabel]
      · simp [newEvents, HttpMqtt.handleKirimData, hs, hb, ho, emit, emits, Event.hasLabel]
  · simp [newEvents, HttpMqtt.handleKirimData, hs]

/-! ## The text written by `strftime` -/

theorem digitChar_isDigit (d : Nat) (h : d < 10) : (Nat.digitChar d).isDigit = true := by
  interval_cases d <;> rfl

theorem repr_two (n : Nat) (h1 : 10 ≤ n) (h2 : n ≤ 99) :
    (Nat.repr n).data = [Nat.digitChar (n / 10), Nat.digitChar (n % 10)] := by
  obtain ⟨k, rfl⟩ : ∃ k, n = k + 2 := ⟨n - 2, by omega⟩
  have a : (k + 2) / 10 ≠ 0 := by omega
  have b : (k + 2) / 10 / 10 = 0 := by omega
  have c : (k + 2) / 10 % 10 = (k + 2) / 10 := by omega
  simp [Nat.repr, Nat.toDigits, Nat.toDigitsCore, a, b, c, List.asString]

theorem repr_one (n : Nat) (h2 : n ≤ 9) :
    (Nat.repr n).data = [Nat.digitChar n] := by
  have b : n / 10 = 0 := by omega
  have c : n % 10 = n := by omega
  simp [Nat.repr, Nat.toDigits, Nat.toDigitsCore, b, c, List.asString]

theorem repr_four (n : Nat) (h1 : 1000 ≤ n) (h2 : n ≤ 9999) :
    (Nat.repr n).data = [Nat.digitChar (n / 1000), Nat.digitChar (n / 100 % 10),
      Nat.digitChar (n / 10 % 10), Nat.digitChar (n % 10)] := by
  obtain ⟨k, rfl⟩ : ∃ k, n = k + 4 := ⟨n - 4, by omega⟩
  have a : (k + 4) / 10 ≠ 0 := by omega
  have b : (k + 4) / 10 / 10 ≠ 0 := by omega
  have c : (k + 4) / 10 / 10 / 10 ≠ 0 := by omega
  have d : (k + 4) / 10 / 10 / 10 / 10 = 0 := by omega
  simp [Nat.repr, Nat.toDigits, Nat.toDigitsCore, a, b, c, d, List.asString]
  constructor <;> congr 1 <;> omega

theorem pad2_data (n : Int) (h0 : 0 ≤ n) (h1 : n ≤ 99) :
    (pad2 n).data = [Nat.digitChar (n.toNat / 10), Nat.digitChar (n.toNat % 10)] := by
  obtain ⟨m, rfl⟩ := Int.eq_ofNat_of_zero_le h0
  have hm : m ≤ 99 := by omega
  have ht : toString ((m : Nat) : Int) = Nat.repr m := rfl
  simp only [pad2, ht, Int.toNat_ofNat]
  by_cases h : m ≤ 9
  · have h1 : m / 10 = 0 := by omega
    have h2 : m % 10 = m := by omega
    simp [String.length, repr_one m h, h1, h2, String.data_append]
    rfl
  · simp [String.length, repr_two m (by omega) hm, String.data_append]

theorem year_data (y : Int) (h0 : 1000 ≤ y) (h1 : y ≤ 9999) :
    (toString y).data = [Nat.digitChar (y.toNat / 1000), Nat.digitChar (y.toNat / 100 % 10),
      Nat.digitChar (y.toNat / 10 % 10), Nat.digitChar (y.toNat % 10)] := by
  obtain ⟨m, rfl⟩ := Int.eq_ofNat_of_zero_le (by omega : 0 ≤ y)
  have ht : toString ((m : Nat) : Int) = Nat.repr m := rfl
  rw [ht, Int.toNat_ofNat]
  exact repr_four m (by omega) (by omega)

theorem strftimeText_iso (tm : Tm) :
    strftimeText tm false "%Y-%m-%dT%H:%M:%SZ".toList =
      toString (tm.tm_year + 1900) ++ ("-" ++ (pad2 (tm.tm_mon + 1) ++ ("-" ++ (pad2 tm.tm_mday ++
        ("T" ++ (pad2 tm.tm_hour ++ (":" ++ (pad2 tm.tm_min ++ (":" ++ (pad2 tm.tm_sec ++
          ("Z" ++ "")))))))))))  := by
  rfl

theorem strftimeText_data (tm : Tm) (h : tm.InRange) :
    (strftimeText tm false "%Y-%m-%dT%H:%M:%SZ".toList).data =
      [Nat.digitChar ((tm.tm_year + 1900).toNat / 1000),
        Nat.digitChar ((tm.tm_year + 1900).toNat / 100 % 10),
        Nat.digitChar ((tm.tm_year + 1900).toNat / 10 % 10),
        Nat.digitChar ((tm.tm_year + 1900).toNat % 10), '-',
        Nat.digitChar ((tm.tm_mon + 1).toNat / 10), Nat.digitChar ((tm.tm_mon + 1).toNat % 10), '-',
        Nat.digitChar (tm.tm_mday.toNat / 10), Nat.digitChar (tm.tm_mday.toNat % 10), 'T',
        Nat.digitChar (tm.tm_hour.toNat / 10), Nat.digitChar (tm.tm_hour.toNat % 10), ':',
        Nat.digitChar (tm.tm_min.toNat / 10), Nat.digitChar (tm.tm_min.toNat % 10), ':',
        Nat.digitChar (tm.tm_sec.toNat / 10), Nat.digitChar (tm.tm_sec.toNat % 10), 'Z'] := by
  obtain ⟨a1, a2, b1, b2, c1, c2, d1, d2, e1, e2, f1, f2⟩ := h
  rw [strftimeText_iso]
  simp only [String.data_append, year_data _ a1 a2, pad2_data _ b1 b2, pad2_data _ c1 c2,
    pad2_data _ d1 d2, pad2_data _ e1 e2, pad2_data _ f1 f2]
  rfl

theorem isIsoUtc_of_data (txt : String) (a b c d e f g h i j k l m n : Nat)
    (ha : a < 10) (hb : b < 10) (hc : c < 10) (hd : d < 10) (he : e < 10) (hf : f < 10)
    (hg : g < 10) (hh : h < 10) (hi : i < 10) (hj : j < 10) (hk : k < 10) (hl : l < 10)
    (hm : m < 10) (hn : n < 10)
    (ht : txt.data = [Nat.digitChar a, Nat.digitChar b, Nat.digitChar c, Nat.digitChar d, '-',
      Nat.digitChar e, Nat.digitChar f, '-', Nat.digitChar g, Nat.digitChar h, 'T',
      Nat.digitChar i, Nat.digitChar j, ':', Nat.digitChar k, Nat.digitChar l, ':',
      Nat.digitChar m, Nat.digitChar n, 'Z']) :
    txt.length = 20 ∧ isIsoUtc txt = true := by
  refine ⟨by simp [String.length, ht], ?_⟩
  simp only [isIsoUtc, String.toList, ht]
  simp [digitChar_isDigit, ha, hb, hc, hd, he, hf, hg, hh, hi, hj, hk, hl, hm, hn]

theorem strftime_iso (tm : Tm) (h : tm.InRange) (ov : String) :
    strftime 24 "%Y-%m-%dT%H:%M:%SZ" tm ov = strftimeText tm false "%Y-%m-%dT%H:%M:%SZ".toList ∧
    (strftime 24 "%Y-%m-%dT%H:%M:%SZ" tm ov).length = 20 ∧
    isIsoUtc (strftime 24 "%Y-%m-%dT%H:%M:%SZ" tm ov) = true := by
  have hd := strftimeText_data tm h
  obtain ⟨a1, a2, b1, b2, c1, c2, d1, d2, e1, e2, f1, f2⟩ := h
  have hi := isIsoUtc_of_data _ _ _ _ _ _ _ _ _ _ _ _ _ _ _ (by omega) (by omega) (by omega)
    (by omega) (by omega) (by omega) (by omega) (by omega) (by omega) (by omega) (by omega)
    (by omega) (by omega) (by omega) hd
  have hs : strftime 24 "%Y-%m-%dT%H:%M:%SZ" tm ov =
      strftimeText tm false "%Y-%m-%dT%H:%M:%SZ".toList := by
    show (if (strftimeText tm false "%Y-%m-%dT%H:%M:%SZ".toList).length < 24 then _ else ov) = _
    rw [if_pos (by rw [hi.1]; decide)]
  rw [hs]
  exact ⟨rfl, hi⟩
/-! ## One iteration of `loop` -/

theorem Frame.keepsInv {s t : State} (h : Frame s t) (hs : DepositInv s) : DepositInv t := by
  unfold DepositInv at *
  rw [h.2.1]
  exact hs

theorem firestore_loop_depositInv (cred : Credentials) (i : Firestore.Inputs) (s : State)
    (h : DepositInv s) : DepositInv (Firestore.loop cred i s) := by
  have hm : DepositInv (Firestore.manageWifiConnection i.wifi s) :=
    (firestore_manageWifiConnection_frame i.wifi s).keepsInv h
  simp only [Firestore.loop]
  split
  · refine (firestore_updateStatusIndicators_frame _ _).keepsInv ?_
    refine depositInv_of_sampah (firestore_handleKirimData_sampah _ _ _ _ _) ?_
    refine prosesTombol_depositInv _ _ ?_
    exact (idleWeight_frame _ _ _ _ _).keepsInv hm
  · exact prosesTombol_depositInv _ _ hm
  · exact hm
  · split
    · exact (restoreDefaultDisplay_frame _).keepsInv hm
    · exact hm

theorem httpMqtt_loop_depositInv (cred : Credentials) (i : HttpMqtt.Inputs) (s : State)
    (h : DepositInv s) : DepositInv (HttpMqtt.loop cred i s) := by
  have hm : DepositInv (HttpMqtt.maintainMqtt i.maintain
      (HttpMqtt.manageWifiConnection i.wifi s)) :=
    (httpMqtt_maintainMqtt_frame _ _).keepsInv
      ((httpMqtt_manageWifiConnection_frame i.wifi s).keepsInv h)
  simp only [HttpMqtt.loop]
  split
  · refine (httpMqtt_updateStatusIndicators_frame _ _).keepsInv ?_
    refine depositInv_of_sampah (httpMqtt_handleKirimData_sampah _ _ _ _ _ _) ?_
    refine prosesTombol_depositInv _ _ ?_
    exact (idleWeight_frame _ _ _ _ _).keepsInv hm
  · exact prosesTombol_depositInv _ _ hm
  · exact hm
  · split
    · exact (restoreDefaultDisplay_frame _).keepsInv hm
    · exact hm

theorem firestore_run_depositInv (cred : Credentials) (inputs : List Firestore.Inputs)
    (s : State) (h : DepositInv s) : DepositInv (Firestore.run cred inputs s) := by
  induction inputs generalizing s with
  | nil => exact h
  | cons i rest ih => exact ih _ (firestore_loop_depositInv cred i s h)

theorem httpMqtt_run_depositInv (cred : Credentials) (inputs : List HttpMqtt.Inputs)
    (s : State) (h : DepositInv s) : DepositInv (HttpMqtt.run cred inputs s) := by
  induction inputs generalizing s with
  | nil => exact h
  | cons i rest ih => exact ih _ (httpMqtt_loop_depositInv cred i s h)

theorem Initial.inv {s : State} (h : Initial s) : DepositInv s := by
  unfold DepositInv
  intro hne
  rw [h.2] at hne
  exact absurd rfl hne

/-- The state in which one iteration of `main.cpp` ends, as far as `currentState`
goes, in terms of the state in which it starts. -/
theorem firestore_loop_selecting (cred : Credentials) (i : Firestore.Inputs) (s : State)
    (h : (Firestore.loop cred i s).currentState = .SELECTING_SUBTYPE) :
    s.currentState = .SELECTING_SUBTYPE ∨
      (s.currentState = .IDLE ∧ i.tombol.tombol1 = true ∧ i.tombol.tombol0 = false) := by
  have hm := (firestore_manageWifiConnection_frame i.wifi s).1
  simp only [Firestore.loop] at h
  split at h
  next hc =>
    rw [(firestore_updateStatusIndicators_frame _ _).1,
      firestore_handleKirimData_currentState] at h
    split_ifs at h with hk
    rcases prosesTombol_selecting _ _ h with h' | h'
    · rw [(idleWeight_frame _ _ _ _ _).1, hc] at h'
      cases h'
    · exact Or.inr ⟨by rw [← hm, hc], h'.2⟩
  next hc =>
    exact Or.inl (by rw [← hm, hc])
  next hc =>
    rw [hc] at h
    cases h
  next hc =>
    split_ifs at h
    rw [hc] at h
    cases h

theorem httpMqtt_loop_selecting (cred : Credentials) (i : HttpMqtt.Inputs) (s : State)
    (h : (HttpMqtt.loop cred i s).currentState = .SELECTING_SUBTYPE) :
    s.currentState = .SELECTING_SUBTYPE ∨
      (s.currentState = .IDLE ∧ i.tombol.tombol1 = true ∧ i.tombol.tombol0 = false) := by
  have hm : (HttpMqtt.maintainMqtt i.maintain
      (HttpMqtt.manageWifiConnection i.wifi s)).currentState = s.currentState := by
    rw [(httpMqtt_maintainMqtt_frame _ _).1, (httpMqtt_manageWifiConnection_frame _ _).1]
  simp only [HttpMqtt.loop] at h
  split at h
  next hc =>
    rw [(httpMqtt_updateStatusIndicators_frame _ _).1,
      httpMqtt_handleKirimData_currentState] at h
    split_ifs at h with hk
    rcases prosesTombol_selecting _ _ h with h' | h'
    · rw [(idleWeight_frame _ _ _ _ _).1, hc] at h'
      cases h'
    · exact Or.inr ⟨by rw [← hm, hc], h'.2⟩
  next hc =>
    exact Or.inl (by rw [← hm, hc])
  next hc =>
    rw [hc] at h
    cases h
  next hc =>
    split_ifs at h
    rw [hc] at h
    cases h

/-! ## Forward steps of the session -/

theorem prosesTombol_idle_button2 (t : Tombol) (s : State) (hs : s.currentState = .IDLE)
    (h0 : t.tombol0 = false) (h1 : t.tombol1 = true) :
    (prosesTombol t s).currentState = .SELECTING_SUBTYPE ∧
      (prosesTombol t s).sampah = s.sampah := by
  simp [prosesTombol, hs, h0, h1, tampilkanSubJenisAnorganik, emits]

theorem prosesTombol_selecting_button2 (t : Tombol) (s : State)
    (hs : s.currentState = .SELECTING_SUBTYPE) (h0 : t.tombol0 = false)
    (h1 : t.tombol1 = true) :
    (prosesTombol t s).currentState = .IDLE ∧
      (prosesTombol t s).sampah = ⟨"Anorganik", "Botol"⟩ := by
  simp [prosesTombol, hs, h0, h1, setJenis, setSubJenis, restoreDefaultDisplay, emit, emits]

theorem prosesTombol_no_button (t : Tombol) (s : State) (h0 : t.tombol0 = false)
    (h1 : t.tombol1 = false) (h2 : t.tombol2 = false) : prosesTombol t s = s := by
  simp [prosesTombol, h0, h1, h2]

theorem firestore_handleKirimData_not_idle (cred : Credentials) (t : Tombol)
    (i : Firestore.SendIn) (now : Nat) (s : State) (hs : s.currentState ≠ .IDLE) :
    Firestore.handleKirimData cred t i now s = s := by
  simp [Firestore.handleKirimData, hs]

theorem httpMqtt_handleKirimData_not_idle (cred : Credentials) (t : Tombol)
    (l : HttpMqtt.LaravelIn) (p : HttpMqtt.PublishIn) (now : Nat) (s : State)
    (hs : s.currentState ≠ .IDLE) : HttpMqtt.handleKirimData cred t l p now s = s := by
  simp [HttpMqtt.handleKirimData, hs]

/-- The body of `loop` in `main.cpp` when the iteration starts in `IDLE`. -/
theorem firestore_loop_idle (cred : Credentials) (i : Firestore.Inputs) (s : State)
    (hs : s.currentState = .IDLE) :
    Firestore.loop cred i s =
      Firestore.updateStatusIndicators i.status
        (Firestore.handleKirimData cred i.tombol i.send i.millisKirim
          (prosesTombol i.tombol
            (idleWeight Firestore.MIN_WEIGHT_THRESHOLD i.millisIdle i.loadCellUpdate
              i.loadCellData (Firestore.manageWifiConnection i.wifi s)))) := by
  have hc : (Firestore.manageWifiConnection i.wifi s).currentState = .IDLE :=
    (firestore_manageWifiConnection_frame i.wifi s).1.trans hs
  simp only [Firestore.loop, hc]

/-- The body of `loop` in `main.cpp` when the iteration starts in `SELECTING_SUBTYPE`. -/
theorem firestore_loop_selecting_subtype (cred : Credentials) (i : Firestore.Inputs)
    (s : State) (hs : s.currentState = .SELECTING_SUBTYPE) :
    Firestore.loop cred i s = prosesTombol i.tombol (Firestore.manageWifiConnection i.wifi s) := by
  have hc : (Firestore.manageWifiConnection i.wifi s).currentState = .SELECTING_SUBTYPE :=
    (firestore_manageWifiConnection_frame i.wifi s).1.trans hs
  simp only [Firestore.loop, hc]

/-- The body of `loop` in `main.cpp` when the iteration starts in `SENDING_DATA`. -/
theorem firestore_loop_sending_data (cred : Credentials) (i : Firestore.Inputs)
    (s : State) (hs : s.currentState = .SENDING_DATA) :
    Firestore.loop cred i s = Firestore.manageWifiConnection i.wifi s := by
  have hc : (Firestore.manageWifiConnection i.wifi s).currentState = .SENDING_DATA :=
    (firestore_manageWifiConnection_frame i.wifi s).1.trans hs
  simp only [Firestore.loop, hc]

/-- The body of `loop` in `main.cpp` when the iteration starts in `SHOWING_STATUS`. -/
theorem firestore_loop_showing_status (cred : Credentials) (i : Firestore.Inputs)
    (s : State) (hs : s.currentState = .SHOWING_STATUS) :
    Firestore.loop cred i s =
      if u32sub i.millisShowing s.statusMsgTimestamp > Config.STATUS_MSG_DURATION then
        { restoreDefaultDisplay (Firestore.manageWifiConnection i.wifi s) with
          currentState := .IDLE }
      else Firestore.manageWifiConnection i.wifi s := by
  have hf := firestore_manageWifiConnection_frame i.wifi s
  have hc : (Firestore.manageWifiConnection i.wifi s).currentState = .SHOWING_STATUS :=
    hf.1.trans hs
  simp only [Firestore.loop, hc, hf.2.2.1]

/-- The body of `loop` in `uploadmysql.cpp` when the iteration starts in `IDLE`. -/
theorem httpMqtt_loop_idle (cred : Credentials) (i : HttpMqtt.Inputs) (s : State)
    (hs : s.currentState = .IDLE) :
    HttpMqtt.loop cred i s =
      HttpMqtt.updateStatusIndicators i.status
        (HttpMqtt.handleKirimData cred i.tombol i.laravel i.publish i.millisKirim
          (prosesTombol i.tombol
            (idleWeight HttpMqtt.MIN_WEIGHT_THRESHOLD i.millisIdle i.loadCellUpdate
              i.loadCellData
              (HttpMqtt.maintainMqtt i.maintain (HttpMqtt.manageWifiConnection i.wifi s))))) := by
  have hc : (HttpMqtt.maintainMqtt i.maintain
      (HttpMqtt.manageWifiConnection i.wifi s)).currentState = .IDLE :=
    ((httpMqtt_manageWifiConnection_frame i.wifi s).andThen
      (httpMqtt_maintainMqtt_frame _ _)).1.trans hs
  simp only [HttpMqtt.loop, hc]

/-- The body of `loop` in `uploadmysql.cpp` when the iteration starts in
`SELECTING_SUBTYPE`. -/
theorem httpMqtt_loop_selecting_subtype (cred : Credentials) (i : HttpMqtt.Inputs)
    (s : State) (hs : s.currentState = .SELECTING_SUBTYPE) :
    HttpMqtt.loop cred i s =
      prosesTombol i.tombol
        (HttpMqtt.maintainMqtt i.maintain (HttpMqtt.manageWifiConnection i.wifi s)) := by
  have hc : (HttpMqtt.maintainMqtt i.maintain
      (HttpMqtt.manageWifiConnection i.wifi s)).currentState = .SELECTING_SUBTYPE :=
    ((httpMqtt_manageWifiConnection_frame i.wifi s).andThen
      (httpMqtt_maintainMqtt_frame _ _)).1.trans hs
  simp only [HttpMqtt.loop, hc]

/-- The body of `loop` in `uploadmysql.cpp` when the iteration starts in `SENDING_DATA`. -/
theorem httpMqtt_loop_sending_data (cred : Credentials) (i : HttpMqtt.Inputs)
    (s : State) (hs : s.currentState = .SENDING_DATA) :
    HttpMqtt.loop cred i s =
      HttpMqtt.maintainMqtt i.maintain (HttpMqtt.manageWifiConnection i.wifi s) := by
  have hc : (HttpMqtt.maintainMqtt i.maintain
      (HttpMqtt.manageWifiConnection i.wifi s)).currentState = .SENDING_DATA :=
    ((httpMqtt_manageWifiConnection_frame i.wifi s).andThen
      (httpMqtt_maintainMqtt_frame _ _)).1.trans hs
  simp only [HttpMqtt.loop, hc]

/-- The body of `loop` in `uploadmysql.cpp` when the iteration starts in
`SHOWING_STATUS`. -/
theorem httpMqtt_loop_showing_status (cred : Credentials) (i : HttpMqtt.Inputs)
    (s : State) (hs : s.currentState = .SHOWING_STATUS) :
    HttpMqtt.loop cred i s =
      if u32sub i.millisShowing s.statusMsgTimestamp > Config.STATUS_MSG_DURATION then
        { restoreDefaultDisplay
            (HttpMqtt.maintainMqtt i.maintain (HttpMqtt.manageWifiConnection i.wifi s)) with
          currentState := .IDLE }
      else HttpMqtt.maintainMqtt i.maintain (HttpMqtt.manageWifiConnection i.wifi s) := by
  have hf := (httpMqtt_manageWifiConnection_frame i.wifi s).andThen
    (httpMqtt_maintainMqtt_frame i.maintain _)
  have hc : (HttpMqtt.maintainMqtt i.maintain
      (HttpMqtt.manageWifiConnection i.wifi s)).currentState = .SHOWING_STATUS :=
    hf.1.trans hs
  simp only [HttpMqtt.loop, hc, hf.2.2.1]

/-! ## The `SHOWING_STATUS` case -/

theorem u32sub_eq_emod (a b : Nat) :
    ((u32sub a b : Nat) : Int) = ((a : Int) - (b : Int)) % 4294967296 := by
  unfold u32sub
  omega

theorem firestore_loop_showing_hold (cred : Credentials) (i : Firestore.Inputs) (s : State)
    (hs : s.currentState = .SHOWING_STATUS)
    (h : ¬ u32sub i.millisShowing s.statusMsgTimestamp > Config.STATUS_MSG_DURATION) :
    Frame s (Firestore.loop cred i s) := by
  rw [firestore_loop_showing_status cred i s hs, if_neg h]
  exact firestore_manageWifiConnection_frame i.wifi s

theorem httpMqtt_loop_showing_hold (cred : Credentials) (i : HttpMqtt.Inputs) (s : State)
    (hs : s.currentState = .SHOWING_STATUS)
    (h : ¬ u32sub i.millisShowing s.statusMsgTimestamp > Config.STATUS_MSG_DURATION) :
    Frame s (HttpMqtt.loop cred i s) := by
  rw [httpMqtt_loop_showing_status cred i s hs, if_neg h]
  exact (httpMqtt_manageWifiConnection_frame i.wifi s).andThen (httpMqtt_maintainMqtt_frame _ _)

theorem firestore_loop_showing_exit (cred : Credentials) (i : Firestore.Inputs) (s : State)
    (hs : s.currentState = .SHOWING_STATUS)
    (h : u32sub i.millisShowing s.statusMsgTimestamp > Config.STATUS_MSG_DURATION) :
    (Firestore.loop cred i s).currentState = .IDLE := by
  rw [firestore_loop_showing_status cred i s hs, if_pos h]

theorem httpMqtt_loop_showing_exit (cred : Credentials) (i : HttpMqtt.Inputs) (s : State)
    (hs : s.currentState = .SHOWING_STATUS)
    (h : u32sub i.millisShowing s.statusMsgTimestamp > Config.STATUS_MSG_DURATION) :
    (HttpMqtt.loop cred i s).currentState = .IDLE := by
  rw [httpMqtt_loop_showing_status cred i s hs, if_pos h]

/-! ## Button 2 twice, then a commit -/

theorem firestore_loop_idle_button2 (cred : Credentials) (i : Firestore.Inputs) (s : State)
    (hs : s.currentState = .IDLE) (h0 : i.tombol.tombol0 = false)
    (h1 : i.tombol.tombol1 = true) :
    (Firestore.loop cred i s).currentState = .SELECTING_SUBTYPE ∧
      (Firestore.loop cred i s).sampah = s.sampah := by
  have h2 := (firestore_manageWifiConnection_frame i.wifi s).andThen
    (idleWeight_frame Firestore.MIN_WEIGHT_THRESHOLD i.millisIdle i.loadCellUpdate
      i.loadCellData _)
  have hp := prosesTombol_idle_button2 i.tombol _ (h2.1.trans hs) h0 h1
  rw [firestore_loop_idle cred i s hs]
  have hu := firestore_updateStatusIndicators_frame i.status
    (Firestore.handleKirimData cred i.tombol i.send i.millisKirim
      (prosesTombol i.tombol (idleWeight Firestore.MIN_WEIGHT_THRESHOLD i.millisIdle
        i.loadCellUpdate i.loadCellData (Firestore.manageWifiConnection i.wifi s))))
  rw [firestore_handleKirimData_not_idle _ _ _ _ _ (by rw [hp.1]; decide)] at hu ⊢
  exact ⟨hu.1.trans hp.1, hu.2.1.trans (hp.2.trans h2.2.1)⟩

theorem firestore_loop_selecting_button2 (cred : Credentials) (i : Firestore.Inputs)
    (s : State) (hs : s.currentState = .SELECTING_SUBTYPE) (h0 : i.tombol.tombol0 = false)
    (h1 : i.tombol.tombol1 = true) :
    (Firestore.loop cred i s).currentState = .IDLE ∧
      (Firestore.loop cred i s).sampah = ⟨"Anorganik", "Botol"⟩ := by
  rw [firestore_loop_selecting_subtype cred i s hs]
  exact prosesTombol_selecting_button2 i.tombol _
    ((firestore_manageWifiConnection_frame i.wifi s).1.trans hs) h0 h1

theorem httpMqtt_manageWifiConnection_offline (i : HttpMqtt.WifiIn) (s : State)
    (ho : s.offlineMode = true) (hw : i.wifiConnected = false) :
    (HttpMqtt.manageWifiConnection i s).offlineMode = true := by
  simp [HttpMqtt.manageWifiConnection, ho, hw, emit]

theorem httpMqtt_updateStatusIndicators_offlineMode (i : HttpMqtt.StatusIn) (s : State) :
    (HttpMqtt.updateStatusIndicators i s).offlineMode = s.offlineMode := by
  simp [HttpMqtt.updateStatusIndicators, HttpMqtt.checkNetworkHealth, emit, emits]

theorem httpMqtt_loop_idle_button2 (cred : Credentials) (i : HttpMqtt.Inputs) (s : State)
    (hs : s.currentState = .IDLE) (h0 : i.tombol.tombol0 = false)
    (h1 : i.tombol.tombol1 = true) :
    (HttpMqtt.loop cred i s).currentState = .SELECTING_SUBTYPE ∧
      (HttpMqtt.loop cred i s).sampah = s.sampah ∧
      (HttpMqtt.loop cred i s).offlineMode =
        (HttpMqtt.manageWifiConnection i.wifi s).offlineMode := by
  have h2 := ((httpMqtt_manageWifiConnection_frame i.wifi s).andThen
    (httpMqtt_maintainMqtt_frame i.maintain _)).andThen
    (idleWeight_frame HttpMqtt.MIN_WEIGHT_THRESHOLD i.millisIdle i.loadCellUpdate
      i.loadCellData _)
  have hp := prosesTombol_idle_button2 i.tombol _ (h2.1.trans hs) h0 h1
  rw [httpMqtt_loop_idle cred i s hs]
  have hu := httpMqtt_updateStatusIndicators_frame i.status
    (HttpMqtt.handleKirimData cred i.tombol i.laravel i.publish i.millisKirim
      (prosesTombol i.tombol (idleWeight HttpMqtt.MIN_WEIGHT_THRESHOLD i.millisIdle
        i.loadCellUpdate i.loadCellData
        (HttpMqtt.maintainMqtt i.maintain (HttpMqtt.manageWifiConnection i.wifi s)))))
  rw [httpMqtt_handleKirimData_not_idle _ _ _ _ _ _ (by rw [hp.1]; decide)] at hu ⊢
  refine ⟨hu.1.trans hp.1, hu.2.1.trans (hp.2.trans h2.2.1), ?_⟩
  rw [httpMqtt_updateStatusIndicators_offlineMode, prosesTombol_offlineMode,
    idleWeight_offlineMode, httpMqtt_maintainMqtt_offlineMode]

theorem httpMqtt_loop_selecting_button2 (cred : Credentials) (i : HttpMqtt.Inputs)
    (s : State) (hs : s.currentState = .SELECTING_SUBTYPE) (h0 : i.tombol.tombol0 = false)
    (h1 : i.tombol.tombol1 = true) :
    (HttpMqtt.loop cred i s).currentState = .IDLE ∧
      (HttpMqtt.loop cred i s).sampah = ⟨"Anorganik", "Botol"⟩ ∧
      (HttpMqtt.loop cred i s).offlineMode =
        (HttpMqtt.manageWifiConnection i.wifi s).offlineMode := by
  rw [httpMqtt_loop_selecting_subtype cred i s hs]
  have h := prosesTombol_selecting_button2 i.tombol
    (HttpMqtt.maintainMqtt i.maintain (HttpMqtt.manageWifiConnection i.wifi s))
    (((httpMqtt_manageWifiConnection_frame i.wifi s).andThen
      (httpMqtt_maintainMqtt_frame i.maintain _)).1.trans hs) h0 h1
  exact ⟨h.1, h.2, by rw [prosesTombol_offlineMode, httpMqtt_maintainMqtt_offlineMode]⟩

/-! ## A commit without connectivity -/

theorem firestore_handleKirimData_linkDown (cred : Credentials) (t : Tombol)
    (i : Firestore.SendIn) (now : Nat) (s : State) (hs : s.currentState = .IDLE)
    (hb : t.tombol3 = true) (hw : i.wifiConnected = false) :
    (Firestore.handleKirimData cred t i now s).currentState = .SHOWING_STATUS ∧
      (Firestore.handleKirimData cred t i now s).sampah = s.sampah ∧
      Quiet s (Firestore.handleKirimData cred t i now s) := by
  by_cases hj : s.sampah.jenis = "--"
  · rw [firestore_handleKirimData_noCategory cred t i now s hs hb hj]
    exact ⟨rfl, rfl, quiet_emits_with _ _ _ _ rfl⟩
  · simp [Quiet, Firestore.handleKirimData, Firestore.sendDataToFirebase, hs, hb, hw, hj,
      emit, emits]

theorem firestore_loop_idle_commit_linkDown (cred : Credentials) (i : Firestore.Inputs)
    (s : State) (hs : s.currentState = .IDLE) (h0 : i.tombol.tombol0 = false)
    (h1 : i.tombol.tombol1 = false) (h2 : i.tombol.tombol2 = false)
    (h3 : i.tombol.tombol3 = true) (hw : i.send.wifiConnected = false) :
    (Firestore.loop cred i s).currentState = .SHOWING_STATUS ∧
      (Firestore.loop cred i s).sampah = s.sampah ∧
      Quiet s (Firestore.loop cred i s) := by
  have hf := (firestore_manageWifiConnection_frame i.wifi s).andThen
    (idleWeight_frame Firestore.MIN_WEIGHT_THRESHOLD i.millisIdle i.loadCellUpdate
      i.loadCellData _)
  rw [firestore_loop_idle cred i s hs, prosesTombol_no_button i.tombol _ h0 h1 h2]
  have hk := firestore_handleKirimData_linkDown cred i.tombol i.send i.millisKirim _
    (hf.1.trans hs) h3 hw
  have hu := firestore_updateStatusIndicators_frame i.status
    (Firestore.handleKirimData cred i.tombol i.send i.millisKirim
      (idleWeight Firestore.MIN_WEIGHT_THRESHOLD i.millisIdle i.loadCellUpdate
        i.loadCellData (Firestore.manageWifiConnection i.wifi s)))
  exact ⟨hu.1.trans hk.1, hu.2.1.trans (hk.2.1.trans hf.2.1),
    (hf.2.2.2.followedBy hk.2.2).followedBy hu.2.2.2⟩

theorem httpMqtt_loop_idle_commit_offline (cred : Credentials) (i : HttpMqtt.Inputs)
    (s : State) (hs : s.currentState = .IDLE) (h0 : i.tombol.tombol0 = false)
    (h1 : i.tombol.tombol1 = false) (h2 : i.tombol.tombol2 = false)
    (h3 : i.tombol.tombol3 = true) (ho : s.offlineMode = true)
    (hw : i.wifi.wifiConnected = false) :
    (HttpMqtt.loop cred i s).currentState = .SHOWING_STATUS ∧
      (HttpMqtt.loop cred i s).sampah = s.sampah ∧
      Quiet s (HttpMqtt.loop cred i s) := by
  have hf := ((httpMqtt_manageWifiConnection_frame i.wifi s).andThen
    (httpMqtt_maintainMqtt_frame i.maintain _)).andThen
    (idleWeight_frame HttpMqtt.MIN_WEIGHT_THRESHOLD i.millisIdle i.loadCellUpdate
      i.loadCellData _)
  have hoff : (idleWeight HttpMqtt.MIN_WEIGHT_THRESHOLD i.millisIdle i.loadCellUpdate
      i.loadCellData (HttpMqtt.maintainMqtt i.maintain
        (HttpMqtt.manageWifiConnection i.wifi s))).offlineMode = true := by
    rw [idleWeight_offlineMode, httpMqtt_maintainMqtt_offlineMode]
    exact httpMqtt_manageWifiConnection_offline i.wifi s ho hw
  rw [httpMqtt_loop_idle cred i s hs, prosesTombol_no_button i.tombol _ h0 h1 h2]
  have hk := httpMqtt_handleKirimData_offline cred i.tombol i.laravel i.publish
    i.millisKirim _ (hf.1.trans hs) h3 hoff
  have hu := httpMqtt_updateStatusIndicators_frame i.status
    (HttpMqtt.handleKirimData cred i.tombol i.laravel i.publish i.millisKirim
      (idleWeight HttpMqtt.MIN_WEIGHT_THRESHOLD i.millisIdle i.loadCellUpdate
        i.loadCellData (HttpMqtt.maintainMqtt i.maintain
          (HttpMqtt.manageWifiConnection i.wifi s))))
  rw [hk] at hu ⊢
  refine ⟨hu.1, hu.2.1.trans hf.2.1, (hf.2.2.2.followedBy ?_).followedBy hu.2.2.2⟩
  exact quiet_emits_with _ _ _ _ rfl

/-! ## `readSmoothedWeight` -/

theorem readSmoothedWeight_step (raw : ℚ) (s : State)
    (hi : s.bufferIndex = 0 ∨ s.bufferIndex = 1) :
    (readSmoothedWeight raw s).1 = (clampKg raw + lastSample s) / 2 ∧
      ((readSmoothedWeight raw s).2.bufferIndex = 0 ∨
        (readSmoothedWeight raw s).2.bufferIndex = 1) ∧
      lastSample (readSmoothedWeight raw s).2 = clampKg raw := by
  rcases hi with hi | hi
  · simp [readSmoothedWeight, lastSample, clampKg, hi, Int.tmod]
  · simp [readSmoothedWeight, lastSample, clampKg, hi, Int.tmod, add_comm]

theorem readAll_eq_meanOfLastTwo (raws : List ℚ) (s : State)
    (hi : s.bufferIndex = 0 ∨ s.bufferIndex = 1) :
    (readAll raws s).1 = meanOfLastTwo (lastSample s) raws := by
  induction raws generalizing s with
  | nil => rfl
  | cons raw rest ih =>
    have h := readSmoothedWeight_step raw s hi
    simp only [readAll, meanOfLastTwo]
    rw [ih _ h.2.1, h.1, h.2.2]

theorem meanOfLastTwo_index (raws : List ℚ) (prev : ℚ) (n : Nat) (h : n < raws.length) :
    (meanOfLastTwo prev raws)[n]? =
      some ((clampKg (raws.getD n 0) +
        (if n = 0 then prev else clampKg (raws.getD (n - 1) 0))) / 2) := by
  induction raws generalizing prev n with
  | nil => simp at h
  | cons raw rest ih =>
    cases n with
    | zero => simp [meanOfLastTwo]
    | succ m =>
      have hm : m < rest.length := by simpa using h
      simp only [meanOfLastTwo, List.getElem?_cons_succ, ih (clampKg raw) m hm]
      cases m with
      | zero => simp
      | succ k => simp

/-! ## Calibration constant -/

theorem rat_floor_of_bounds (x : ℚ) (n : Int) (h1 : (n : ℚ) ≤ x) (h2 : x < (n : ℚ) + 1) :
    Rat.floor x = n := by
  have h : ⌊x⌋ = n := Int.floor_eq_iff.mpr ⟨h1, h2⟩
  rw [← h]
  rfl

theorem firestore_CALIBRATION_VALUE_eq : Firestore.CALIBRATION_VALUE = 12 := by
  unfold Firestore.CALIBRATION_VALUE toUnsignedLong
  rw [rat_floor_of_bounds (1201 / 100) 12 (by norm_num) (by norm_num)]
  rfl

theorem httpMqtt_CALIBRATION_VALUE_eq : HttpMqtt.CALIBRATION_VALUE = 12 := by
  unfold HttpMqtt.CALIBRATION_VALUE toUnsignedLong
  rw [rat_floor_of_bounds (12333372 / 1000000) 12 (by norm_num) (by norm_num)]
  rfl

/-! ## The ring buffer of `readSmoothedWeight` -/

theorem readSmoothedWeight_slot0 (raw : ℚ) (s : State) (hi : s.bufferIndex = 0) :
    (readSmoothedWeight raw s).2.bufferIndex = 1 ∧
      (readSmoothedWeight raw s).2.weightBuffer = (clampKg raw, s.weightBuffer.2) ∧
      (readSmoothedWeight raw s).2.outOfBounds = s.outOfBounds := by
  simp [readSmoothedWeight, clampKg, hi, Int.tmod]

theorem readSmoothedWeight_slot1 (raw : ℚ) (s : State) (hi : s.bufferIndex = 1) :
    (readSmoothedWeight raw s).2.bufferIndex = 0 ∧
      (readSmoothedWeight raw s).2.weightBuffer = (s.weightBuffer.1, clampKg raw) ∧
      (readSmoothedWeight raw s).2.outOfBounds = s.outOfBounds := by
  simp [readSmoothedWeight, clampKg, hi, Int.tmod]

theorem readAll_append_state (a b : List ℚ) (s : State) :
    (readAll (a ++ b) s).2 = (readAll b (readAll a s).2).2 := by
  induction a generalizing s with
  | nil => rfl
  | cons raw rest ih =>
    show (readAll (rest ++ b) (readSmoothedWeight raw s).2).2 = _
    rw [ih]
    rfl

theorem clampedSample_append (raws : List ℚ) (raw : ℚ) (i : Nat) (h : i ≤ raws.length) :
    clampedSample (raws ++ [raw]) i = clampedSample raws i := by
  cases i with
  | zero => rfl
  | succ k =>
    have hk : k < raws.length := h
    simp [clampedSample, List.getD_eq_getElem?_getD, List.getElem?_append_left hk]

theorem clampedSample_append_last (raws : List ℚ) (raw : ℚ) :
    clampedSample (raws ++ [raw]) (raws.length + 1) = clampKg raw := by
  simp [clampedSample, List.getD_eq_getElem?_getD]

/-- The state of the ring buffer after the calls for `raws`, from index 0 and an
empty buffer. -/
theorem readAll_ring (raws : List ℚ) (s : State) (hi : s.bufferIndex = 0)
    (hb : s.weightBuffer = (0, 0)) :
    (readAll raws s).2.bufferIndex = ((raws.length % 2 : Nat) : Int) ∧
      (readAll raws s).2.outOfBounds = s.outOfBounds ∧
      (readAll raws s).2.weightBuffer =
        (if raws.length % 2 = 1 then
          (clampedSample raws raws.length, clampedSample raws (raws.length - 1))
        else (clampedSample raws (raws.length - 1), clampedSample raws raws.length)) := by
  induction raws using List.reverseRecOn with
  | nil => simp [readAll, hi, hb, clampedSample]
  | append_singleton l raw ih =>
    obtain ⟨h1, h2, h3⟩ := ih
    rw [readAll_append_state]
    simp only [readAll, List.length_append, List.length_singleton, Nat.add_sub_cancel]
    rw [clampedSample_append_last, clampedSample_append l raw l.length (Nat.le_refl _)]
    rcases Nat.mod_two_eq_zero_or_one l.length with hm | hm
    · rw [hm] at h1
      have hs := readSmoothedWeight_slot0 raw (readAll l s).2 (by simpa using h1)
      have hm' : (l.length + 1) % 2 = 1 := by omega
      rw [hs.1, hs.2.1, hs.2.2, h2, h3, hm']
      simp [hm]
    · rw [hm] at h1
      have hs := readSmoothedWeight_slot1 raw (readAll l s).2 (by simpa using h1)
      have hm' : (l.length + 1) % 2 = 0 := by omega
      rw [hs.1, hs.2.1, hs.2.2, h2, h3, hm']
      simp [hm]

/-! ## Iterations that do not start in `IDLE` -/

theorem quiet_with_currentState {s t : State} (h : Quiet s t) (st : AppState) :
    Quiet s { t with currentState := st } := h

theorem firestore_loop_selecting_no_button (cred : Credentials) (i : Firestore.Inputs)
    (s : State) (hs : s.currentState = .SELECTING_SUBTYPE) (h0 : i.tombol.tombol0 = false)
    (h1 : i.tombol.tombol1 = false) (h2 : i.tombol.tombol2 = false) :
    Frame s (Firestore.loop cred i s) := by
  rw [firestore_loop_selecting_subtype cred i s hs, prosesTombol_no_button _ _ h0 h1 h2]
  exact firestore_manageWifiConnection_frame i.wifi s

theorem httpMqtt_loop_selecting_no_button (cred : Credentials) (i : HttpMqtt.Inputs)
    (s : State) (hs : s.currentState = .SELECTING_SUBTYPE) (h0 : i.tombol.tombol0 = false)
    (h1 : i.tombol.tombol1 = false) (h2 : i.tombol.tombol2 = false) :
    Frame s (HttpMqtt.loop cred i s) := by
  rw [httpMqtt_loop_selecting_subtype cred i s hs, prosesTombol_no_button _ _ h0 h1 h2]
  exact (httpMqtt_manageWifiConnection_frame i.wifi s).andThen (httpMqtt_maintainMqtt_frame _ _)

theorem firestore_loop_sending_frame (cred : Credentials) (i : Firestore.Inputs)
    (s : State) (hs : s.currentState = .SENDING_DATA) : Frame s (Firestore.loop cred i s) := by
  rw [firestore_loop_sending_data cred i s hs]
  exact firestore_manageWifiConnection_frame i.wifi s

theorem httpMqtt_loop_sending_frame (cred : Credentials) (i : HttpMqtt.Inputs)
    (s : State) (hs : s.currentState = .SENDING_DATA) : Frame s (HttpMqtt.loop cred i s) := by
  rw [httpMqtt_loop_sending_data cred i s hs]
  exact (httpMqtt_manageWifiConnection_frame i.wifi s).andThen (httpMqtt_maintainMqtt_frame _ _)

/-- An iteration of `main.cpp` that starts in `SHOWING_STATUS` keeps the deposit and
the time stamp and sends nothing, whether or not it leaves the state. -/
theorem firestore_loop_showing_rest (cred : Credentials) (i : Firestore.Inputs) (s : State)
    (hs : s.currentState = .SHOWING_STATUS) :
    (Firestore.loop cred i s).sampah = s.sampah ∧
      (Firestore.loop cred i s).statusMsgTimestamp = s.statusMsgTimestamp ∧
      Quiet s (Firestore.loop cred i s) := by
  have hm := firestore_manageWifiConnection_frame i.wifi s
  have hr := hm.andThen (restoreDefaultDisplay_frame _)
  rw [firestore_loop_showing_status cred i s hs]
  split
  · exact ⟨hr.2.1, hr.2.2.1, hr.2.2.2⟩
  · exact ⟨hm.2.1, hm.2.2.1, hm.2.2.2⟩

/-- An iteration of `uploadmysql.cpp` that starts in `SHOWING_STATUS` keeps the deposit
and the time stamp and sends nothing, whether or not it leaves the state. -/
theorem httpMqtt_loop_showing_rest (cred : Credentials) (i : HttpMqtt.Inputs) (s : State)
    (hs : s.currentState = .SHOWING_STATUS) :
    (HttpMqtt.loop cred i s).sampah = s.sampah ∧
      (HttpMqtt.loop cred i s).statusMsgTimestamp = s.statusMsgTimestamp ∧
      Quiet s (HttpMqtt.loop cred i s) := by
  have hm := (httpMqtt_manageWifiConnection_frame i.wifi s).andThen
    (httpMqtt_maintainMqtt_frame i.maintain _)
  have hr := hm.andThen (restoreDefaultDisplay_frame _)
  rw [httpMqtt_loop_showing_status cred i s hs]
  split
  · exact ⟨hr.2.1, hr.2.2.1, hr.2.2.2⟩
  · exact ⟨hm.2.1, hm.2.2.1, hm.2.2.2⟩

theorem firestore_loop_nonIdle_quiet (cred : Credentials) (i : Firestore.Inputs) (s : State)
    (hs : s.currentState ≠ .IDLE) : Quiet s (Firestore.loop cred i s) := by
  rcases h : s.currentState with _ | _ | _ | _
  · exact absurd h hs
  · rw [firestore_loop_selecting_subtype cred i s h]
    exact (firestore_manageWifiConnection_frame i.wifi s).2.2.2.followedBy
      (prosesTombol_quiet _ _)
  · exact (firestore_loop_sending_frame cred i s h).2.2.2
  · exact (firestore_loop_showing_rest cred i s h).2.2

theorem httpMqtt_loop_nonIdle_quiet (cred : Credentials) (i : HttpMqtt.Inputs) (s : State)
    (hs : s.currentState ≠ .IDLE) : Quiet s (HttpMqtt.loop cred i s) := by
  rcases h : s.currentState with _ | _ | _ | _
  · exact absurd h hs
  · rw [httpMqtt_loop_selecting_subtype cred i s h]
    exact ((httpMqtt_manageWifiConnection_frame i.wifi s).andThen
      (httpMqtt_maintainMqtt_frame _ _)).2.2.2.followedBy (prosesTombol_quiet _ _)
  · exact (httpMqtt_loop_sending_frame cred i s h).2.2.2
  · exact (httpMqtt_loop_showing_rest cred i s h).2.2

/-- The effects of one iteration of `main.cpp` all satisfy `p` when the events that
are no sends do and the effects of the commit handling do. -/
theorem firestore_loop_grows (p : Event → Bool) (hp : ∀ e, e.isSend = false → p e = true)
    (cred : Credentials) (i : Firestore.Inputs) (s : State)
    (hk : Grows p
      (prosesTombol i.tombol (idleWeight Firestore.MIN_WEIGHT_THRESHOLD i.millisIdle
        i.loadCellUpdate i.loadCellData (Firestore.manageWifiConnection i.wifi s)))
      (Firestore.handleKirimData cred i.tombol i.send i.millisKirim
        (prosesTombol i.tombol (idleWeight Firestore.MIN_WEIGHT_THRESHOLD i.millisIdle
          i.loadCellUpdate i.loadCellData (Firestore.manageWifiConnection i.wifi s))))) :
    Grows p s (Firestore.loop cred i s) := by
  by_cases hs : s.currentState = .IDLE
  · rw [firestore_loop_idle cred i s hs]
    have h1 := ((firestore_manageWifiConnection_frame i.wifi s).andThen
      (idleWeight_frame Firestore.MIN_WEIGHT_THRESHOLD i.millisIdle i.loadCellUpdate
        i.loadCellData _)).2.2.2.followedBy (prosesTombol_quiet i.tombol _)
    exact ((h1.grows p hp).andAlso hk).andAlso
      ((firestore_updateStatusIndicators_frame i.status _).2.2.2.grows p hp)
  · exact (firestore_loop_nonIdle_quiet cred i s hs).grows p hp

/-- The effects of one iteration of `uploadmysql.cpp` all satisfy `p` when the events
that are no sends do and the effects of the commit handling do. -/
theorem httpMqtt_loop_grows (p : Event → Bool) (hp : ∀ e, e.isSend = false → p e = true)
    (cred : Credentials) (i : HttpMqtt.Inputs) (s : State)
    (hk : Grows p
      (prosesTombol i.tombol (idleWeight HttpMqtt.MIN_WEIGHT_THRESHOLD i.millisIdle
        i.loadCellUpdate i.loadCellData
        (HttpMqtt.maintainMqtt i.maintain (HttpMqtt.manageWifiConnection i.wifi s))))
      (HttpMqtt.handleKirimData cred i.tombol i.laravel i.publish i.millisKirim
        (prosesTombol i.tombol (idleWeight HttpMqtt.MIN_WEIGHT_THRESHOLD i.millisIdle
          i.loadCellUpdate i.loadCellData
          (HttpMqtt.maintainMqtt i.maintain (HttpMqtt.manageWifiConnection i.wifi s)))))) :
    Grows p s (HttpMqtt.loop cred i s) := by
  by_cases hs : s.currentState = .IDLE
  · rw [httpMqtt_loop_idle cred i s hs]
    have h1 := (((httpMqtt_manageWifiConnection_frame i.wifi s).andThen
      (httpMqtt_maintainMqtt_frame i.maintain _)).andThen
      (idleWeight_frame HttpMqtt.MIN_WEIGHT_THRESHOLD i.millisIdle i.loadCellUpdate
        i.loadCellData _)).2.2.2.followedBy (prosesTombol_quiet i.tombol _)
    exact ((h1.grows p hp).andAlso hk).andAlso
      ((httpMqtt_updateStatusIndicators_frame i.status _).2.2.2.grows p hp)
  · exact (httpMqtt_loop_nonIdle_quiet cred i s hs).grows p hp

theorem firestore_handleKirimData_stampedBy (cred : Credentials) (t : Tombol)
    (i : Firestore.SendIn) (now : Nat) (s : State) :
    Grows (Event.stampedBy [i]) s (Firestore.handleKirimData cred t i now s) := by
  refine grows_of_newEvents (firestore_handleKirimData_trace cred t i now s) ?_
  rw [allEvents_iff]
  intro e he
  cases e
  case createDocument p c w j f ts =>
    have hr := (stamps_iff i ts).mpr (firestore_handleKirimData_record cred t i now s p c w j f ts he)
    simp [Event.stampedBy, hr]
  all_goals rfl

theorem firestore_loop_stampedBy (cred : Credentials) (i : Firestore.Inputs) (s : State) :
    Grows (Event.stampedBy [i.send]) s (Firestore.loop cred i s) :=
  firestore_loop_grows (Event.stampedBy [i.send]) (stampedBy_of_not_send [i.send]) cred i s
    (firestore_handleKirimData_stampedBy _ _ _ _ _)

theorem firestore_run_stampedBy (cred : Credentials) (inputs : List Firestore.Inputs)
    (s : State) :
    Grows (Event.stampedBy (inputs.map Firestore.Inputs.send)) s
      (Firestore.run cred inputs s) := by
  induction inputs generalizing s with
  | nil => exact Grows.still _ s
  | cons i rest ih =>
    exact ((firestore_loop_stampedBy cred i s).wider (stampedBy_cons_left i.send _)).andAlso
      ((ih (Firestore.loop cred i s)).wider (stampedBy_cons_right i.send _))

theorem firestore_run_record (cred : Credentials) (inputs : List Firestore.Inputs)
    (s : State) (p c : String) (w : ℚ) (j f ts : String)
    (h : Event.createDocument p c w j f ts ∈ newEvents s (Firestore.run cred inputs s)) :
    ∃ i ∈ inputs, ∃ tm, i.send.localTime = some tm ∧
      ts = strftime 24 "%Y-%m-%dT%H:%M:%SZ" tm i.send.strftimeOverflow ∧ ts.length ≠ 0 := by
  have hg := (firestore_run_stampedBy cred inputs s).all_newEvents _ h
  simp only [Event.stampedBy, List.any_eq_true, List.mem_map] at hg
  obtain ⟨x, ⟨i, hi, rfl⟩, hx⟩ := hg
  exact ⟨i, hi, (stamps_iff i.send ts).mp hx⟩

/-- An iteration of `main.cpp` that does not start in `IDLE`, with none of the buttons
1-3 pressed. -/
theorem firestore_loop_nonIdle_no_button (cred : Credentials) (i : Firestore.Inputs)
    (s : State) (hs : s.currentState ≠ .IDLE) (h0 : i.tombol.tombol0 = false)
    (h1 : i.tombol.tombol1 = false) (h2 : i.tombol.tombol2 = false) :
    (Firestore.loop cred i s).sampah = s.sampah ∧
      Quiet s (Firestore.loop cred i s) ∧
      (Firestore.loop cred i s).currentState =
        (if s.currentState = .SHOWING_STATUS ∧
            u32sub i.millisShowing s.statusMsgTimestamp > Config.STATUS_MSG_DURATION
          then .IDLE else s.currentState) := by
  rcases h : s.currentState with _ | _ | _ | _
  · exact absurd h hs
  · have hf := firestore_loop_selecting_no_button cred i s h h0 h1 h2
    exact ⟨hf.2.1, hf.2.2.2, by simp [hf.1, h]⟩
  · have hf := firestore_loop_sending_frame cred i s h
    exact ⟨hf.2.1, hf.2.2.2, by simp [hf.1, h]⟩
  · have hr := firestore_loop_showing_rest cred i s h
    refine ⟨hr.1, hr.2.2, ?_⟩
    by_cases he : u32sub i.millisShowing s.statusMsgTimestamp > Config.STATUS_MSG_DURATION
    · simp [firestore_loop_showing_exit cred i s h he, he]
    · simp [(firestore_loop_showing_hold cred i s h he).1, h, he]

/-- An iteration of `uploadmysql.cpp` that does not start in `IDLE`, with none of the
buttons 1-3 pressed. -/
theorem httpMqtt_loop_nonIdle_no_button (cred : Credentials) (i : HttpMqtt.Inputs)
    (s : State) (hs : s.currentState ≠ .IDLE) (h0 : i.tombol.tombol0 = false)
    (h1 : i.tombol.tombol1 = false) (h2 : i.tombol.tombol2 = false) :
    (HttpMqtt.loop cred i s).sampah = s.sampah ∧
      Quiet s (HttpMqtt.loop cred i s) ∧
      (HttpMqtt.loop cred i s).currentState =
        (if s.currentState = .SHOWING_STATUS ∧
            u32sub i.millisShowing s.statusMsgTimestamp > Config.STATUS_MSG_DURATION
          then .IDLE else s.currentState) := by
  rcases h : s.currentState with _ | _ | _ | _
  · exact absurd h hs
  · have hf := httpMqtt_loop_selecting_no_button cred i s h h0 h1 h2
    exact ⟨hf.2.1, hf.2.2.2, by simp [hf.1, h]⟩
  · have hf := httpMqtt_loop_sending_frame cred i s h
    exact ⟨hf.2.1, hf.2.2.2, by simp [hf.1, h]⟩
  · have hr := httpMqtt_loop_showing_rest cred i s h
    refine ⟨hr.1, hr.2.2, ?_⟩
    by_cases he : u32sub i.millisShowing s.statusMsgTimestamp > Config.STATUS_MSG_DURATION
    · simp [httpMqtt_loop_showing_exit cred i s h he, he]
    · simp [(httpMqtt_loop_showing_hold cred i s h he).1, h, he]

theorem firestore_loop_leaves_selecting (cred : Credentials) (i : Firestore.Inputs)
    (s : State) (hs : s.currentState = .SELECTING_SUBTYPE)
    (h : (Firestore.loop cred i s).currentState ≠ .SELECTING_SUBTYPE) :
    i.tombol.tombol0 = true ∨ i.tombol.tombol1 = true ∨ i.tombol.tombol2 = true := by
  by_contra hn
  simp only [not_or, Bool.not_eq_true] at hn
  exact h ((firestore_loop_selecting_no_button cred i s hs hn.1 hn.2.1 hn.2.2).1.trans hs)

theorem httpMqtt_loop_leaves_selecting (cred : Credentials) (i : HttpMqtt.Inputs)
    (s : State) (hs : s.currentState = .SELECTING_SUBTYPE)
    (h : (HttpMqtt.loop cred i s).currentState ≠ .SELECTING_SUBTYPE) :
    i.tombol.tombol0 = true ∨ i.tombol.tombol1 = true ∨ i.tombol.tombol2 = true := by
  by_contra hn
  simp only [not_or, Bool.not_eq_true] at hn
  exact h ((httpMqtt_loop_selecting_no_button cred i s hs hn.1 hn.2.1 hn.2.2).1.trans hs)

/-! ## The flag `offlineMode` of `uploadmysql.cpp` -/

theorem restoreDefaultDisplay_offlineMode (s : State) :
    (restoreDefaultDisplay s).offlineMode = s.offlineMode := by
  simp [restoreDefaultDisplay, emits]

theorem httpMqtt_handleKirimData_offlineMode (cred : Credentials) (t : Tombol)
    (l : HttpMqtt.LaravelIn) (p : HttpMqtt.PublishIn) (now : Nat) (s : State) :
    (HttpMqtt.handleKirimData cred t l p now s).offlineMode = s.offlineMode := by
  rcases l with ⟨w, b, code, idx⟩
  cases w <;> cases b <;>
    simp [HttpMqtt.handleKirimData, HttpMqtt.sendToLaravel, HttpMqtt.sendToMQTT,
      HttpMqtt.connectMQTT, emit, emits, fst_ite, snd_ite, setJenis, setSubJenis]

/-- After one iteration of `loop` the flag is as `manageWifiConnection` left it. -/
theorem httpMqtt_loop_offlineMode (cred : Credentials) (i : HttpMqtt.Inputs) (s : State) :
    (HttpMqtt.loop cred i s).offlineMode =
      (HttpMqtt.manageWifiConnection i.wifi s).offlineMode := by
  simp only [HttpMqtt.loop]
  split
  · rw [httpMqtt_updateStatusIndicators_offlineMode, httpMqtt_handleKirimData_offlineMode,
      prosesTombol_offlineMode, idleWeight_offlineMode, httpMqtt_maintainMqtt_offlineMode]
  · rw [prosesTombol_offlineMode, httpMqtt_maintainMqtt_offlineMode]
  · rw [httpMqtt_maintainMqtt_offlineMode]
  · split
    · exact (restoreDefaultDisplay_offlineMode _).trans (httpMqtt_maintainMqtt_offlineMode _ _)
    · rw [httpMqtt_maintainMqtt_offlineMode]

/-- The flag after `manageWifiConnection`, in terms of what the function read. -/
theorem httpMqtt_manageWifiConnection_offlineMode (i : HttpMqtt.WifiIn) (s : State) :
    (HttpMqtt.manageWifiConnection i s).offlineMode =
      if u32sub i.millisCheck s.lastWifiCheckTime ≥ Config.WIFI_CHECK_INTERVAL then
        (if i.wifiConnected = false then true
          else if s.offlineMode = true then !i.pingOk else false)
      else s.offlineMode := by
  rcases i with ⟨m, w, pg, lt, st⟩
  cases w <;> cases pg <;> cases ho : s.offlineMode <;>
    simp [HttpMqtt.manageWifiConnection, HttpMqtt.checkNetworkHealth, HttpMqtt.syncTime, ho,
      emit, emits]

/-- The effects of a `manageWifiConnection` that starts in offline mode with the
interval elapsed and the link up. -/
theorem httpMqtt_manageWifiConnection_recheck (i : HttpMqtt.WifiIn) (s : State)
    (ho : s.offlineMode = true)
    (hi : u32sub i.millisCheck s.lastWifiCheckTime ≥ Config.WIFI_CHECK_INTERVAL)
    (hw : i.wifiConnected = true) :
    newEvents s (HttpMqtt.manageWifiConnection i s) =
      [.call .checkNetworkHealth, .ping, .ret .checkNetworkHealth i.pingOk] ++
        (if i.pingOk = true then
          [.call .syncTime, .configTime (7 * 3600), .ret .syncTime i.getLocalTimeOk]
        else []) := by
  rcases i with ⟨m, w, pg, lt, st⟩
  cases hw
  cases pg <;>
    simp [newEvents, HttpMqtt.manageWifiConnection, HttpMqtt.checkNetworkHealth,
      HttpMqtt.syncTime, ho, emit, emits] <;> simp_all

theorem firestore_loop_idle_button2_discard (cred : Credentials) (i : Firestore.Inputs)
    (s : State) (hs : s.currentState = .IDLE) (h0 : i.tombol.tombol0 = false)
    (h1 : i.tombol.tombol1 = true) :
    Firestore.loop cred i s = Firestore.loop cred (Firestore.releaseCommit i) s ∧
      Quiet s (Firestore.loop cred i s) ∧
      (Firestore.loop cred i s).statusMsgTimestamp = s.statusMsgTimestamp := by
  have h2 := (firestore_manageWifiConnection_frame i.wifi s).andThen
    (idleWeight_frame Firestore.MIN_WEIGHT_THRESHOLD i.millisIdle i.loadCellUpdate
      i.loadCellData _)
  have hp := prosesTombol_idle_button2 i.tombol _ (h2.1.trans hs) h0 h1
  have hne : (prosesTombol i.tombol (idleWeight Firestore.MIN_WEIGHT_THRESHOLD i.millisIdle
      i.loadCellUpdate i.loadCellData
      (Firestore.manageWifiConnection i.wifi s))).currentState ≠ .IDLE := by
    rw [hp.1]; decide
  have hu := firestore_updateStatusIndicators_frame i.status
    (prosesTombol i.tombol (idleWeight Firestore.MIN_WEIGHT_THRESHOLD i.millisIdle
      i.loadCellUpdate i.loadCellData (Firestore.manageWifiConnection i.wifi s)))
  have e1 := firestore_loop_idle cred i s hs
  have e2 := firestore_loop_idle cred (Firestore.releaseCommit i) s hs
  rw [firestore_handleKirimData_not_idle _ _ _ _ _ hne] at e1
  have e3 : Firestore.loop cred (Firestore.releaseCommit i) s =
      Firestore.updateStatusIndicators i.status
        (prosesTombol i.tombol (idleWeight Firestore.MIN_WEIGHT_THRESHOLD i.millisIdle
          i.loadCellUpdate i.loadCellData (Firestore.manageWifiConnection i.wifi s))) := by
    rw [e2]
    exact congrArg _ (firestore_handleKirimData_not_idle _ _ _ _ _ hne)
  rw [e3, e1]
  exact ⟨rfl, (h2.2.2.2.followedBy (prosesTombol_quiet _ _)).followedBy hu.2.2.2,
    hu.2.2.1.trans ((prosesTombol_statusMsgTimestamp _ _).trans h2.2.2.1)⟩

theorem httpMqtt_loop_idle_button2_discard (cred : Credentials) (i : HttpMqtt.Inputs)
    (s : State) (hs : s.currentState = .IDLE) (h0 : i.tombol.tombol0 = false)
    (h1 : i.tombol.tombol1 = true) :
    HttpMqtt.loop cred i s = HttpMqtt.loop cred (HttpMqtt.releaseCommit i) s ∧
      Quiet s (HttpMqtt.loop cred i s) ∧
      (HttpMqtt.loop cred i s).statusMsgTimestamp = s.statusMsgTimestamp := by
  have h2 := ((httpMqtt_manageWifiConnection_frame i.wifi s).andThen
    (httpMqtt_maintainMqtt_frame i.maintain _)).andThen
    (idleWeight_frame HttpMqtt.MIN_WEIGHT_THRESHOLD i.millisIdle i.loadCellUpdate
      i.loadCellData _)
  have hp := prosesTombol_idle_button2 i.tombol _ (h2.1.trans hs) h0 h1
  have hne : (prosesTombol i.tombol (idleWeight HttpMqtt.MIN_WEIGHT_THRESHOLD i.millisIdle
      i.loadCellUpdate i.loadCellData (HttpMqtt.maintainMqtt i.maintain
      (HttpMqtt.manageWifiConnection i.wifi s)))).currentState ≠ .IDLE := by
    rw [hp.1]; decide
  have hu := httpMqtt_updateStatusIndicators_frame i.status
    (prosesTombol i.tombol (idleWeight HttpMqtt.MIN_WEIGHT_THRESHOLD i.millisIdle
      i.loadCellUpdate i.loadCellData (HttpMqtt.maintainMqtt i.maintain
      (HttpMqtt.manageWifiConnection i.wifi s))))
  have e1 := httpMqtt_loop_idle cred i s hs
  have e2 := httpMqtt_loop_idle cred (HttpMqtt.releaseCommit i) s hs
  rw [httpMqtt_handleKirimData_not_idle _ _ _ _ _ _ hne] at e1
  have e3 : HttpMqtt.loop cred (HttpMqtt.releaseCommit i) s =
      HttpMqtt.updateStatusIndicators i.status
        (prosesTombol i.tombol (idleWeight HttpMqtt.MIN_WEIGHT_THRESHOLD i.millisIdle
          i.loadCellUpdate i.loadCellData (HttpMqtt.maintainMqtt i.maintain
          (HttpMqtt.manageWifiConnection i.wifi s)))) := by
    rw [e2]
    exact congrArg _ (httpMqtt_handleKirimData_not_idle _ _ _ _ _ _ hne)
  rw [e3, e1]
  exact ⟨rfl, (h2.2.2.2.followedBy (prosesTombol_quiet _ _)).followedBy hu.2.2.2,
    hu.2.2.1.trans ((prosesTombol_statusMsgTimestamp _ _).trans h2.2.2.1)⟩

/-- An iteration of `main.cpp` that starts in `IDLE` with buttons 1 and 4 pressed. -/
theorem firestore_loop_idle_button1_commit (cred : Credentials) (i : Firestore.Inputs)
    (s : State) (hs : s.currentState = .IDLE) (h0 : i.tombol.tombol0 = true)
    (h3 : i.tombol.tombol3 = true) :
    (prosesTombol i.tombol (idleWeight Firestore.MIN_WEIGHT_THRESHOLD i.millisIdle
        i.loadCellUpdate i.loadCellData
        (Firestore.manageWifiConnection i.wifi s))).currentState = .IDLE ∧
      (prosesTombol i.tombol (idleWeight Firestore.MIN_WEIGHT_THRESHOLD i.millisIdle
        i.loadCellUpdate i.loadCellData
        (Firestore.manageWifiConnection i.wifi s))).sampah = ⟨"Organik", "--"⟩ ∧
      Grows (Event.hasLabel "Organik") s (Firestore.loop cred i s) ∧
      (Firestore.loop cred i s).currentState = .SHOWING_STATUS ∧
      ((Firestore.loop cred i s).sampah = ⟨"--", "--"⟩ ∨
        (Firestore.loop cred i s).sampah = ⟨"Organik", "--"⟩) := by
  have h2 := (firestore_manageWifiConnection_frame i.wifi s).andThen
    (idleWeight_frame Firestore.MIN_WEIGHT_THRESHOLD i.millisIdle i.loadCellUpdate
      i.loadCellData _)
  have hp := prosesTombol_idle_button1 i.tombol _ (h2.1.trans hs) h0
  have hg := firestore_loop_grows (Event.hasLabel "Organik") (hasLabel_of_not_send "Organik")
    cred i s (firestore_handleKirimData_organik cred i.tombol i.send i.millisKirim _ hp.2.1)
  have hd := firestore_handleKirimData_delivery cred i.tombol i.send i.millisKirim _ hp.1 h3
    (by rw [hp.2.1]; decide)
  have hu := firestore_updateStatusIndicators_frame i.status
    (Firestore.handleKirimData cred i.tombol i.send i.millisKirim
      (prosesTombol i.tombol (idleWeight Firestore.MIN_WEIGHT_THRESHOLD i.millisIdle
        i.loadCellUpdate i.loadCellData (Firestore.manageWifiConnection i.wifi s))))
  refine ⟨hp.1, hp.2.1, hg, ?_, ?_⟩
  · rw [firestore_loop_idle cred i s hs]
    exact hu.1.trans hd.1
  · rw [firestore_loop_idle cred i s hs, hu.2.1, hd.2.2.1, hp.2.1]
    split
    · exact Or.inl rfl
    · exact Or.inr rfl

/-- An iteration of `uploadmysql.cpp` that starts in `IDLE` with buttons 1 and 4
pressed. -/
theorem httpMqtt_loop_idle_button1_commit (cred : Credentials) (i : HttpMqtt.Inputs)
    (s : State) (hs : s.currentState = .IDLE) (h0 : i.tombol.tombol0 = true)
    (h3 : i.tombol.tombol3 = true) :
    (prosesTombol i.tombol (idleWeight HttpMqtt.MIN_WEIGHT_THRESHOLD i.millisIdle
        i.loadCellUpdate i.loadCellData (HttpMqtt.maintainMqtt i.maintain
        (HttpMqtt.manageWifiConnection i.wifi s)))).currentState = .IDLE ∧
      (prosesTombol i.tombol (idleWeight HttpMqtt.MIN_WEIGHT_THRESHOLD i.millisIdle
        i.loadCellUpdate i.loadCellData (HttpMqtt.maintainMqtt i.maintain
        (HttpMqtt.manageWifiConnection i.wifi s)))).sampah = ⟨"Organik", "--"⟩ ∧
      Grows (Event.hasLabel "Organik") s (HttpMqtt.loop cred i s) ∧
      (HttpMqtt.loop cred i s).currentState = .SHOWING_STATUS ∧
      ((HttpMqtt.loop cred i s).sampah = ⟨"--", "--"⟩ ∨
        (HttpMqtt.loop cred i s).sampah = ⟨"Organik", "--"⟩) := by
  have h2 := ((httpMqtt_manageWifiConnection_frame i.wifi s).andThen
    (httpMqtt_maintainMqtt_frame i.maintain _)).andThen
    (idleWeight_frame HttpMqtt.MIN_WEIGHT_THRESHOLD i.millisIdle i.loadCellUpdate
      i.loadCellData _)
  have hp := prosesTombol_idle_button1 i.tombol _ (h2.1.trans hs) h0
  have hg := httpMqtt_loop_grows (Event.hasLabel "Organik") (hasLabel_of_not_send "Organik")
    cred i s (httpMqtt_handleKirimData_organik cred i.tombol i.laravel i.publish
      i.millisKirim _ hp.2.1)
  have hu := httpMqtt_updateStatusIndicators_frame i.status
    (HttpMqtt.handleKirimData cred i.tombol i.laravel i.publish i.millisKirim
      (prosesTombol i.tombol (idleWeight HttpMqtt.MIN_WEIGHT_THRESHOLD i.millisIdle
        i.loadCellUpdate i.loadCellData (HttpMqtt.maintainMqtt i.maintain
        (HttpMqtt.manageWifiConnection i.wifi s)))))
  refine ⟨hp.1, hp.2.1, hg, ?_, ?_⟩
  · rw [httpMqtt_loop_idle cred i s hs, hu.1, httpMqtt_handleKirimData_currentState,
      if_pos ⟨hp.1, h3⟩]
  · rw [httpMqtt_loop_idle cred i s hs, hu.2.1]
    cases ho : (prosesTombol i.tombol (idleWeight HttpMqtt.MIN_WEIGHT_THRESHOLD i.millisIdle
        i.loadCellUpdate i.loadCellData (HttpMqtt.maintainMqtt i.maintain
        (HttpMqtt.manageWifiConnection i.wifi s)))).offlineMode
    · have hd := httpMqtt_handleKirimData_delivery cred i.tombol i.laravel i.publish
        i.millisKirim _ hp.1 h3 ho (by rw [hp.2.1]; decide)
      rw [hd.2.2.1, hp.2.1]
      split
      · exact Or.inl rfl
      · exact Or.inr rfl
    · rw [httpMqtt_handleKirimData_offline cred i.tombol i.laravel i.publish
        i.millisKirim _ hp.1 h3 ho]
      exact Or.inr hp.2.1

/-! ## The claims -/

/-- Claim C1: the deposit invariant.  In every state reached from an initial state
(state `IDLE`, deposit `"--"`/`"--"`) by any number of `loop` iterations of either
file, with arbitrary button presses, sink results and connectivity inputs, a
`subJenis` other than `"--"` comes with `jenis = "Anorganik"`; and `prosesTombol`
and the `handleKirimData` of both files each preserve this invariant. -/
theorem deposit_invariant (cred : Credentials) (s0 : State) (fs : List Firestore.Inputs)
    (hs : List HttpMqtt.Inputs) (h0 : Initial s0) :
    DepositInv (Firestore.run cred fs s0) ∧ DepositInv (HttpMqtt.run cred hs s0) ∧
      (∀ (t : Tombol) (s : State), DepositInv s → DepositInv (prosesTombol t s)) ∧
      (∀ (t : Tombol) (i : Firestore.SendIn) (now : Nat) (s : State),
        DepositInv s → DepositInv (Firestore.handleKirimData cred t i now s)) ∧
      (∀ (t : Tombol) (l : HttpMqtt.LaravelIn) (p : HttpMqtt.PublishIn) (now : Nat)
        (s : State), DepositInv s → DepositInv (HttpMqtt.handleKirimData cred t l p now s)) :=
  ⟨firestore_run_depositInv cred fs s0 h0.inv,
    httpMqtt_run_depositInv cred hs s0 h0.inv,
    prosesTombol_depositInv,
    fun _ _ _ _ h => depositInv_of_sampah (firestore_handleKirimData_sampah _ _ _ _ _) h,
    fun _ _ _ _ _ h => depositInv_of_sampah (httpMqtt_handleKirimData_sampah _ _ _ _ _ _) h⟩

/-- Witness for C1: from the boot state, button 2 twice, in both files. -/
theorem deposit_invariant_witness :
    Initial bootState ∧
      DepositInv (Firestore.run sampleCred
        [Firestore.sampleInputs ⟨false, true, false, false⟩ 10,
          Firestore.sampleInputs ⟨false, true, false, false⟩ 20] bootState) ∧
      DepositInv (HttpMqtt.run sampleCred
        [HttpMqtt.sampleInputs ⟨false, true, false, false⟩ 10,
          HttpMqtt.sampleInputs ⟨false, true, false, false⟩ 20] bootState) :=
  have h := deposit_invariant sampleCred bootState
    [Firestore.sampleInputs ⟨false, true, false, false⟩ 10,
      Firestore.sampleInputs ⟨false, true, false, false⟩ 20]
    [HttpMqtt.sampleInputs ⟨false, true, false, false⟩ 10,
      HttpMqtt.sampleInputs ⟨false, true, false, false⟩ 20] (by decide)
  ⟨by decide, h.1, h.2.1⟩

/-- Claim C2: `SELECTING_SUBTYPE` is entered only from `IDLE` by button 2.  For
every iteration of `loop` (both files) and every combination of inputs: if the
state is `SELECTING_SUBTYPE` afterwards and was not before, then the state before
was `IDLE` and button 2 (`tombol[1]`) was pressed with button 1 (`tombol[0]`) not
pressed; and no iteration starting in `SENDING_DATA` or `SHOWING_STATUS` ends in
`SELECTING_SUBTYPE`. -/
theorem selecting_entered_only_from_idle (cred : Credentials) (fi : Firestore.Inputs)
    (hi : HttpMqtt.Inputs) (s : State) :
    ((Firestore.loop cred fi s).currentState = .SELECTING_SUBTYPE →
        s.currentState ≠ .SELECTING_SUBTYPE →
        s.currentState = .IDLE ∧ fi.tombol.tombol1 = true ∧ fi.tombol.tombol0 = false) ∧
      (s.currentState = .SENDING_DATA ∨ s.currentState = .SHOWING_STATUS →
        (Firestore.loop cred fi s).currentState ≠ .SELECTING_SUBTYPE) ∧
      ((HttpMqtt.loop cred hi s).currentState = .SELECTING_SUBTYPE →
        s.currentState ≠ .SELECTING_SUBTYPE →
        s.currentState = .IDLE ∧ hi.tombol.tombol1 = true ∧ hi.tombol.tombol0 = false) ∧
      (s.currentState = .SENDING_DATA ∨ s.currentState = .SHOWING_STATUS →
        (HttpMqtt.loop cred hi s).currentState ≠ .SELECTING_SUBTYPE) := by
  refine ⟨?_, ?_, ?_, ?_⟩
  · intro h hne
    rcases firestore_loop_selecting cred fi s h with h' | h'
    · exact absurd h' hne
    · exact h'
  · intro hs h
    rcases firestore_loop_selecting cred fi s h with h' | h'
    · rcases hs with hs | hs <;> rw [hs] at h' <;> cases h'
    · rcases hs with hs | hs <;> rw [hs] at h' <;> cases h'.1
  · intro h hne
    rcases httpMqtt_loop_selecting cred hi s h with h' | h'
    · exact absurd h' hne
    · exact h'
  · intro hs h
    rcases httpMqtt_loop_selecting cred hi s h with h' | h'
    · rcases hs with hs | hs <;> rw [hs] at h' <;> cases h'
    · rcases hs with hs | hs <;> rw [hs] at h' <;> cases h'.1

/-- Witness for C2: from the boot state (`IDLE`) an iteration with button 2 ends in
`SELECTING_SUBTYPE`, and the theorem gives back the button flags. -/
theorem selecting_entered_only_from_idle_witness :
    (Firestore.loop sampleCred (Firestore.sampleInputs ⟨false, true, false, false⟩ 10)
        bootState).currentState = .SELECTING_SUBTYPE ∧
      (bootState.currentState = .IDLE ∧
        (Firestore.sampleInputs ⟨false, true, false, false⟩ 10).tombol.tombol1 = true ∧
        (Firestore.sampleInputs ⟨false, true, false, false⟩ 10).tombol.tombol0 = false) :=
  have h := (firestore_loop_idle_button2 sampleCred
    (Firestore.sampleInputs ⟨false, true, false, false⟩ 10) bootState rfl rfl rfl).1
  ⟨h, (selecting_entered_only_from_idle sampleCred
    (Firestore.sampleInputs ⟨false, true, false, false⟩ 10)
    (HttpMqtt.sampleInputs ⟨false, true, false, false⟩ 10) bootState).1 h (by decide)⟩

/-- Claim C9: `prosesTombol` implements the fixed button table whatever deposit was
held before the press.  With exactly one of buttons 1-3 pressed: in `IDLE` button 1
gives deposit ("Organik","--") and state `IDLE`, button 3 gives ("Residu","--") and
state `IDLE`, button 2 gives state `SELECTING_SUBTYPE` (deposit untouched); in
`SELECTING_SUBTYPE` buttons 1, 2, 3 give ("Anorganik","Umum"), ("Anorganik","Botol"),
("Anorganik","Kertas") and state `IDLE`.  Button 4 (`b4`) plays no part. -/
theorem prosesTombol_table (s : State) (b4 : Bool) :
    (s.currentState = .IDLE →
      ((prosesTombol ⟨true, false, false, b4⟩ s).sampah = ⟨"Organik", "--"⟩ ∧
        (prosesTombol ⟨true, false, false, b4⟩ s).currentState = .IDLE) ∧
      ((prosesTombol ⟨false, false, true, b4⟩ s).sampah = ⟨"Residu", "--"⟩ ∧
        (prosesTombol ⟨false, false, true, b4⟩ s).currentState = .IDLE) ∧
      ((prosesTombol ⟨false, true, false, b4⟩ s).currentState = .SELECTING_SUBTYPE ∧
        (prosesTombol ⟨false, true, false, b4⟩ s).sampah = s.sampah)) ∧
    (s.currentState = .SELECTING_SUBTYPE →
      ((prosesTombol ⟨true, false, false, b4⟩ s).sampah = ⟨"Anorganik", "Umum"⟩ ∧
        (prosesTombol ⟨true, false, false, b4⟩ s).currentState = .IDLE) ∧
      ((prosesTombol ⟨false, true, false, b4⟩ s).sampah = ⟨"Anorganik", "Botol"⟩ ∧
        (prosesTombol ⟨false, true, false, b4⟩ s).currentState = .IDLE) ∧
      ((prosesTombol ⟨false, false, true, b4⟩ s).sampah = ⟨"Anorganik", "Kertas"⟩ ∧
        (prosesTombol ⟨false, false, true, b4⟩ s).currentState = .IDLE)) := by
  constructor
  · intro h
    simp [prosesTombol, h, setJenis, setSubJenis, restoreDefaultDisplay,
      tampilkanSubJenisAnorganik, emit, emits]
  · intro h
    simp [prosesTombol, h, setJenis, setSubJenis, restoreDefaultDisplay, emit, emits]

/-- Witness for C9: the table at the boot state (`IDLE`) and at a state in
`SELECTING_SUBTYPE` that already holds a deposit. -/
theorem prosesTombol_table_witness :
    (prosesTombol ⟨true, false, false, false⟩ bootState).sampah = ⟨"Organik", "--"⟩ ∧
      (prosesTombol ⟨false, false, true, true⟩ selectingState).sampah =
        ⟨"Anorganik", "Kertas"⟩ :=
  ⟨((prosesTombol_table bootState false).1 rfl).1.1,
    ((prosesTombol_table selectingState true).2 rfl).2.2.1⟩

/-- Claim C3: a commit with no category is always rejected.  When `handleKirimData`
handles a press of the commit button (`tombol[3]`) in `IDLE` with `sampah.jenis`
equal to `"--"`, in a state satisfying the deposit invariant (every reachable
state does), then for every weight and every connectivity input, in both files:
no sink send is performed and no send function is entered, the deposit is
unchanged and is `"--"`/`"--"`, the status line shows a rejection text and not the
success text, the state becomes `SHOWING_STATUS` and `statusMsgTimestamp` is the
`millis()` read by the function. -/
theorem commit_without_category_rejected (cred : Credentials) (t : Tombol)
    (i : Firestore.SendIn) (l : HttpMqtt.LaravelIn) (p : HttpMqtt.PublishIn) (now : Nat)
    (s : State) (hs : s.currentState = .IDLE) (hb : t.tombol3 = true)
    (hj : s.sampah.jenis = "--") (hinv : DepositInv s) :
    ((∀ e ∈ newEvents s (Firestore.handleKirimData cred t i now s), e.isSend = false) ∧
      calls .sendDataToFirebase (newEvents s (Firestore.handleKirimData cred t i now s)) = 0 ∧
      (Firestore.handleKirimData cred t i now s).sampah = s.sampah ∧
      (Firestore.handleKirimData cred t i now s).sampah = ⟨"--", "--"⟩ ∧
      lastPrint (newEvents s (Firestore.handleKirimData cred t i now s)) =
        some "Error: Pilih Jenis!   " ∧
      lastPrint (newEvents s (Firestore.handleKirimData cred t i now s)) ≠
        some "Status: Sukses!      " ∧
      (Firestore.handleKirimData cred t i now s).currentState = .SHOWING_STATUS ∧
      (Firestore.handleKirimData cred t i now s).statusMsgTimestamp = now) ∧
    ((∀ e ∈ newEvents s (HttpMqtt.handleKirimData cred t l p now s), e.isSend = false) ∧
      calls .sendToLaravel (newEvents s (HttpMqtt.handleKirimData cred t l p now s)) = 0 ∧
      calls .sendToMQTT (newEvents s (HttpMqtt.handleKirimData cred t l p now s)) = 0 ∧
      (HttpMqtt.handleKirimData cred t l p now s).sampah = s.sampah ∧
      (HttpMqtt.handleKirimData cred t l p now s).sampah = ⟨"--", "--"⟩ ∧
      lastPrint (newEvents s (HttpMqtt.handleKirimData cred t l p now s)) =
        some (if s.offlineMode = true then "Gagal: Offline!   "
          else "Error: Pilih Jenis!   ") ∧
      lastPrint (newEvents s (HttpMqtt.handleKirimData cred t l p now s)) ≠
        some "Status: Sukses!      " ∧
      (HttpMqtt.handleKirimData cred t l p now s).currentState = .SHOWING_STATUS ∧
      (HttpMqtt.handleKirimData cred t l p now s).statusMsgTimestamp = now) := by
  have hd : s.sampah = ⟨"--", "--"⟩ := by
    have h2 : s.sampah.subJenis = "--" := by
      by_contra hne
      have := hinv hne
      rw [hj] at this
      exact absurd this (by decide)
    cases hsp : s.sampah with
    | mk j sj =>
      rw [hsp] at hj h2
      simp only at hj h2
      rw [hj, h2]
  constructor
  · rw [firestore_handleKirimData_noCategory cred t i now s hs hb hj, newEvents_emits_with]
    refine ⟨by simp, by simp, rfl, hd, by decide, by decide, rfl, rfl⟩
  · cases ho : s.offlineMode
    · rw [httpMqtt_handleKirimData_noCategory cred t l p now s hs hb ho hj,
        newEvents_emits_with]
      refine ⟨by simp, by simp, by simp, rfl, hd, by decide, by decide, rfl, rfl⟩
    · rw [httpMqtt_handleKirimData_offline cred t l p now s hs hb ho, newEvents_emits_with]
      refine ⟨by simp, by simp, by simp, rfl, hd, by decide, by decide, rfl, rfl⟩

/-- Witness for C3 at the boot state, commit button alone, both files. -/
theorem commit_without_category_rejected_witness :
    DepositInv bootState ∧
      (Firestore.handleKirimData sampleCred ⟨false, false, false, true⟩
        (Firestore.sampleInputs ⟨false, false, false, true⟩ 0).send 7 bootState).sampah =
        ⟨"--", "--"⟩ ∧
      (HttpMqtt.handleKirimData sampleCred ⟨false, false, false, true⟩
        (HttpMqtt.sampleInputs ⟨false, false, false, true⟩ 0).laravel
        (HttpMqtt.sampleInputs ⟨false, false, false, true⟩ 0).publish 7
        bootState).statusMsgTimestamp = 7 :=
  have h := commit_without_category_rejected sampleCred ⟨false, false, false, true⟩
    (Firestore.sampleInputs ⟨false, false, false, true⟩ 0).send
    (HttpMqtt.sampleInputs ⟨false, false, false, true⟩ 0).laravel
    (HttpMqtt.sampleInputs ⟨false, false, false, true⟩ 0).publish 7 bootState
    rfl rfl rfl (by decide)
  ⟨by decide, h.1.2.2.2.1, h.2.2.2.2.2.2.2.2.2⟩

/-- Claim C6: inputs during `SHOWING_STATUS` are ignored and the state is not left
early.  For every iteration of `loop` (both files) that starts in `SHOWING_STATUS`
with `(millis() - statusMsgTimestamp) mod 2^32 < STATUS_MSG_DURATION` (the
difference is `u32sub`, see `u32sub_eq_emod`), whatever the four buttons and all
other inputs are: the state afterwards is still
`SHOWING_STATUS`, the deposit is unchanged and no sink send is performed. -/
theorem showing_status_ignores_input (cred : Credentials) (fi : Firestore.Inputs)
    (hi : HttpMqtt.Inputs) (s : State) (hs : s.currentState = .SHOWING_STATUS)
    (hf : u32sub fi.millisShowing s.statusMsgTimestamp < Config.STATUS_MSG_DURATION)
    (hh : u32sub hi.millisShowing s.statusMsgTimestamp < Config.STATUS_MSG_DURATION) :
    ((Firestore.loop cred fi s).currentState = .SHOWING_STATUS ∧
      (Firestore.loop cred fi s).sampah = s.sampah ∧
      ∀ e ∈ newEvents s (Firestore.loop cred fi s), e.isSend = false) ∧
    ((HttpMqtt.loop cred hi s).currentState = .SHOWING_STATUS ∧
      (HttpMqtt.loop cred hi s).sampah = s.sampah ∧
      ∀ e ∈ newEvents s (HttpMqtt.loop cred hi s), e.isSend = false) := by
  have h1 := firestore_loop_showing_hold cred fi s hs (by omega)
  have h2 := httpMqtt_loop_showing_hold cred hi s hs (by omega)
  exact ⟨⟨h1.1.trans hs, h1.2.1, h1.2.2.2.noSend_newEvents⟩,
    ⟨h2.1.trans hs, h2.2.1, h2.2.2.2.noSend_newEvents⟩⟩

/-- Witness for C6: 1999 ms after the status was shown, all four buttons pressed. -/
theorem showing_status_ignores_input_witness :
    (Firestore.loop sampleCred (Firestore.sampleInputs ⟨true, true, true, true⟩ 2999)
        showingState).currentState = .SHOWING_STATUS ∧
      (HttpMqtt.loop sampleCred (HttpMqtt.sampleInputs ⟨true, true, true, true⟩ 2999)
        showingState).currentState = .SHOWING_STATUS :=
  have h := showing_status_ignores_input sampleCred
    (Firestore.sampleInputs ⟨true, true, true, true⟩ 2999)
    (HttpMqtt.sampleInputs ⟨true, true, true, true⟩ 2999) showingState rfl
    (by decide) (by decide)
  ⟨h.1.1, h.2.1⟩

/-- Counterexample to C7 as stated: exactly 2000 ms after the status was shown
(`millis() = 3000`, `statusMsgTimestamp = 1000`) an iteration that starts in
`SHOWING_STATUS` still ends in `SHOWING_STATUS`, in both files. -/
theorem showing_status_at_exact_duration_stays :
    showingState.currentState = .SHOWING_STATUS ∧
      u32sub (Firestore.sampleInputs ⟨false, false, false, false⟩ 3000).millisShowing
        showingState.statusMsgTimestamp = Config.STATUS_MSG_DURATION ∧
      u32sub (HttpMqtt.sampleInputs ⟨false, false, false, false⟩ 3000).millisShowing
        showingState.statusMsgTimestamp = Config.STATUS_MSG_DURATION ∧
      (Firestore.loop sampleCred (Firestore.sampleInputs ⟨false, false, false, false⟩ 3000)
        showingState).currentState = .SHOWING_STATUS ∧
      (HttpMqtt.loop sampleCred (HttpMqtt.sampleInputs ⟨false, false, false, false⟩ 3000)
        showingState).currentState = .SHOWING_STATUS ∧
      (Firestore.loop sampleCred (Firestore.sampleInputs ⟨false, false, false, false⟩ 3000)
        showingState).currentState ≠ .IDLE ∧
      (HttpMqtt.loop sampleCred (HttpMqtt.sampleInputs ⟨false, false, false, false⟩ 3000)
        showingState).currentState ≠ .IDLE := by
  have h1 := (firestore_loop_showing_hold sampleCred
    (Firestore.sampleInputs ⟨false, false, false, false⟩ 3000) showingState rfl (by decide)).1
  have h2 := (httpMqtt_loop_showing_hold sampleCred
    (HttpMqtt.sampleInputs ⟨false, false, false, false⟩ 3000) showingState rfl (by decide)).1
  refine ⟨rfl, by decide, by decide, h1, h2, ?_, ?_⟩
  · rw [h1]; decide
  · rw [h2]; decide

/-- Claim C7, amended: an iteration of `loop` (both files) that starts in
`SHOWING_STATUS` when `(millis() - statusMsgTimestamp) mod 2^32` is strictly greater
than `STATUS_MSG_DURATION` ends in `IDLE`, whatever the buttons, the deposit and
the connectivity inputs are. -/
theorem showing_status_exit_after_duration (cred : Credentials) (fi : Firestore.Inputs)
    (hi : HttpMqtt.Inputs) (s : State) (hs : s.currentState = .SHOWING_STATUS)
    (hf : u32sub fi.millisShowing s.statusMsgTimestamp > Config.STATUS_MSG_DURATION)
    (hh : u32sub hi.millisShowing s.statusMsgTimestamp > Config.STATUS_MSG_DURATION) :
    (Firestore.loop cred fi s).currentState = .IDLE ∧
      (HttpMqtt.loop cred hi s).currentState = .IDLE :=
  ⟨firestore_loop_showing_exit cred fi s hs hf, httpMqtt_loop_showing_exit cred hi s hs hh⟩

/-- Witness for the amended C7: 2001 ms after the status was shown. -/
theorem showing_status_exit_after_duration_witness :
    (Firestore.loop sampleCred (Firestore.sampleInputs ⟨false, false, false, false⟩ 3001)
        showingState).currentState = .IDLE ∧
      (HttpMqtt.loop sampleCred (HttpMqtt.sampleInputs ⟨false, false, false, false⟩ 3001)
        showingState).currentState = .IDLE :=
  showing_status_exit_after_duration sampleCred
    (Firestore.sampleInputs ⟨false, false, false, false⟩ 3001)
    (HttpMqtt.sampleInputs ⟨false, false, false, false⟩ 3001) showingState rfl
    (by decide) (by decide)

/-- Claim C4: a commit while offline is rejected without any send.
(1) `uploadmysql.cpp`: a commit press handled in `IDLE` while `offlineMode` is true
performs exactly a tone and the print of the offline text: no `sendToLaravel`, no
`sendToMQTT`, no `connectMQTT`, no sink send; the deposit is unchanged and the state
becomes `SHOWING_STATUS`.
(2) `main.cpp`: a commit press handled in `IDLE` while the WiFi link is down performs
no sink send (no `createDocument`) and leaves the deposit unchanged.
(3), (4) The scenario, in each file: from an initial state, an iteration with button 2
(button 1 not pressed), a second such iteration, then an iteration with the commit
button alone while offline (link down; for `uploadmysql.cpp` `offlineMode` set from
the start and the link down throughout) ends with deposit ("Anorganik","Botol"),
in `SHOWING_STATUS`, the commit iteration having performed no sink send. -/
theorem commit_offline_no_send (cred : Credentials) :
    (∀ (t : Tombol) (l : HttpMqtt.LaravelIn) (p : HttpMqtt.PublishIn) (now : Nat) (s : State),
      s.currentState = .IDLE → t.tombol3 = true → s.offlineMode = true →
        newEvents s (HttpMqtt.handleKirimData cred t l p now s) =
          [.tone Config.PIN_BUZZER 2000 100, .lcdSetCursor 0 0,
            .lcdPrint "Gagal: Offline!   "] ∧
        (∀ e ∈ newEvents s (HttpMqtt.handleKirimData cred t l p now s), e.isSend = false) ∧
        calls .sendToLaravel (newEvents s (HttpMqtt.handleKirimData cred t l p now s)) = 0 ∧
        calls .sendToMQTT (newEvents s (HttpMqtt.handleKirimData cred t l p now s)) = 0 ∧
        calls .connectMQTT (newEvents s (HttpMqtt.handleKirimData cred t l p now s)) = 0 ∧
        (HttpMqtt.handleKirimData cred t l p now s).sampah = s.sampah ∧
        (HttpMqtt.handleKirimData cred t l p now s).currentState = .SHOWING_STATUS) ∧
    (∀ (t : Tombol) (i : Firestore.SendIn) (now : Nat) (s : State),
      s.currentState = .IDLE → t.tombol3 = true → i.wifiConnected = false →
        (∀ e ∈ newEvents s (Firestore.handleKirimData cred t i now s), e.isSend = false) ∧
        (Firestore.handleKirimData cred t i now s).sampah = s.sampah ∧
        (Firestore.handleKirimData cred t i now s).currentState = .SHOWING_STATUS) ∧
    (∀ (s0 : State) (i1 i2 i3 : Firestore.Inputs), Initial s0 →
      i1.tombol.tombol0 = false → i1.tombol.tombol1 = true →
      i2.tombol.tombol0 = false → i2.tombol.tombol1 = true →
      i3.tombol = ⟨false, false, false, true⟩ → i3.send.wifiConnected = false →
        (Firestore.run cred [i1, i2, i3] s0).sampah = ⟨"Anorganik", "Botol"⟩ ∧
        (Firestore.run cred [i1, i2, i3] s0).currentState = .SHOWING_STATUS ∧
        (∀ e ∈ newEvents (Firestore.run cred [i1, i2] s0) (Firestore.run cred [i1, i2, i3] s0),
          e.isSend = false)) ∧
    (∀ (s0 : State) (i1 i2 i3 : HttpMqtt.Inputs), Initial s0 → s0.offlineMode = true →
      i1.wifi.wifiConnected = false → i2.wifi.wifiConnected = false →
      i3.wifi.wifiConnected = false →
      i1.tombol.tombol0 = false → i1.tombol.tombol1 = true →
      i2.tombol.tombol0 = false → i2.tombol.tombol1 = true →
      i3.tombol = ⟨false, false, false, true⟩ →
        (HttpMqtt.run cred [i1, i2, i3] s0).sampah = ⟨"Anorganik", "Botol"⟩ ∧
        (HttpMqtt.run cred [i1, i2, i3] s0).currentState = .SHOWING_STATUS ∧
        (∀ e ∈ newEvents (HttpMqtt.run cred [i1, i2] s0) (HttpMqtt.run cred [i1, i2, i3] s0),
          e.isSend = false)) := by
  refine ⟨?_, ?_, ?_, ?_⟩
  · intro t l p now s hs hb ho
    rw [httpMqtt_handleKirimData_offline cred t l p now s hs hb ho, newEvents_emits_with]
    exact ⟨rfl, by simp, by simp, by simp, by simp, rfl, rfl⟩
  · intro t i now s hs hb hw
    have h := firestore_handleKirimData_linkDown cred t i now s hs hb hw
    exact ⟨h.2.2.noSend_newEvents, h.2.1, h.1⟩
  · intro s0 i1 i2 i3 h0 h10 h11 h20 h21 h3 hw
    have a := firestore_loop_idle_button2 cred i1 s0 h0.1 h10 h11
    have b := firestore_loop_selecting_button2 cred i2 _ a.1 h20 h21
    have c := firestore_loop_idle_commit_linkDown cred i3 _ b.1 (by rw [h3]) (by rw [h3])
      (by rw [h3]) (by rw [h3]) hw
    simp only [Firestore.run, List.foldl]
    exact ⟨c.2.1.trans b.2, c.1, c.2.2.noSend_newEvents⟩
  · intro s0 i1 i2 i3 h0 ho w1 w2 w3 h10 h11 h20 h21 h3
    have a := httpMqtt_loop_idle_button2 cred i1 s0 h0.1 h10 h11
    have ao : (HttpMqtt.loop cred i1 s0).offlineMode = true :=
      a.2.2.trans (httpMqtt_manageWifiConnection_offline i1.wifi s0 ho w1)
    have b := httpMqtt_loop_selecting_button2 cred i2 _ a.1 h20 h21
    have bo : (HttpMqtt.loop cred i2 (HttpMqtt.loop cred i1 s0)).offlineMode = true :=
      b.2.2.trans (httpMqtt_manageWifiConnection_offline i2.wifi _ ao w2)
    have c := httpMqtt_loop_idle_commit_offline cred i3 _ b.1 (by rw [h3]) (by rw [h3])
      (by rw [h3]) (by rw [h3]) bo w3
    simp only [HttpMqtt.run, List.foldl]
    exact ⟨c.2.1.trans b.2.1, c.1, c.2.2.noSend_newEvents⟩

/-- Witness for C4: the scenario run from the boot state in `main.cpp` (link down at
the commit) and from the boot state with `offlineMode` set in `uploadmysql.cpp`. -/
theorem commit_offline_no_send_witness :
    (Firestore.run sampleCred
        [Firestore.sampleInputs ⟨false, true, false, false⟩ 10,
          Firestore.sampleInputs ⟨false, true, false, false⟩ 20,
          Firestore.linkDownInputs ⟨false, false, false, true⟩ 30] bootState).sampah =
        ⟨"Anorganik", "Botol"⟩ ∧
      (HttpMqtt.run sampleCred
        [HttpMqtt.linkDownInputs ⟨false, true, false, false⟩ 10,
          HttpMqtt.linkDownInputs ⟨false, true, false, false⟩ 20,
          HttpMqtt.linkDownInputs ⟨false, false, false, true⟩ 30]
        { bootState with offlineMode := true }).sampah = ⟨"Anorganik", "Botol"⟩ :=
  ⟨((commit_offline_no_send sampleCred).2.2.1 bootState _ _ _ (by decide) rfl rfl rfl rfl
      rfl rfl).1,
    ((commit_offline_no_send sampleCred).2.2.2 { bootState with offlineMode := true } _ _ _
      (by decide) rfl rfl rfl rfl rfl rfl rfl rfl rfl).1⟩

/-- Claim C5: the deposit after a commit.  For every commit handled by
`handleKirimData` (commit button pressed in `IDLE`), in both files: if the primary
sink call (`sendDataToFirebase`, `sendToLaravel`) returned true the deposit
afterwards is exactly ("--","--"), and the status line shows the success text
exactly then; in every other case the deposit afterwards equals the deposit
before, in particular when no category is selected, when offline (link down,
`offlineMode`), and when the primary sink call returned false. -/
theorem commit_outcome_deposit (cred : Credentials) (t : Tombol) (i : Firestore.SendIn)
    (l : HttpMqtt.LaravelIn) (p : HttpMqtt.PublishIn) (now : Nat) (s : State)
    (hs : s.currentState = .IDLE) (hb : t.tombol3 = true) :
    ((Event.ret .sendDataToFirebase true ∈
          newEvents s (Firestore.handleKirimData cred t i now s) →
        (Firestore.handleKirimData cred t i now s).sampah = ⟨"--", "--"⟩) ∧
      (Event.ret .sendDataToFirebase true ∉
          newEvents s (Firestore.handleKirimData cred t i now s) →
        (Firestore.handleKirimData cred t i now s).sampah = s.sampah) ∧
      (Event.ret .sendDataToFirebase true ∈
          newEvents s (Firestore.handleKirimData cred t i now s) ↔
        lastPrint (newEvents s (Firestore.handleKirimData cred t i now s)) =
          some "Status: Sukses!      ") ∧
      (s.sampah.jenis = "--" →
        (Firestore.handleKirimData cred t i now s).sampah = s.sampah) ∧
      (i.wifiConnected = false →
        (Firestore.handleKirimData cred t i now s).sampah = s.sampah) ∧
      (Event.ret .sendDataToFirebase false ∈
          newEvents s (Firestore.handleKirimData cred t i now s) →
        (Firestore.handleKirimData cred t i now s).sampah = s.sampah)) ∧
    ((Event.ret .sendToLaravel true ∈
          newEvents s (HttpMqtt.handleKirimData cred t l p now s) →
        (HttpMqtt.handleKirimData cred t l p now s).sampah = ⟨"--", "--"⟩) ∧
      (Event.ret .sendToLaravel true ∉
          newEvents s (HttpMqtt.handleKirimData cred t l p now s) →
        (HttpMqtt.handleKirimData cred t l p now s).sampah = s.sampah) ∧
      (Event.ret .sendToLaravel true ∈
          newEvents s (HttpMqtt.handleKirimData cred t l p now s) ↔
        lastPrint (newEvents s (HttpMqtt.handleKirimData cred t l p now s)) =
          some "Status: Sukses!      ") ∧
      (s.sampah.jenis = "--" →
        (HttpMqtt.handleKirimData cred t l p now s).sampah = s.sampah) ∧
      (s.offlineMode = true →
        (HttpMqtt.handleKirimData cred t l p now s).sampah = s.sampah) ∧
      (Event.ret .sendToLaravel false ∈
          newEvents s (HttpMqtt.handleKirimData cred t l p now s) →
        (HttpMqtt.handleKirimData cred t l p now s).sampah = s.sampah)) := by
  constructor
  · by_cases hj : s.sampah.jenis = "--"
    · rw [firestore_handleKirimData_noCategory cred t i now s hs hb hj, newEvents_emits_with]
      simp [lastPrint, emits]
    · have h := firestore_handleKirimData_delivery cred t i now s hs hb hj
      have hw := firestore_handleKirimData_linkDown cred t i now s hs hb
      rw [h.2.2.2.2.2.1, h.2.2.2.2.2.2, h.2.2.1, lastPrint, h.2.2.2.1]
      refine ⟨?_, ?_, ?_, ?_, ?_, ?_⟩
      · intro hr; simp [hr]
      · intro hr; simp [hr]
      · cases (Firestore.sendDataToFirebase cred i s).1 <;> simp
      · intro h'; exact absurd h' hj
      · intro h'; rw [← h.2.2.1]; exact (hw h').2.1
      · intro hr; simp [hr]
  · cases ho : s.offlineMode
    · by_cases hj : s.sampah.jenis = "--"
      · rw [httpMqtt_handleKirimData_noCategory cred t l p now s hs hb ho hj,
          newEvents_emits_with]
        simp [lastPrint, emits]
      · have h := httpMqtt_handleKirimData_delivery cred t l p now s hs hb ho hj
        rw [h.2.2.2.2.2.2.1, h.2.2.2.2.2.2.2, h.2.2.1, lastPrint, h.2.2.2.1]
        refine ⟨?_, ?_, ?_, ?_, ?_, ?_⟩
        · intro hr; simp [hr]
        · intro hr; simp [hr]
        · cases (HttpMqtt.sendToLaravel cred l s).1 <;> simp
        · intro h'; exact absurd h' hj
        · intro h'; cases h'
        · intro hr; simp [hr]
    · rw [httpMqtt_handleKirimData_offline cred t l p now s hs hb ho, newEvents_emits_with]
      simp [lastPrint, emits]

/-- Witness for C5: a commit of ("Organik","--") from `IDLE` in `uploadmysql.cpp`,
every call succeeding: `sendToLaravel` returns true and the deposit is reset. -/
theorem commit_outcome_deposit_witness :
    organikState.currentState = .IDLE ∧
      Event.ret .sendToLaravel true ∈ newEvents organikState
        (HttpMqtt.handleKirimData sampleCred ⟨false, false, false, true⟩
          (HttpMqtt.sampleInputs ⟨false, false, false, true⟩ 0).laravel
          (HttpMqtt.sampleInputs ⟨false, false, false, true⟩ 0).publish 7 organikState) ∧
      (HttpMqtt.handleKirimData sampleCred ⟨false, false, false, true⟩
          (HttpMqtt.sampleInputs ⟨false, false, false, true⟩ 0).laravel
          (HttpMqtt.sampleInputs ⟨false, false, false, true⟩ 0).publish 7
          organikState).sampah = ⟨"--", "--"⟩ :=
  have hm : Event.ret .sendToLaravel true ∈ newEvents organikState
      (HttpMqtt.handleKirimData sampleCred ⟨false, false, false, true⟩
        (HttpMqtt.sampleInputs ⟨false, false, false, true⟩ 0).laravel
        (HttpMqtt.sampleInputs ⟨false, false, false, true⟩ 0).publish 7 organikState) :=
    (httpMqtt_handleKirimData_delivery sampleCred ⟨false, false, false, true⟩
      (HttpMqtt.sampleInputs ⟨false, false, false, true⟩ 0).laravel
      (HttpMqtt.sampleInputs ⟨false, false, false, true⟩ 0).publish 7 organikState
      rfl rfl rfl (by decide)).2.2.2.2.2.2.1.mpr (by decide)
  ⟨rfl, hm, (commit_outcome_deposit sampleCred ⟨false, false, false, true⟩
      (Firestore.sampleInputs ⟨false, false, false, true⟩ 0).send
      (HttpMqtt.sampleInputs ⟨false, false, false, true⟩ 0).laravel
      (HttpMqtt.sampleInputs ⟨false, false, false, true⟩ 0).publish 7 organikState
      rfl rfl).2.1 hm⟩

/-- Claim C10: in `uploadmysql.cpp` the visible outcome of a commit that reaches
delivery (not offline, category selected) depends on the result of `sendToLaravel`
only.  For such a commit: `sendToMQTT` is entered exactly once whatever
`sendToLaravel` returned; two runs that differ only in what `sendToMQTT` reads
(`p1`, `p2`) print the same texts and end with the same deposit, state and status
timer; and two runs with different HTTP and MQTT inputs in which `sendToLaravel`
returned the same result print the same texts and end with the same deposit and
state. -/
theorem ui_outcome_depends_on_laravel_only (cred : Credentials) (t : Tombol)
    (l1 l2 : HttpMqtt.LaravelIn) (p1 p2 : HttpMqtt.PublishIn) (now : Nat) (s : State)
    (hs : s.currentState = .IDLE) (hb : t.tombol3 = true) (ho : s.offlineMode = false)
    (hj : s.sampah.jenis ≠ "--") :
    calls .sendToMQTT (newEvents s (HttpMqtt.handleKirimData cred t l1 p1 now s)) = 1 ∧
      (Event.ret .sendToLaravel true ∈
          newEvents s (HttpMqtt.handleKirimData cred t l1 p1 now s) ∨
        Event.ret .sendToLaravel false ∈
          newEvents s (HttpMqtt.handleKirimData cred t l1 p1 now s)) ∧
      (lcdTexts (newEvents s (HttpMqtt.handleKirimData cred t l1 p1 now s)) =
          lcdTexts (newEvents s (HttpMqtt.handleKirimData cred t l1 p2 now s)) ∧
        (HttpMqtt.handleKirimData cred t l1 p1 now s).sampah =
          (HttpMqtt.handleKirimData cred t l1 p2 now s).sampah ∧
        (HttpMqtt.handleKirimData cred t l1 p1 now s).currentState =
          (HttpMqtt.handleKirimData cred t l1 p2 now s).currentState ∧
        (HttpMqtt.handleKirimData cred t l1 p1 now s).statusMsgTimestamp =
          (HttpMqtt.handleKirimData cred t l1 p2 now s).statusMsgTimestamp) ∧
      ((Event.ret .sendToLaravel true ∈
            newEvents s (HttpMqtt.handleKirimData cred t l1 p1 now s) ↔
          Event.ret .sendToLaravel true ∈
            newEvents s (HttpMqtt.handleKirimData cred t l2 p2 now s)) →
        lcdTexts (newEvents s (HttpMqtt.handleKirimData cred t l1 p1 now s)) =
          lcdTexts (newEvents s (HttpMqtt.handleKirimData cred t l2 p2 now s)) ∧
        (HttpMqtt.handleKirimData cred t l1 p1 now s).sampah =
          (HttpMqtt.handleKirimData cred t l2 p2 now s).sampah ∧
        (HttpMqtt.handleKirimData cred t l1 p1 now s).currentState =
          (HttpMqtt.handleKirimData cred t l2 p2 now s).currentState) := by
  have a := httpMqtt_handleKirimData_delivery cred t l1 p1 now s hs hb ho hj
  have b := httpMqtt_handleKirimData_delivery cred t l1 p2 now s hs hb ho hj
  have c := httpMqtt_handleKirimData_delivery cred t l2 p2 now s hs hb ho hj
  refine ⟨a.2.2.2.2.2.1, ?_, ⟨?_, ?_, ?_, ?_⟩, ?_⟩
  · rw [a.2.2.2.2.2.2.1, a.2.2.2.2.2.2.2]
    cases (HttpMqtt.sendToLaravel cred l1 s).1 <;> simp
  · rw [a.2.2.2.1, b.2.2.2.1]
  · rw [a.2.2.1, b.2.2.1]
  · rw [a.1, b.1]
  · rw [a.2.1, b.2.1]
  · intro h
    rw [a.2.2.2.2.2.2.1, c.2.2.2.2.2.2.1] at h
    rw [a.2.2.2.1, c.2.2.2.1, a.2.2.1, c.2.2.1, a.1, c.1]
    have e : (HttpMqtt.sendToLaravel cred l1 s).1 = (HttpMqtt.sendToLaravel cred l2 s).1 := by
      cases h1 : (HttpMqtt.sendToLaravel cred l1 s).1 <;>
        cases h2 : (HttpMqtt.sendToLaravel cred l2 s).1 <;> simp [h1, h2] at h ⊢
    rw [e]
    exact ⟨rfl, rfl, rfl⟩

/-- Witness for C10: a commit of ("Organik","--") while online; in one run the MQTT
publish succeeds, in the other the broker is unreachable. -/
theorem ui_outcome_depends_on_laravel_only_witness :
    calls .sendToMQTT (newEvents organikState
        (HttpMqtt.handleKirimData sampleCred ⟨false, false, false, true⟩
          (HttpMqtt.sampleInputs ⟨false, false, false, true⟩ 0).laravel
          (HttpMqtt.sampleInputs ⟨false, false, false, true⟩ 0).publish 7
          organikState)) = 1 ∧
      (HttpMqtt.handleKirimData sampleCred ⟨false, false, false, true⟩
          (HttpMqtt.sampleInputs ⟨false, false, false, true⟩ 0).laravel
          (HttpMqtt.sampleInputs ⟨false, false, false, true⟩ 0).publish 7
          organikState).sampah =
        (HttpMqtt.handleKirimData sampleCred ⟨false, false, false, true⟩
          (HttpMqtt.sampleInputs ⟨false, false, false, true⟩ 0).laravel
          brokerDown 7 organikState).sampah :=
  have h := ui_outcome_depends_on_laravel_only sampleCred ⟨false, false, false, true⟩
    (HttpMqtt.sampleInputs ⟨false, false, false, true⟩ 0).laravel
    (HttpMqtt.linkDownInputs ⟨false, false, false, true⟩ 0).laravel
    (HttpMqtt.sampleInputs ⟨false, false, false, true⟩ 0).publish
    brokerDown 7 organikState rfl rfl rfl (by decide)
  ⟨h.1, h.2.2.1.2.1⟩

/-- Claim C8: over exact (rational) arithmetic, starting from `weightBuffer = (0,0)`
and `bufferIndex = 0`, for every sequence of raw readings the value returned by the
`n`-th call of `readSmoothedWeight` (`1 ≤ n ≤` number of readings) is
`(c_n + c_(n-1)) / 2`, where `c_i` is the `i`-th reading divided by 1000 and replaced
by 0 when below 0.05, and `c_0 = 0`.  In particular the readings 30 and 200 (0.03 kg
and 0.20 kg) give 0.10 on the second call. -/
theorem smoothed_weight_is_mean_of_last_two (s : State) (raws : List ℚ) (n : Nat)
    (hb : s.weightBuffer = (0, 0)) (hi : s.bufferIndex = 0) (h1 : 1 ≤ n)
    (h2 : n ≤ raws.length) :
    (readAll raws s).1[n - 1]? =
        some ((clampedSample raws n + clampedSample raws (n - 1)) / 2) ∧
      (readAll [30, 200] s).1[1]? = some (1 / 10) := by
  have hl : lastSample s = 0 := by simp [lastSample, hi, hb]
  constructor
  · rw [readAll_eq_meanOfLastTwo raws s (Or.inl hi), hl,
      meanOfLastTwo_index raws 0 (n - 1) (by omega)]
    obtain ⟨k, rfl⟩ : ∃ k, n = k + 1 := ⟨n - 1, by omega⟩
    cases k with
    | zero => simp [clampedSample]
    | succ j => simp [clampedSample]
  · rw [readAll_eq_meanOfLastTwo _ s (Or.inl hi), hl]
    simp only [meanOfLastTwo, clampKg]
    norm_num

/-- Witness for C8: three readings from the boot state, third call. -/
theorem smoothed_weight_is_mean_of_last_two_witness :
    (readAll [30, 200, 1000] bootState).1[3 - 1]? =
      some ((clampedSample [30, 200, 1000] 3 + clampedSample [30, 200, 1000] (3 - 1)) / 2) :=
  (smoothed_weight_is_mean_of_last_two bootState [30, 200, 1000] 3 rfl rfl (by decide)
    (by decide)).1

/-- Claim C20: the calibration factor handed to the load-cell driver by
`initializeSystem` is exactly the integer 12 in both files.
`Config::CALIBRATION_VALUE` is an `unsigned long` initialised from 12.01 (`main.cpp`)
and from 12.333372 (`uploadmysql.cpp`), so its value is 12; when the tare does not
time out `initializeSystem` returns, and the effects it has performed by then end
with `setCalFactor(12)` and `setSamplesInUse(1)`; when the tare times out it hangs
without calling `setCalFactor`. -/
theorem calibration_factor_is_twelve (s : State) :
    Firestore.CALIBRATION_VALUE = 12 ∧ HttpMqtt.CALIBRATION_VALUE = 12 ∧
      (∃ t, Firestore.initializeSystem false s = .ok t ∧
        (newEvents s t).getLast? = some (.setSamplesInUse 1) ∧
        (newEvents s t).dropLast.getLast? = some (.setCalFactor 12) ∧
        (∀ c, Event.setCalFactor c ∈ newEvents s t → c = 12)) ∧
      (∃ t, HttpMqtt.initializeSystem false s = .ok t ∧
        (newEvents s t).getLast? = some (.setSamplesInUse 1) ∧
        (newEvents s t).dropLast.getLast? = some (.setCalFactor 12) ∧
        (∀ c, Event.setCalFactor c ∈ newEvents s t → c = 12)) ∧
      (∃ t, Firestore.initializeSystem true s = .error t ∧
        ∀ c, Event.setCalFactor c ∉ newEvents s t) ∧
      (∃ t, HttpMqtt.initializeSystem true s = .error t ∧
        ∀ c, Event.setCalFactor c ∉ newEvents s t) := by
  refine ⟨firestore_CALIBRATION_VALUE_eq, httpMqtt_CALIBRATION_VALUE_eq, ?_, ?_, ?_, ?_⟩
  · refine ⟨_, rfl, ?_⟩
    simp [newEvents, Firestore.initializeSystem, firestore_CALIBRATION_VALUE_eq, emits,
      setJenis, setSubJenis]
  · refine ⟨_, rfl, ?_⟩
    simp [newEvents, HttpMqtt.initializeSystem, httpMqtt_CALIBRATION_VALUE_eq, emits,
      setJenis, setSubJenis]
  · refine ⟨_, rfl, ?_⟩
    simp [newEvents, Firestore.initializeSystem, emits, setJenis, setSubJenis]
  · refine ⟨_, rfl, ?_⟩
    simp [newEvents, HttpMqtt.initializeSystem, emits, setJenis, setSubJenis]

/-- Claim C17: the ring-buffer index invariant.  Starting from `bufferIndex = 0` and
`weightBuffer = (0,0)` (no out-of-bounds write so far), after the calls of
`readSmoothedWeight` for any list `raws` of readings: `bufferIndex` is 0 or 1 and
equals the number of calls modulo 2; no write `weightBuffer[bufferIndex]` was or
will be out of bounds; the buffer holds the last two clamped samples, the most
recent one in slot `(n - 1) mod 2`; and the next call writes its sample to the slot
that holds the sample of two calls earlier (`c_(n-1)`) and leaves the other slot
unchanged. -/
theorem ring_buffer_index_invariant (s : State) (raws : List ℚ) (raw : ℚ)
    (hi : s.bufferIndex = 0) (hb : s.weightBuffer = (0, 0)) (ho : s.outOfBounds = false) :
    ((readAll raws s).2.bufferIndex = 0 ∨ (readAll raws s).2.bufferIndex = 1) ∧
      (readAll raws s).2.bufferIndex = ((raws.length % 2 : Nat) : Int) ∧
      (readAll raws s).2.outOfBounds = false ∧
      (readSmoothedWeight raw (readAll raws s).2).2.outOfBounds = false ∧
      (readAll raws s).2.weightBuffer =
        (if raws.length % 2 = 1 then
          (clampedSample raws raws.length, clampedSample raws (raws.length - 1))
        else (clampedSample raws (raws.length - 1), clampedSample raws raws.length)) ∧
      (if raws.length % 2 = 0 then (readAll raws s).2.weightBuffer.1
        else (readAll raws s).2.weightBuffer.2) = clampedSample raws (raws.length - 1) ∧
      (readSmoothedWeight raw (readAll raws s).2).2.weightBuffer =
        (if raws.length % 2 = 0 then (clampKg raw, (readAll raws s).2.weightBuffer.2)
        else ((readAll raws s).2.weightBuffer.1, clampKg raw)) := by
  obtain ⟨h1, h2, h3⟩ := readAll_ring raws s hi hb
  rw [ho] at h2
  rcases Nat.mod_two_eq_zero_or_one raws.length with hm | hm
  · rw [hm] at h1
    have h0 : (readAll raws s).2.bufferIndex = 0 := by simpa using h1
    have hs := readSmoothedWeight_slot0 raw (readAll raws s).2 h0
    refine ⟨Or.inl h0, by rw [hm]; exact h1, h2, by rw [hs.2.2, h2], h3, ?_, ?_⟩
    · rw [h3]; simp [hm]
    · rw [hs.2.1]; simp [hm]
  · rw [hm] at h1
    have h0 : (readAll raws s).2.bufferIndex = 1 := by simpa using h1
    have hs := readSmoothedWeight_slot1 raw (readAll raws s).2 h0
    refine ⟨Or.inr h0, by rw [hm]; exact h1, h2, by rw [hs.2.2, h2], h3, ?_, ?_⟩
    · rw [h3]; simp [hm]
    · rw [hs.2.1]; simp [hm]

/-- Witness for C17: three readings from the boot state, then a fourth. -/
theorem ring_buffer_index_invariant_witness :
    (readAll [30, 200, 1000] bootState).2.bufferIndex = ((3 % 2 : Nat) : Int) ∧
      (readSmoothedWeight 40 (readAll [30, 200, 1000] bootState).2).2.outOfBounds = false :=
  have h := ring_buffer_index_invariant bootState [30, 200, 1000] 40 rfl rfl rfl
  ⟨h.2.1, h.2.2.2.1⟩

/-! ## C11: the timestamp of a record -/

/-- Counterexample to C11 as stated, in `uploadmysql.cpp`: one iteration of `loop` that
starts in `IDLE` in offline mode with the deposit ("Organik","--"), in which the link
check finds the link up and the ping succeeds, `getLocalTime` fails in `syncTime`
(the only `syncTime` of the iteration returns false) and the commit button alone is
pressed.  The record is posted to the HTTP sink and published on MQTT, `sendToLaravel`
returns true, the success text is shown and the deposit is reset.  Neither record has
a timestamp field. -/
theorem hybrid_commit_without_clock_is_sent :
    offlineOrganikState.currentState = .IDLE ∧
      (HttpMqtt.clockDownInputs ⟨false, false, false, true⟩ 20000).wifi.getLocalTimeOk = false ∧
      Event.ret .syncTime false ∈ newEvents offlineOrganikState
        (HttpMqtt.loop sampleCred (HttpMqtt.clockDownInputs ⟨false, false, false, true⟩ 20000)
          offlineOrganikState) ∧
      (∀ ok, Event.ret .syncTime ok ∈ newEvents offlineOrganikState
        (HttpMqtt.loop sampleCred (HttpMqtt.clockDownInputs ⟨false, false, false, true⟩ 20000)
          offlineOrganikState) → ok = false) ∧
      Event.httpPost HttpMqtt.serverName "key" 0 "FSM" "Organik" ∈ newEvents offlineOrganikState
        (HttpMqtt.loop sampleCred (HttpMqtt.clockDownInputs ⟨false, false, false, true⟩ 20000)
          offlineOrganikState) ∧
      Event.mqttPublish HttpMqtt.mqtt_topic 0 "FSM" "Organik" ∈ newEvents offlineOrganikState
        (HttpMqtt.loop sampleCred (HttpMqtt.clockDownInputs ⟨false, false, false, true⟩ 20000)
          offlineOrganikState) ∧
      Event.ret .sendToLaravel true ∈ newEvents offlineOrganikState
        (HttpMqtt.loop sampleCred (HttpMqtt.clockDownInputs ⟨false, false, false, true⟩ 20000)
          offlineOrganikState) ∧
      Event.lcdPrint "Status: Sukses!      " ∈ newEvents offlineOrganikState
        (HttpMqtt.loop sampleCred (HttpMqtt.clockDownInputs ⟨false, false, false, true⟩ 20000)
          offlineOrganikState) ∧
      (HttpMqtt.loop sampleCred (HttpMqtt.clockDownInputs ⟨false, false, false, true⟩ 20000)
          offlineOrganikState).sampah = ⟨"--", "--"⟩ ∧
      (HttpMqtt.loop sampleCred (HttpMqtt.clockDownInputs ⟨false, false, false, true⟩ 20000)
          offlineOrganikState).currentState = .SHOWING_STATUS := by
  simp [HttpMqtt.loop, HttpMqtt.manageWifiConnection, HttpMqtt.maintainMqtt,
    HttpMqtt.checkNetworkHealth, HttpMqtt.syncTime, HttpMqtt.connectMQTT, idleWeight,
    readSmoothedWeight, updateWeightDisplay, prosesTombol, HttpMqtt.handleKirimData,
    HttpMqtt.sendToLaravel, HttpMqtt.sendToMQTT, HttpMqtt.updateStatusIndicators,
    HttpMqtt.clockDownInputs, HttpMqtt.sampleInputs, offlineOrganikState, hybridOrganikState,
    hybridBootState, bootState, sampleCred, newEvents, emit, emits, setJenis, setSubJenis, u32sub,
    Config.WIFI_CHECK_INTERVAL, Config.PIN_BUZZER, Config.LCD_UPDATE_INTERVAL,
    Config.WEIGHT_READ_INTERVAL]

/-- Claim C11, amended to `main.cpp` (the Firestore variant), the only file whose
records have a timestamp.
(1) A commit press handled in `IDLE` while `getLocalTime` fails ends in
`SHOWING_STATUS` with the deposit unchanged and no sink send; the texts printed are
the no-category rejection when `sampah.jenis` is `"--"`, else the sending text followed
by the failure text.
(2) For every `createDocument` performed by `handleKirimData`, `getLocalTime` succeeded
with some `timeinfo`, and the timestamp of the record is exactly the content of the
24-byte buffer after `strftime(buffer, 24, "%Y-%m-%dT%H:%M:%SZ", &timeinfo)`, which is
not empty.
(3) For every `timeinfo` whose year `tm_year + 1900` is between 1000 and 9999 and
whose month, day, hour, minute and second are between 0 and 99 (`Tm.InRange`), that
content has 20 characters and the form `YYYY-MM-DDTHH:MM:SSZ`.
(4) In every run of `loop`, from any state, every `createDocument` carries such a
timestamp: the non-empty text written by `strftime` for the `timeinfo` that
`getLocalTime` supplied in one of the iterations, of the form `YYYY-MM-DDTHH:MM:SSZ`
when that `timeinfo` is in range. -/
theorem firestore_record_is_timestamped (cred : Credentials) :
    (∀ (t : Tombol) (i : Firestore.SendIn) (now : Nat) (s : State),
      s.currentState = .IDLE → t.tombol3 = true → i.localTime = none →
        (Firestore.handleKirimData cred t i now s).currentState = .SHOWING_STATUS ∧
        (Firestore.handleKirimData cred t i now s).sampah = s.sampah ∧
        (∀ e ∈ newEvents s (Firestore.handleKirimData cred t i now s), e.isSend = false) ∧
        lcdTexts (newEvents s (Firestore.handleKirimData cred t i now s)) =
          (if s.sampah.jenis = "--" then ["Error: Pilih Jenis!   "]
            else ["Status: Mengirim... ", "Status: Gagal!        "])) ∧
    (∀ (t : Tombol) (i : Firestore.SendIn) (now : Nat) (s : State) (p c : String) (w : ℚ)
      (j f ts : String),
      Event.createDocument p c w j f ts ∈
          newEvents s (Firestore.handleKirimData cred t i now s) →
        ∃ tm, i.localTime = some tm ∧
          ts = strftime 24 "%Y-%m-%dT%H:%M:%SZ" tm i.strftimeOverflow ∧ ts.length ≠ 0 ∧
          (tm.InRange → ts.length = 20 ∧ isIsoUtc ts = true)) ∧
    (∀ (tm : Tm) (indeterminate : String), tm.InRange →
      (strftime 24 "%Y-%m-%dT%H:%M:%SZ" tm indeterminate).length = 20 ∧
      isIsoUtc (strftime 24 "%Y-%m-%dT%H:%M:%SZ" tm indeterminate) = true) ∧
    (∀ (inputs : List Firestore.Inputs) (s0 : State) (p c : String) (w : ℚ)
      (j f ts : String),
      Event.createDocument p c w j f ts ∈ newEvents s0 (Firestore.run cred inputs s0) →
        ∃ i ∈ inputs, ∃ tm, i.send.localTime = some tm ∧
          ts = strftime 24 "%Y-%m-%dT%H:%M:%SZ" tm i.send.strftimeOverflow ∧
          ts.length ≠ 0 ∧ (tm.InRange → ts.length = 20 ∧ isIsoUtc ts = true)) := by
  refine ⟨?_, ?_, ?_, ?_⟩
  · intro t i now s hs hb hl
    have h := firestore_handleKirimData_noClock cred t i now s hs hb hl
    exact ⟨h.1, h.2.1, h.2.2.1.noSend_newEvents, h.2.2.2⟩
  · intro t i now s p c w j f ts h
    obtain ⟨tm, h1, h2, h3⟩ := firestore_handleKirimData_record cred t i now s p c w j f ts h
    refine ⟨tm, h1, h2, h3, ?_⟩
    intro hr
    rw [h2]
    exact (strftime_iso tm hr i.strftimeOverflow).2
  · intro tm ov hr
    exact (strftime_iso tm hr ov).2
  · intro inputs s0 p c w j f ts h
    obtain ⟨i, hi, tm, h1, h2, h3⟩ := firestore_run_record cred inputs s0 p c w j f ts h
    refine ⟨i, hi, tm, h1, h2, h3, ?_⟩
    intro hr
    rw [h2]
    exact (strftime_iso tm hr i.send.strftimeOverflow).2

/-- Witness for the amended C11, on `main.cpp`: a commit of ("Organik","--") with the
clock unavailable prints the failure text and keeps the deposit; the same commit with
`getLocalTime` supplying 2024-01-01 00:00:00 creates a document with the timestamp
`2024-01-01T00:00:00Z`, which is what `strftime` writes for that time and has the form
`YYYY-MM-DDTHH:MM:SSZ`; for the year 10000, out of range, the text has not. -/
theorem firestore_record_is_timestamped_witness :
    lcdTexts (newEvents organikState
        (Firestore.handleKirimData sampleCred ⟨false, false, false, true⟩
          ⟨true, none, "", true⟩ 5000 organikState)) =
        ["Status: Mengirim... ", "Status: Gagal!        "] ∧
      (Firestore.handleKirimData sampleCred ⟨false, false, false, true⟩
          ⟨true, none, "", true⟩ 5000 organikState).sampah = ⟨"Organik", "--"⟩ ∧
      sampleTm.InRange ∧
      strftime 24 "%Y-%m-%dT%H:%M:%SZ" sampleTm "" = "2024-01-01T00:00:00Z" ∧
      isIsoUtc (strftime 24 "%Y-%m-%dT%H:%M:%SZ" sampleTm "") = true ∧
      isIsoUtc (strftime 24 "%Y-%m-%dT%H:%M:%SZ" { sampleTm with tm_year := 8100 } "") = false ∧
      Event.createDocument "project" "sampah" 0 "Organik" "FIB" "2024-01-01T00:00:00Z" ∈
        newEvents organikState
          (Firestore.handleKirimData sampleCred ⟨false, false, false, true⟩
            ⟨true, some sampleTm, "", true⟩ 5000 organikState) :=
  have h := (firestore_record_is_timestamped sampleCred).1 ⟨false, false, false, true⟩
    ⟨true, none, "", true⟩ 5000 organikState rfl rfl rfl
  have ht : Firestore.getTimestampUTC (some sampleTm) "" 24 = "2024-01-01T00:00:00Z" := by
    decide
  ⟨h.2.2.2, h.2.1, by decide, by decide,
    ((firestore_record_is_timestamped sampleCred).2.2.1 sampleTm "" (by decide)).2, by decide,
    by simp [newEvents, Firestore.handleKirimData, Firestore.sendDataToFirebase, ht,
      organikState, bootState, sampleCred, emit, emits, setJenis, setSubJenis,
      Config.PIN_BUZZER, (by decide : ¬ "2024-01-01T00:00:00Z".length = 0)]⟩

/-! ## C12: leaving offline mode -/

/-- Claim C12: in `uploadmysql.cpp`, for one iteration of `loop` that starts with
`offlineMode` true.
(1) The iteration ends with `offlineMode` false exactly when, in its
`manageWifiConnection`, the check interval has elapsed, the link is up and the ping
of `checkNetworkHealth` succeeds.
(2) When it ends with `offlineMode` false, `manageWifiConnection` itself already left
the flag false, and the first effects of that `manageWifiConnection` are the call of
`checkNetworkHealth`, its ping and its result true.
(3) With the link up and the ping failing the iteration ends with `offlineMode` true.
(4) With the check interval not elapsed `manageWifiConnection` does nothing (no call
of `checkNetworkHealth`) and the iteration ends with `offlineMode` true.
(5) Every other operation of the loop leaves `offlineMode` as it is, from any state:
the MQTT maintenance, the weight handling, `prosesTombol`, `handleKirimData`,
`updateStatusIndicators` and `restoreDefaultDisplay`; so after the iteration the flag
is as `manageWifiConnection` left it. -/
theorem offline_cleared_only_by_health_check (cred : Credentials) (i : HttpMqtt.Inputs)
    (s : State) (ho : s.offlineMode = true) :
    ((HttpMqtt.loop cred i s).offlineMode = false ↔
        (u32sub i.wifi.millisCheck s.lastWifiCheckTime ≥ Config.WIFI_CHECK_INTERVAL ∧
          i.wifi.wifiConnected = true ∧ i.wifi.pingOk = true)) ∧
      ((HttpMqtt.loop cred i s).offlineMode = false →
        (HttpMqtt.manageWifiConnection i.wifi s).offlineMode = false ∧
        (HttpMqtt.checkNetworkHealth i.wifi.pingOk s).1 = true ∧
        (newEvents s (HttpMqtt.manageWifiConnection i.wifi s)).take 3 =
          [.call .checkNetworkHealth, .ping, .ret .checkNetworkHealth true]) ∧
      (i.wifi.wifiConnected = true → i.wifi.pingOk = false →
        (HttpMqtt.loop cred i s).offlineMode = true) ∧
      (¬ u32sub i.wifi.millisCheck s.lastWifiCheckTime ≥ Config.WIFI_CHECK_INTERVAL →
        HttpMqtt.manageWifiConnection i.wifi s = s ∧
        calls .checkNetworkHealth (newEvents s (HttpMqtt.manageWifiConnection i.wifi s)) = 0 ∧
        (HttpMqtt.loop cred i s).offlineMode = true) ∧
      (∀ (t : State) (b : Tombol) (th : ℚ),
        (HttpMqtt.maintainMqtt i.maintain t).offlineMode = t.offlineMode ∧
        (idleWeight th i.millisIdle i.loadCellUpdate i.loadCellData t).offlineMode =
          t.offlineMode ∧
        (prosesTombol b t).offlineMode = t.offlineMode ∧
        (HttpMqtt.handleKirimData cred b i.laravel i.publish i.millisKirim t).offlineMode =
          t.offlineMode ∧
        (HttpMqtt.updateStatusIndicators i.status t).offlineMode = t.offlineMode ∧
        (restoreDefaultDisplay t).offlineMode = t.offlineMode) ∧
      (HttpMqtt.loop cred i s).offlineMode =
        (HttpMqtt.manageWifiConnection i.wifi s).offlineMode := by
  have hl := httpMqtt_loop_offlineMode cred i s
  have hm := httpMqtt_manageWifiConnection_offlineMode i.wifi s
  have hiff : (HttpMqtt.loop cred i s).offlineMode = false ↔
      (u32sub i.wifi.millisCheck s.lastWifiCheckTime ≥ Config.WIFI_CHECK_INTERVAL ∧
        i.wifi.wifiConnected = true ∧ i.wifi.pingOk = true) := by
    rw [hl, hm, ho]
    by_cases hi : u32sub i.wifi.millisCheck s.lastWifiCheckTime ≥ Config.WIFI_CHECK_INTERVAL
    · cases hw : i.wifi.wifiConnected <;> cases hp : i.wifi.pingOk <;> simp [hi]
    · simp [hi]
  refine ⟨hiff, ?_, ?_, ?_, ?_, hl⟩
  · intro h
    obtain ⟨hi, hw, hp⟩ := hiff.mp h
    refine ⟨hl ▸ h, hp, ?_⟩
    rw [httpMqtt_manageWifiConnection_recheck i.wifi s ho hi hw, hp]
    rfl
  · intro hw hp
    rw [hl, hm, ho, hw, hp]
    simp
  · intro hi
    have hs : HttpMqtt.manageWifiConnection i.wifi s = s := by
      simp [HttpMqtt.manageWifiConnection, hi]
    refine ⟨hs, ?_, ?_⟩
    · rw [hs, newEvents_self]
      rfl
    · rw [hl, hs, ho]
  · intro t b th
    exact ⟨httpMqtt_maintainMqtt_offlineMode _ _, idleWeight_offlineMode _ _ _ _ _,
      prosesTombol_offlineMode _ _, httpMqtt_handleKirimData_offlineMode _ _ _ _ _ _,
      httpMqtt_updateStatusIndicators_offlineMode _ _, restoreDefaultDisplay_offlineMode _⟩

/-- Witness for C12: from the offline state, an iteration at `millis() = 20000` with
the link up and the ping succeeding ends online; the same iteration at
`millis() = 100`, before the check interval has elapsed, ends offline. -/
theorem offline_cleared_only_by_health_check_witness :
    offlineOrganikState.offlineMode = true ∧
      (HttpMqtt.loop sampleCred (HttpMqtt.sampleInputs ⟨false, false, false, false⟩ 20000)
        offlineOrganikState).offlineMode = false ∧
      (HttpMqtt.loop sampleCred (HttpMqtt.sampleInputs ⟨false, false, false, false⟩ 100)
        offlineOrganikState).offlineMode = true :=
  ⟨rfl,
    (offline_cleared_only_by_health_check sampleCred
      (HttpMqtt.sampleInputs ⟨false, false, false, false⟩ 20000) offlineOrganikState rfl).1.mpr
      ⟨by decide, rfl, rfl⟩,
    ((offline_cleared_only_by_health_check sampleCred
      (HttpMqtt.sampleInputs ⟨false, false, false, false⟩ 100) offlineOrganikState
      rfl).2.2.2.1 (by decide)).2.2⟩

/-! ## C13: what sets offline mode -/

/-- Claim C14: the commit button is only effective in `IDLE`.  For an iteration of
`loop` (both files) that starts in `SELECTING_SUBTYPE`, `SENDING_DATA` or
`SHOWING_STATUS` with none of the buttons 1-3 pressed, whether or not button 4 is
pressed: the deposit is unchanged, no sink send is performed, and `currentState` is
unchanged except that `SHOWING_STATUS` becomes `IDLE` when
`(millis() - statusMsgTimestamp) mod 2^32` exceeds `STATUS_MSG_DURATION`.
In particular an iteration (any buttons) that starts in `SELECTING_SUBTYPE` and does
not end there has one of the buttons 1-3 pressed. -/
theorem commit_button_only_effective_in_idle (cred : Credentials) (fi : Firestore.Inputs)
    (hi : HttpMqtt.Inputs) (s : State) (hs : s.currentState ≠ .IDLE)
    (hf : fi.tombol.tombol0 = false ∧ fi.tombol.tombol1 = false ∧ fi.tombol.tombol2 = false)
    (hh : hi.tombol.tombol0 = false ∧ hi.tombol.tombol1 = false ∧ hi.tombol.tombol2 = false) :
    ((Firestore.loop cred fi s).sampah = s.sampah ∧
        (∀ e ∈ newEvents s (Firestore.loop cred fi s), e.isSend = false) ∧
        (Firestore.loop cred fi s).currentState =
          (if s.currentState = .SHOWING_STATUS ∧
              u32sub fi.millisShowing s.statusMsgTimestamp > Config.STATUS_MSG_DURATION
            then .IDLE else s.currentState)) ∧
      ((HttpMqtt.loop cred hi s).sampah = s.sampah ∧
        (∀ e ∈ newEvents s (HttpMqtt.loop cred hi s), e.isSend = false) ∧
        (HttpMqtt.loop cred hi s).currentState =
          (if s.currentState = .SHOWING_STATUS ∧
              u32sub hi.millisShowing s.statusMsgTimestamp > Config.STATUS_MSG_DURATION
            then .IDLE else s.currentState)) ∧
      (∀ i : Firestore.Inputs, s.currentState = .SELECTING_SUBTYPE →
        (Firestore.loop cred i s).currentState ≠ .SELECTING_SUBTYPE →
        i.tombol.tombol0 = true ∨ i.tombol.tombol1 = true ∨ i.tombol.tombol2 = true) ∧
      (∀ i : HttpMqtt.Inputs, s.currentState = .SELECTING_SUBTYPE →
        (HttpMqtt.loop cred i s).currentState ≠ .SELECTING_SUBTYPE →
        i.tombol.tombol0 = true ∨ i.tombol.tombol1 = true ∨ i.tombol.tombol2 = true) := by
  have a := firestore_loop_nonIdle_no_button cred fi s hs hf.1 hf.2.1 hf.2.2
  have b := httpMqtt_loop_nonIdle_no_button cred hi s hs hh.1 hh.2.1 hh.2.2
  exact ⟨⟨a.1, a.2.1.noSend_newEvents, a.2.2⟩, ⟨b.1, b.2.1.noSend_newEvents, b.2.2⟩,
    fun i h1 h2 => firestore_loop_leaves_selecting cred i s h1 h2,
    fun i h1 h2 => httpMqtt_loop_leaves_selecting cred i s h1 h2⟩

/-- Witness for C14: in `SELECTING_SUBTYPE` with the deposit ("Residu","--"), an
iteration with the commit button alone pressed leaves state and deposit as they are,
in both files. -/
theorem commit_button_only_effective_in_idle_witness :
    (Firestore.loop sampleCred (Firestore.sampleInputs ⟨false, false, false, true⟩ 5000)
        selectingState).currentState = .SELECTING_SUBTYPE ∧
      (Firestore.loop sampleCred (Firestore.sampleInputs ⟨false, false, false, true⟩ 5000)
        selectingState).sampah = ⟨"Residu", "--"⟩ ∧
      (HttpMqtt.loop sampleCred (HttpMqtt.sampleInputs ⟨false, false, false, true⟩ 5000)
        selectingState).currentState = .SELECTING_SUBTYPE ∧
      (HttpMqtt.loop sampleCred (HttpMqtt.sampleInputs ⟨false, false, false, true⟩ 5000)
        selectingState).sampah = ⟨"Residu", "--"⟩ :=
  have h := commit_button_only_effective_in_idle sampleCred
    (Firestore.sampleInputs ⟨false, false, false, true⟩ 5000)
    (HttpMqtt.sampleInputs ⟨false, false, false, true⟩ 5000) selectingState (by decide)
    ⟨rfl, rfl, rfl⟩ ⟨rfl, rfl, rfl⟩
  ⟨h.1.2.2, h.1.1, h.2.1.2.2, h.2.1.1⟩

/-! ## C15: the HTTP status of the backend -/

/-- Counterexample to C15 as stated: in `uploadmysql.cpp`, a commit of
("Organik","--") in online mode whose HTTP POST is answered with status 500 and a body
without `"berhasil"` (`indexOf` is -1).  `sendToLaravel` returns true, the text shown
is the success text and the deposit is reset. -/
theorem http_error_status_is_reported_as_success :
    hybridOrganikState.currentState = .IDLE ∧ hybridOrganikState.offlineMode = false ∧
      (HttpMqtt.sendToLaravel sampleCred ⟨true, true, 500, -1⟩ hybridOrganikState).1 = true ∧
      Event.ret .sendToLaravel true ∈ newEvents hybridOrganikState
        (HttpMqtt.handleKirimData sampleCred ⟨false, false, false, true⟩ ⟨true, true, 500, -1⟩
          (HttpMqtt.sampleInputs ⟨false, false, false, true⟩ 5000).publish 5000
          hybridOrganikState) ∧
      lcdTexts (newEvents hybridOrganikState
        (HttpMqtt.handleKirimData sampleCred ⟨false, false, false, true⟩ ⟨true, true, 500, -1⟩
          (HttpMqtt.sampleInputs ⟨false, false, false, true⟩ 5000).publish 5000
          hybridOrganikState)) = ["Status: Mengirim... ", "Status: Sukses!      "] ∧
      (HttpMqtt.handleKirimData sampleCred ⟨false, false, false, true⟩ ⟨true, true, 500, -1⟩
          (HttpMqtt.sampleInputs ⟨false, false, false, true⟩ 5000).publish 5000
          hybridOrganikState).sampah = ⟨"--", "--"⟩ ∧
      (HttpMqtt.handleKirimData sampleCred ⟨false, false, false, true⟩ ⟨true, true, 500, -1⟩
          (HttpMqtt.sampleInputs ⟨false, false, false, true⟩ 5000).publish 5000
          hybridOrganikState).sampah ≠ hybridOrganikState.sampah := by
  have hr : (HttpMqtt.sendToLaravel sampleCred ⟨true, true, 500, -1⟩ hybridOrganikState).1 = true := by
    rw [httpMqtt_sendToLaravel_result]
    decide
  have h := httpMqtt_handleKirimData_delivery sampleCred ⟨false, false, false, true⟩
    ⟨true, true, 500, -1⟩ (HttpMqtt.sampleInputs ⟨false, false, false, true⟩ 5000).publish
    5000 hybridOrganikState rfl rfl rfl (by decide)
  rw [hr] at h
  refine ⟨rfl, rfl, hr, h.2.2.2.2.2.2.1.mpr rfl, h.2.2.2.1, h.2.2.1, ?_⟩
  rw [h.2.2.1]
  decide

/-- Claim C15, amended: in `uploadmysql.cpp`, `sendToLaravel` returns true exactly when
the WiFi link is up, `http.begin` succeeds and the response code of `http.POST` is
positive, whatever the code and the body are (so also for a code of 400 or above);
it returns false only when no HTTP response was obtained.  For a commit press handled
in `IDLE` in online mode with a category selected: in the first case the texts printed
are the sending text and the success text and the deposit is reset to ("--","--");
otherwise they are the sending text and the failure text and the deposit is
preserved. -/
theorem laravel_fails_only_without_response (cred : Credentials) (t : Tombol)
    (l : HttpMqtt.LaravelIn) (p : HttpMqtt.PublishIn) (now : Nat) (s : State)
    (hs : s.currentState = .IDLE) (hb : t.tombol3 = true) (ho : s.offlineMode = false)
    (hj : s.sampah.jenis ≠ "--") :
    ((HttpMqtt.sendToLaravel cred l s).1 = true ↔
        (l.wifiConnected = true ∧ l.httpBeginOk = true ∧ l.httpResponseCode > 0)) ∧
      ((l.wifiConnected = true ∧ l.httpBeginOk = true ∧ l.httpResponseCode > 0) →
        lcdTexts (newEvents s (HttpMqtt.handleKirimData cred t l p now s)) =
          ["Status: Mengirim... ", "Status: Sukses!      "] ∧
        (HttpMqtt.handleKirimData cred t l p now s).sampah = ⟨"--", "--"⟩) ∧
      (¬ (l.wifiConnected = true ∧ l.httpBeginOk = true ∧ l.httpResponseCode > 0) →
        (HttpMqtt.sendToLaravel cred l s).1 = false ∧
        lcdTexts (newEvents s (HttpMqtt.handleKirimData cred t l p now s)) =
          ["Status: Mengirim... ", "Status: Gagal!        "] ∧
        (HttpMqtt.handleKirimData cred t l p now s).sampah = s.sampah) := by
  have hr := httpMqtt_sendToLaravel_result cred l s
  have h := httpMqtt_handleKirimData_delivery cred t l p now s hs hb ho hj
  refine ⟨by rw [hr]; simp, ?_, ?_⟩
  · intro hc
    have h1 : (HttpMqtt.sendToLaravel cred l s).1 = true := by rw [hr]; simpa using hc
    rw [h1] at h
    exact ⟨h.2.2.2.1, h.2.2.1⟩
  · intro hc
    have h1 : (HttpMqtt.sendToLaravel cred l s).1 = false := by rw [hr]; simpa using hc
    rw [h1] at h
    exact ⟨h1, h.2.2.2.1, h.2.2.1⟩

/-- Witness for the amended C15: a commit of ("Organik","--") answered with status 404
resets the deposit; the same commit with `http.POST` failing (code -1) keeps it. -/
theorem laravel_fails_only_without_response_witness :
    (HttpMqtt.handleKirimData sampleCred ⟨false, false, false, true⟩ ⟨true, true, 404, -1⟩
        brokerDown 5000 hybridOrganikState).sampah = ⟨"--", "--"⟩ ∧
      (HttpMqtt.handleKirimData sampleCred ⟨false, false, false, true⟩ ⟨true, true, -1, -1⟩
        brokerDown 5000 hybridOrganikState).sampah = ⟨"Organik", "--"⟩ :=
  ⟨((laravel_fails_only_without_response sampleCred ⟨false, false, false, true⟩
      ⟨true, true, 404, -1⟩ brokerDown 5000 hybridOrganikState rfl rfl rfl (by decide)).2.1
      (by decide)).2,
    ((laravel_fails_only_without_response sampleCred ⟨false, false, false, true⟩
      ⟨true, true, -1, -1⟩ brokerDown 5000 hybridOrganikState rfl rfl rfl (by decide)).2.2
      (by decide)).2.2⟩

/-! ## C16: which rejection is reported -/

/-- Counterexample to C16 as stated: in `uploadmysql.cpp`, a commit press handled in
`IDLE` with `sampah.jenis` equal to `"--"` while `offlineMode` is true prints the
offline text and not the no-category text. -/
theorem offline_rejection_precedes_no_category :
    offlineBootState.currentState = .IDLE ∧ offlineBootState.sampah.jenis = "--" ∧
      offlineBootState.offlineMode = true ∧
      lcdTexts (newEvents offlineBootState
        (HttpMqtt.handleKirimData sampleCred ⟨false, false, false, true⟩
          (HttpMqtt.sampleInputs ⟨false, false, false, true⟩ 5000).laravel
          (HttpMqtt.sampleInputs ⟨false, false, false, true⟩ 5000).publish 5000
          offlineBootState)) = ["Gagal: Offline!   "] ∧
      Event.lcdPrint "Error: Pilih Jenis!   " ∉ newEvents offlineBootState
        (HttpMqtt.handleKirimData sampleCred ⟨false, false, false, true⟩
          (HttpMqtt.sampleInputs ⟨false, false, false, true⟩ 5000).laravel
          (HttpMqtt.sampleInputs ⟨false, false, false, true⟩ 5000).publish 5000
          offlineBootState) := by
  rw [httpMqtt_handleKirimData_offline sampleCred ⟨false, false, false, true⟩ _ _ 5000
    offlineBootState rfl rfl rfl, newEvents_emits_with]
  exact ⟨rfl, rfl, rfl, rfl, by decide⟩

/-- Claim C16, amended: for a commit press handled in `IDLE` with `sampah.jenis` equal
to `"--"`.
(1) `main.cpp`: whatever the connectivity is (link up or down, clock available or not),
the effects are the tone and the print of the no-category text; `sendDataToFirebase`
is not called.
(2) `uploadmysql.cpp` with `offlineMode` true: the effects are the tone and the print of
the offline text; the offline check comes first.
(3) `uploadmysql.cpp` with `offlineMode` false: the effects are the tone and the print
of the no-category text.
In each case the deposit is unchanged and the state becomes `SHOWING_STATUS`. -/
theorem rejection_precedence (cred : Credentials) (t : Tombol) (now : Nat) (s : State)
    (hs : s.currentState = .IDLE) (hb : t.tombol3 = true) (hj : s.sampah.jenis = "--") :
    (∀ i : Firestore.SendIn,
        newEvents s (Firestore.handleKirimData cred t i now s) =
          [.tone Config.PIN_BUZZER 2000 300, .lcdSetCursor 0 0,
            .lcdPrint "Error: Pilih Jenis!   "] ∧
        (Firestore.handleKirimData cred t i now s).sampah = s.sampah ∧
        (Firestore.handleKirimData cred t i now s).currentState = .SHOWING_STATUS) ∧
      (∀ (l : HttpMqtt.LaravelIn) (p : HttpMqtt.PublishIn), s.offlineMode = true →
        newEvents s (HttpMqtt.handleKirimData cred t l p now s) =
          [.tone Config.PIN_BUZZER 2000 100, .lcdSetCursor 0 0,
            .lcdPrint "Gagal: Offline!   "] ∧
        (HttpMqtt.handleKirimData cred t l p now s).sampah = s.sampah ∧
        (HttpMqtt.handleKirimData cred t l p now s).currentState = .SHOWING_STATUS) ∧
      (∀ (l : HttpMqtt.LaravelIn) (p : HttpMqtt.PublishIn), s.offlineMode = false →
        newEvents s (HttpMqtt.handleKirimData cred t l p now s) =
          [.tone Config.PIN_BUZZER 2000 100, .lcdSetCursor 0 0,
            .lcdPrint "Error: Pilih Jenis!   "] ∧
        (HttpMqtt.handleKirimData cred t l p now s).sampah = s.sampah ∧
        (HttpMqtt.handleKirimData cred t l p now s).currentState = .SHOWING_STATUS) := by
  refine ⟨?_, ?_, ?_⟩
  · intro i
    rw [firestore_handleKirimData_noCategory cred t i now s hs hb hj, newEvents_emits_with]
    exact ⟨rfl, rfl, rfl⟩
  · intro l p ho
    rw [httpMqtt_handleKirimData_offline cred t l p now s hs hb ho, newEvents_emits_with]
    exact ⟨rfl, rfl, rfl⟩
  · intro l p ho
    rw [httpMqtt_handleKirimData_noCategory cred t l p now s hs hb ho hj,
      newEvents_emits_with]
    exact ⟨rfl, rfl, rfl⟩

/-- Witness for the amended C16: with no category selected, `main.cpp` with the link
down reports the missing category and `uploadmysql.cpp` in online mode does too. -/
theorem rejection_precedence_witness :
    lastPrint (newEvents bootState
        (Firestore.handleKirimData sampleCred ⟨false, false, false, true⟩
          ⟨false, none, "", false⟩ 5000 bootState)) = some "Error: Pilih Jenis!   " ∧
      lastPrint (newEvents bootState
        (HttpMqtt.handleKirimData sampleCred ⟨false, false, false, true⟩
          ⟨false, false, -1, -1⟩ brokerDown 5000 bootState)) =
        some "Error: Pilih Jenis!   " :=
  have h := rejection_precedence sampleCred ⟨false, false, false, true⟩ 5000 bootState
    rfl rfl rfl
  ⟨by rw [(h.1 ⟨false, none, "", false⟩).1]; rfl,
    by rw [(h.2.2 ⟨false, false, -1, -1⟩ brokerDown rfl).1]; rfl⟩

/-! ## C18: the four label computations -/

/-- Counterexample to C18 as stated: for the deposit ("Anorganik","Botol Plastik 1"),
both fields of at most 15 characters, the label sent by `sendToLaravel` is
`"Botol Plastik 1"`, while `restoreDefaultDisplay` prints `"Jenis: Botol Plastik"`:
the text after `"Jenis: "` is cut to 13 characters by the 21-byte `displayText`. -/
theorem display_label_is_cut_at_13 :
    longLabelState.sampah.jenis.length ≤ 15 ∧ longLabelState.sampah.subJenis.length ≤ 15 ∧
      specLabel longLabelState.sampah = "Botol Plastik 1" ∧
      Event.httpPost HttpMqtt.serverName "key" 0 "FSM" "Botol Plastik 1" ∈
        newEvents longLabelState
          (HttpMqtt.sendToLaravel sampleCred ⟨true, true, 200, 0⟩ longLabelState).2 ∧
      lcdTexts (newEvents longLabelState (restoreDefaultDisplay longLabelState)) =
        ["Jenis: Botol Plastik", "kg"] ∧
      ("Jenis: Botol Plastik" : String) ≠ "Jenis: " ++ specLabel longLabelState.sampah := by
  have hl : specLabel longLabelState.sampah = "Botol Plastik 1" := by decide
  rw [restoreDefaultDisplay_events, httpMqtt_sendToLaravel_events, hl]
  refine ⟨by decide, by decide, rfl, ?_, ?_, by decide⟩
  · simp [longLabelState, hybridBootState, bootState, sampleCred]
  · have ht : ("Jenis: " ++ ("Botol Plastik 1" : String).take 13 : String) =
        "Jenis: Botol Plastik" := by decide
    simp [ht]

/-- Claim C18, amended: for a deposit whose `jenis` and `subJenis` have at most 15
characters each, with `specLabel` the label of the specification (`"Anorganik"` when
`jenis = "Anorganik"` and `subJenis = "Umum"`, `subJenis` when `jenis = "Anorganik"`
and `subJenis` is neither `"--"` nor `"Umum"`, `jenis` otherwise).
(1) Every sink send of `sendDataToFirebase`, of `sendToLaravel` and of `sendToMQTT`
carries the label `specLabel`, and each function performs such a send once its
preconditions hold (link up and clock available; link up and `http.begin` succeeding;
broker connected).
(2) `restoreDefaultDisplay` prints `"Jenis: "` followed by the first 13 characters of
`specLabel`; this is `"Jenis: "` followed by `specLabel` when `specLabel` has at most
13 characters. -/
theorem sink_labels_agree_display_cuts (cred : Credentials) (s : State)
    (hj : s.sampah.jenis.length ≤ 15) (hs : s.sampah.subJenis.length ≤ 15) :
    (∀ (i : Firestore.SendIn),
        (∀ e ∈ newEvents s (Firestore.sendDataToFirebase cred i s).2, e.isSend = true →
          e.label = some (specLabel s.sampah)) ∧
        (i.wifiConnected = true → (Firestore.getTimestampUTC i.localTime i.strftimeOverflow 24).length ≠ 0 →
          Event.createDocument cred.FIREBASE_PROJECT_ID "sampah" s.currentWeight
              (specLabel s.sampah) s.fakultas (Firestore.getTimestampUTC i.localTime i.strftimeOverflow 24) ∈
            newEvents s (Firestore.sendDataToFirebase cred i s).2)) ∧
      (∀ (l : HttpMqtt.LaravelIn),
        (∀ e ∈ newEvents s (HttpMqtt.sendToLaravel cred l s).2, e.isSend = true →
          e.label = some (specLabel s.sampah)) ∧
        (l.wifiConnected = true → l.httpBeginOk = true →
          Event.httpPost HttpMqtt.serverName cred.API_KEY s.currentWeight s.fakultas
              (specLabel s.sampah) ∈
            newEvents s (HttpMqtt.sendToLaravel cred l s).2)) ∧
      (∀ (p : HttpMqtt.PublishIn),
        (∀ e ∈ newEvents s (HttpMqtt.sendToMQTT p s).2, e.isSend = true →
          e.label = some (specLabel s.sampah)) ∧
        (¬ (p.connected = false ∧ p.connectedAfter = false) →
          Event.mqttPublish HttpMqtt.mqtt_topic s.currentWeight s.fakultas
              (specLabel s.sampah) ∈
            newEvents s (HttpMqtt.sendToMQTT p s).2)) ∧
      lcdTexts (newEvents s (restoreDefaultDisplay s)) =
        ["Jenis: " ++ (specLabel s.sampah).take 13, "kg"] ∧
      ((specLabel s.sampah).length ≤ 13 →
        lcdTexts (newEvents s (restoreDefaultDisplay s)) =
          ["Jenis: " ++ specLabel s.sampah, "kg"]) := by
  refine ⟨?_, ?_, ?_, ?_, ?_⟩
  · intro i
    rw [firestore_sendDataToFirebase_events cred i s hj hs]
    constructor
    · intro e he hsend
      split_ifs at he <;> simp at he <;> rcases he with rfl | rfl | rfl <;>
        first | rfl | cases hsend
    · intro hw hl
      simp [hw, hl]
  · intro l
    rw [httpMqtt_sendToLaravel_events cred l s]
    constructor
    · intro e he hsend
      split_ifs at he <;> simp at he <;> rcases he with rfl | rfl | rfl <;>
        first | rfl | cases hsend
    · intro hw hb
      simp [hw, hb]
  · intro p
    rw [httpMqtt_sendToMQTT_events p s hj hs]
    constructor
    · intro e he hsend
      have hall := (allEvents_iff (Event.hasLabel (specLabel s.sampah)) _).mp
        (by simp [Event.hasLabel]) e he
      exact (hasLabel_iff _ _).mp hall hsend
    · intro hc
      simp [hc]
  · rw [restoreDefaultDisplay_events]
    simp
  · intro h13
    rw [restoreDefaultDisplay_events, take_of_length_le _ 13 h13]
    simp

/-- Witness for the amended C18: the deposit ("Anorganik","Botol") is shown as
`"Jenis: Botol"` and posted with the label `"Botol"`. -/
theorem sink_labels_agree_display_cuts_witness :
    lcdTexts (newEvents { hybridBootState with sampah := ⟨"Anorganik", "Botol"⟩ }
        (restoreDefaultDisplay { hybridBootState with sampah := ⟨"Anorganik", "Botol"⟩ })) =
        ["Jenis: Botol", "kg"] ∧
      Event.httpPost HttpMqtt.serverName "key" 0 "FSM" "Botol" ∈
        newEvents { hybridBootState with sampah := ⟨"Anorganik", "Botol"⟩ }
          (HttpMqtt.sendToLaravel sampleCred ⟨true, true, 200, 0⟩
            { hybridBootState with sampah := ⟨"Anorganik", "Botol"⟩ }).2 :=
  have h := sink_labels_agree_display_cuts sampleCred
    { hybridBootState with sampah := ⟨"Anorganik", "Botol"⟩ } (by decide) (by decide)
  ⟨h.2.2.2.2 (by decide), (h.2.1 ⟨true, true, 200, 0⟩).2 rfl rfl⟩

/-! ## C19: the commit is evaluated after `prosesTombol` -/

/-- Claim C19: within one iteration of `loop` (both files) that starts in `IDLE`, the
commit is evaluated on the state left by `prosesTombol`.
(1), (2) With button 2 pressed and button 1 not, whether or not button 4 is pressed:
the iteration ends in `SELECTING_SUBTYPE`, the deposit and the status timer are
unchanged, no sink send is performed, and the iteration is the same as with button 4
not pressed (the commit press is discarded).
(3), (4) With buttons 1 and 4 pressed: `handleKirimData` runs on a state in `IDLE`
whose deposit is ("Organik","--") whatever the deposit was before; every sink send of
the iteration carries the label `"Organik"`; the iteration ends in `SHOWING_STATUS`
with the deposit ("--","--") (after a success) or ("Organik","--"). -/
theorem commit_evaluated_after_prosesTombol (cred : Credentials) (fi : Firestore.Inputs)
    (hi : HttpMqtt.Inputs) (s : State) (hs : s.currentState = .IDLE) :
    (fi.tombol.tombol0 = false → fi.tombol.tombol1 = true →
        (Firestore.loop cred fi s).currentState = .SELECTING_SUBTYPE ∧
        (Firestore.loop cred fi s).sampah = s.sampah ∧
        (Firestore.loop cred fi s).statusMsgTimestamp = s.statusMsgTimestamp ∧
        (∀ e ∈ newEvents s (Firestore.loop cred fi s), e.isSend = false) ∧
        Firestore.loop cred fi s = Firestore.loop cred (Firestore.releaseCommit fi) s) ∧
      (hi.tombol.tombol0 = false → hi.tombol.tombol1 = true →
        (HttpMqtt.loop cred hi s).currentState = .SELECTING_SUBTYPE ∧
        (HttpMqtt.loop cred hi s).sampah = s.sampah ∧
        (HttpMqtt.loop cred hi s).statusMsgTimestamp = s.statusMsgTimestamp ∧
        (∀ e ∈ newEvents s (HttpMqtt.loop cred hi s), e.isSend = false) ∧
        HttpMqtt.loop cred hi s = HttpMqtt.loop cred (HttpMqtt.releaseCommit hi) s) ∧
      (fi.tombol.tombol0 = true → fi.tombol.tombol3 = true →
        Firestore.loop cred fi s =
          Firestore.updateStatusIndicators fi.status
            (Firestore.handleKirimData cred fi.tombol fi.send fi.millisKirim
              (prosesTombol fi.tombol
                (idleWeight Firestore.MIN_WEIGHT_THRESHOLD fi.millisIdle fi.loadCellUpdate
                  fi.loadCellData (Firestore.manageWifiConnection fi.wifi s)))) ∧
        (prosesTombol fi.tombol
          (idleWeight Firestore.MIN_WEIGHT_THRESHOLD fi.millisIdle fi.loadCellUpdate
            fi.loadCellData (Firestore.manageWifiConnection fi.wifi s))).currentState = .IDLE ∧
        (prosesTombol fi.tombol
          (idleWeight Firestore.MIN_WEIGHT_THRESHOLD fi.millisIdle fi.loadCellUpdate
            fi.loadCellData (Firestore.manageWifiConnection fi.wifi s))).sampah =
          ⟨"Organik", "--"⟩ ∧
        (∀ e ∈ newEvents s (Firestore.loop cred fi s), e.isSend = true →
          e.label = some "Organik") ∧
        (Firestore.loop cred fi s).currentState = .SHOWING_STATUS ∧
        ((Firestore.loop cred fi s).sampah = ⟨"--", "--"⟩ ∨
          (Firestore.loop cred fi s).sampah = ⟨"Organik", "--"⟩)) ∧
      (hi.tombol.tombol0 = true → hi.tombol.tombol3 = true →
        HttpMqtt.loop cred hi s =
          HttpMqtt.updateStatusIndicators hi.status
            (HttpMqtt.handleKirimData cred hi.tombol hi.laravel hi.publish hi.millisKirim
              (prosesTombol hi.tombol
                (idleWeight HttpMqtt.MIN_WEIGHT_THRESHOLD hi.millisIdle hi.loadCellUpdate
                  hi.loadCellData
                  (HttpMqtt.maintainMqtt hi.maintain
                    (HttpMqtt.manageWifiConnection hi.wifi s))))) ∧
        (prosesTombol hi.tombol
          (idleWeight HttpMqtt.MIN_WEIGHT_THRESHOLD hi.millisIdle hi.loadCellUpdate
            hi.loadCellData
            (HttpMqtt.maintainMqtt hi.maintain
              (HttpMqtt.manageWifiConnection hi.wifi s)))).currentState = .IDLE ∧
        (prosesTombol hi.tombol
          (idleWeight HttpMqtt.MIN_WEIGHT_THRESHOLD hi.millisIdle hi.loadCellUpdate
            hi.loadCellData
            (HttpMqtt.maintainMqtt hi.maintain
              (HttpMqtt.manageWifiConnection hi.wifi s)))).sampah = ⟨"Organik", "--"⟩ ∧
        (∀ e ∈ newEvents s (HttpMqtt.loop cred hi s), e.isSend = true →
          e.label = some "Organik") ∧
        (HttpMqtt.loop cred hi s).currentState = .SHOWING_STATUS ∧
        ((HttpMqtt.loop cred hi s).sampah = ⟨"--", "--"⟩ ∨
          (HttpMqtt.loop cred hi s).sampah = ⟨"Organik", "--"⟩)) := by
  refine ⟨?_, ?_, ?_, ?_⟩
  · intro h0 h1
    have a := firestore_loop_idle_button2 cred fi s hs h0 h1
    have b := firestore_loop_idle_button2_discard cred fi s hs h0 h1
    exact ⟨a.1, a.2, b.2.2, b.2.1.noSend_newEvents, b.1⟩
  · intro h0 h1
    have a := httpMqtt_loop_idle_button2 cred hi s hs h0 h1
    have b := httpMqtt_loop_idle_button2_discard cred hi s hs h0 h1
    exact ⟨a.1, a.2.1, b.2.2, b.2.1.noSend_newEvents, b.1⟩
  · intro h0 h3
    have a := firestore_loop_idle_button1_commit cred fi s hs h0 h3
    exact ⟨firestore_loop_idle cred fi s hs, a.1, a.2.1,
      fun e he => (hasLabel_iff "Organik" e).mp (a.2.2.1.all_newEvents e he), a.2.2.2.1,
      a.2.2.2.2⟩
  · intro h0 h3
    have a := httpMqtt_loop_idle_button1_commit cred hi s hs h0 h3
    exact ⟨httpMqtt_loop_idle cred hi s hs, a.1, a.2.1,
      fun e he => (hasLabel_iff "Organik" e).mp (a.2.2.1.all_newEvents e he), a.2.2.2.1,
      a.2.2.2.2⟩

/-- Witness for C19: from `IDLE` with the deposit ("Anorganik","Botol"), an iteration
of `main.cpp` with buttons 2 and 4 pressed ends in `SELECTING_SUBTYPE` with the
deposit kept, and an iteration of `uploadmysql.cpp` with buttons 1 and 4 pressed ends
in `SHOWING_STATUS` having posted a record with the label `"Organik"` and sent no
other label. -/
theorem commit_evaluated_after_prosesTombol_witness :
    botolState.currentState = .IDLE ∧ hybridBotolState.currentState = .IDLE ∧
      (Firestore.loop sampleCred (Firestore.sampleInputs ⟨false, true, false, true⟩ 5000)
        botolState).currentState = .SELECTING_SUBTYPE ∧
      (Firestore.loop sampleCred (Firestore.sampleInputs ⟨false, true, false, true⟩ 5000)
        botolState).sampah = ⟨"Anorganik", "Botol"⟩ ∧
      (HttpMqtt.loop sampleCred (HttpMqtt.sampleInputs ⟨true, false, false, true⟩ 5000)
        hybridBotolState).currentState = .SHOWING_STATUS ∧
      (∀ e ∈ newEvents hybridBotolState
          (HttpMqtt.loop sampleCred (HttpMqtt.sampleInputs ⟨true, false, false, true⟩ 5000)
            hybridBotolState), e.isSend = true → e.label = some "Organik") ∧
      Event.httpPost HttpMqtt.serverName "key" 0 "FSM" "Organik" ∈ newEvents hybridBotolState
        (HttpMqtt.loop sampleCred (HttpMqtt.sampleInputs ⟨true, false, false, true⟩ 5000)
          hybridBotolState) :=
  have h := commit_evaluated_after_prosesTombol sampleCred
    (Firestore.sampleInputs ⟨false, true, false, true⟩ 5000)
    (HttpMqtt.sampleInputs ⟨true, false, false, true⟩ 5000) botolState rfl
  have g := commit_evaluated_after_prosesTombol sampleCred
    (Firestore.sampleInputs ⟨false, true, false, true⟩ 5000)
    (HttpMqtt.sampleInputs ⟨true, false, false, true⟩ 5000) hybridBotolState rfl
  ⟨rfl, rfl, (h.1 rfl rfl).1, (h.1 rfl rfl).2.1, (g.2.2.2 rfl rfl).2.2.2.2.1,
    (g.2.2.2 rfl rfl).2.2.2.1,
    by simp [HttpMqtt.loop, HttpMqtt.manageWifiConnection, HttpMqtt.maintainMqtt,
      HttpMqtt.checkNetworkHealth, HttpMqtt.syncTime, HttpMqtt.connectMQTT, idleWeight,
      readSmoothedWeight, updateWeightDisplay, prosesTombol, restoreDefaultDisplay,
      HttpMqtt.handleKirimData, HttpMqtt.sendToLaravel, HttpMqtt.sendToMQTT,
      HttpMqtt.updateStatusIndicators, HttpMqtt.sampleInputs, hybridBotolState,
      hybridBootState, bootState, sampleCred, newEvents, emit, emits, setJenis, setSubJenis,
      u32sub, Config.WIFI_CHECK_INTERVAL, Config.PIN_BUZZER, Config.LCD_UPDATE_INTERVAL,
      Config.WEIGHT_READ_INTERVAL, HttpMqtt.MIN_WEIGHT_THRESHOLD]⟩


end EcoScale
